import Mathlib

/-!
# Player component: key mapper, input, movement, camera, footsteps and flow nodes

A shallow embedding of `Code/Components/Player.cpp` and `Player.h`.

* Scalars (`float` in the source) are elements of an arbitrary field `R`; the
  concrete evaluations use `ℚ`.
* `std::unordered_map` is an association list with at most one entry per key;
  the range-for of the source walks it in storage order.
* The engine enumerations (`EKeyId`, `EActionActivationMode`,
  `EActionInputDevice`) are declared in engine headers outside the repository;
  their numeric values are a parameter (`EngineHeaders`) of every definition.
* `CryLogAlways` appends the formatted line to a log.
* The engine's vector and rotation routines are a parameter (`EngineMath`);
  its world, XML and audio services are a parameter (`EngineEnv`).
-/

set_option autoImplicit false

namespace PlayerComponent

/-! ## Association lists standing for `std::unordered_map` -/

namespace Assoc

variable {κ ν : Type} [DecidableEq κ]

/-- The value stored under `k` (`find`), if any. -/
def find (k : κ) : List (κ × ν) → Option ν
  | [] => none
  | (k', v) :: rest => if k' = k then some v else find k rest

/-- The effect of `m[k] = v`: overwrite the entry of `k`, or add one. -/
def assign (k : κ) (v : ν) : List (κ × ν) → List (κ × ν)
  | [] => [(k, v)]
  | (k', v') :: rest => if k' = k then (k', v) :: rest else (k', v') :: assign k v rest

/-- The effect of `insert`: an entry is added only when the key has none. -/
def insert (k : κ) (v : ν) (m : List (κ × ν)) : List (κ × ν) :=
  if (find k m).isSome then m else m ++ [(k, v)]

/-- Construction from an initializer list: the pairs are inserted in order. -/
def ofInitList (l : List (κ × ν)) : List (κ × ν) :=
  l.foldl (fun m p => insert p.1 p.2 m) []

end Assoc

/-! ## Engine enumerations -/

/-- The enumerators of `EKeyId` that the source names. -/
inductive EKeySym where
  | eKI_Escape
  | eKI_1
  | eKI_2
  | eKI_3
  | eKI_4
  | eKI_5
  | eKI_6
  | eKI_7
  | eKI_8
  | eKI_9
  | eKI_0
  | eKI_Minus
  | eKI_Equals
  | eKI_Backspace
  | eKI_Tab
  | eKI_Q
  | eKI_W
  | eKI_E
  | eKI_R
  | eKI_T
  | eKI_Y
  | eKI_U
  | eKI_I
  | eKI_O
  | eKI_P
  | eKI_LBracket
  | eKI_RBracket
  | eKI_Enter
  | eKI_LCtrl
  | eKI_A
  | eKI_S
  | eKI_D
  | eKI_F
  | eKI_G
  | eKI_H
  | eKI_J
  | eKI_K
  | eKI_L
  | eKI_Semicolon
  | eKI_Apostrophe
  | eKI_Tilde
  | eKI_LShift
  | eKI_Backslash
  | eKI_Z
  | eKI_X
  | eKI_C
  | eKI_V
  | eKI_B
  | eKI_N
  | eKI_M
  | eKI_Comma
  | eKI_Period
  | eKI_Slash
  | eKI_RShift
  | eKI_NP_Multiply
  | eKI_LAlt
  | eKI_Space
  | eKI_CapsLock
  | eKI_F1
  | eKI_F2
  | eKI_F3
  | eKI_F4
  | eKI_F5
  | eKI_F6
  | eKI_F7
  | eKI_F8
  | eKI_F9
  | eKI_F10
  | eKI_NumLock
  | eKI_ScrollLock
  | eKI_NP_7
  | eKI_NP_8
  | eKI_NP_9
  | eKI_NP_Substract
  | eKI_NP_4
  | eKI_NP_5
  | eKI_NP_6
  | eKI_NP_Add
  | eKI_NP_1
  | eKI_NP_2
  | eKI_NP_3
  | eKI_NP_0
  | eKI_F11
  | eKI_F12
  | eKI_F13
  | eKI_F14
  | eKI_F15
  | eKI_Colon
  | eKI_Underline
  | eKI_NP_Enter
  | eKI_RCtrl
  | eKI_NP_Period
  | eKI_NP_Divide
  | eKI_Print
  | eKI_RAlt
  | eKI_Pause
  | eKI_Home
  | eKI_Up
  | eKI_PgUp
  | eKI_Left
  | eKI_Right
  | eKI_End
  | eKI_Down
  | eKI_PgDn
  | eKI_Insert
  | eKI_Delete
  | eKI_LWin
  | eKI_RWin
  | eKI_Apps
  | eKI_OEM_102
  | eKI_Mouse1
  | eKI_Mouse2
  | eKI_Mouse3
  | eKI_Mouse4
  | eKI_Mouse5
  | eKI_Mouse6
  | eKI_Mouse7
  | eKI_Mouse8
  | eKI_MouseWheelUp
  | eKI_MouseWheelDown
  | eKI_MouseX
  | eKI_MouseY
  | eKI_MouseZ
  | eKI_MouseXAbsolute
  | eKI_MouseYAbsolute
  | eKI_XI_DPadUp
  | eKI_XI_DPadDown
  | eKI_XI_DPadLeft
  | eKI_XI_DPadRight
  | eKI_XI_Start
  | eKI_XI_Back
  | eKI_XI_ThumbL
  | eKI_XI_ThumbR
  | eKI_XI_ShoulderL
  | eKI_XI_ShoulderR
  | eKI_XI_A
  | eKI_XI_B
  | eKI_XI_X
  | eKI_XI_Y
  | eKI_XI_TriggerL
  | eKI_XI_TriggerR
  | eKI_XI_ThumbLX
  | eKI_XI_ThumbLY
  | eKI_XI_ThumbLUp
  | eKI_XI_ThumbLDown
  | eKI_XI_ThumbLLeft
  | eKI_XI_ThumbLRight
  | eKI_XI_ThumbRX
  | eKI_XI_ThumbRY
  | eKI_XI_ThumbRUp
  | eKI_XI_ThumbRDown
  | eKI_XI_ThumbRLeft
  | eKI_XI_ThumbRRight
  | eKI_Orbis_Options
  | eKI_Orbis_L3
  | eKI_Orbis_R3
  | eKI_Orbis_Up
  | eKI_Orbis_Right
  | eKI_Orbis_Down
  | eKI_Orbis_Left
  | eKI_Orbis_L2
  | eKI_Orbis_R2
  | eKI_Orbis_L1
  | eKI_Orbis_R1
  | eKI_Orbis_Triangle
  | eKI_Orbis_Circle
  | eKI_Orbis_Cross
  | eKI_Orbis_Square
  | eKI_Orbis_StickLX
  | eKI_Orbis_StickLY
  | eKI_Orbis_StickRX
  | eKI_Orbis_StickRY
  | eKI_Orbis_RotX
  | eKI_Orbis_RotY
  | eKI_Orbis_RotZ
  | eKI_Orbis_RotX_KeyL
  | eKI_Orbis_RotX_KeyR
  | eKI_Orbis_RotZ_KeyD
  | eKI_Orbis_RotZ_KeyU
  | eKI_Orbis_LeftTrigger
  | eKI_Orbis_RightTrigger
  | eKI_Orbis_Touch
  | eKI_Motion_OculusTouch_A
  | eKI_Motion_OculusTouch_B
  | eKI_Motion_OculusTouch_X
  | eKI_Motion_OculusTouch_Y
  | eKI_Motion_OculusTouch_L3
  | eKI_Motion_OculusTouch_R3
  | eKI_Motion_OculusTouch_TriggerBtnL
  | eKI_Motion_OculusTouch_TriggerBtnR
  | eKI_Motion_OculusTouch_L1
  | eKI_Motion_OculusTouch_R1
  | eKI_Motion_OculusTouch_L2
  | eKI_Motion_OculusTouch_R2
  | eKI_Motion_OculusTouch_StickL_Y
  | eKI_Motion_OculusTouch_StickR_Y
  | eKI_Motion_OculusTouch_StickL_X
  | eKI_Motion_OculusTouch_StickR_X
  | eKI_Motion_OculusTouch_Gesture_ThumbUpL
  | eKI_Motion_OculusTouch_Gesture_ThumbUpR
  | eKI_Motion_OculusTouch_Gesture_IndexPointingL
  | eKI_Motion_OculusTouch_Gesture_IndexPointingR
  | eKI_Motion_OculusTouch_NUM_SYMBOLS
  | eKI_Motion_OculusTouch_LastButtonIndex
  | eKI_Motion_OculusTouch_FirstGestureIndex
  | eKI_Motion_OculusTouch_LastGestureIndex
  | eKI_Motion_OculusTouch_FirstTriggerIndex
  | eKI_Motion_OculusTouch_LastTriggerIndex
  | eKI_EyeTracker_X
  | eKI_EyeTracker_Y
  | eKI_Motion_OpenVR_System
  | eKI_Motion_OpenVR_ApplicationMenu
  | eKI_Motion_OpenVR_Grip
  | eKI_Motion_OpenVR_TouchPad_X
  | eKI_Motion_OpenVR_TouchPad_Y
  | eKI_Motion_OpenVR_Trigger
  | eKI_Motion_OpenVR_TriggerBtn
  | eKI_Motion_OpenVR_TouchPadBtn
  | eKI_Motion_OpenVR_NUM_SYMBOLS
  | eKI_Unknown
  deriving DecidableEq, Repr

/-- A key identifier: the numeric value of an `EKeyId` enumerator. -/
abbrev EKeyId := Int

/-- What the source takes from engine headers that are not part of the
repository: the numeric values of the enumerators it names and the default
values of the last three arguments of `CInputComponent::BindAction`. -/
structure EngineHeaders where
  keyId : EKeySym → EKeyId
  eAAM_OnPress : Int
  eAAM_OnRelease : Int
  eAAM_OnHold : Int
  eAID_KeyboardMouse : Int
  eFE_Activate : Int
  bOnPressDefault : Bool
  bOnReleaseDefault : Bool
  bOnHoldDefault : Bool

/-- A sample numbering used for concrete evaluations: keys in declaration
order, activation modes as distinct bits. -/
def sampleHeaders : EngineHeaders where
  keyId := fun s => (s.toCtorIdx : Int)
  eAAM_OnPress := 1
  eAAM_OnRelease := 2
  eAAM_OnHold := 4
  eAID_KeyboardMouse := 1
  eFE_Activate := 4
  bOnPressDefault := true
  bOnReleaseDefault := true
  bOnHoldDefault := true

/-- A second sample numbering: keys ten apart in declaration order, with
`eKI_0` placed below `eKI_1`, so that there are ids between two enumerators. -/
def spacedHeaders : EngineHeaders where
  keyId := fun s => if s = EKeySym.eKI_0 then 5 else 10 * (s.toCtorIdx : Int)
  eAAM_OnPress := 1
  eAAM_OnRelease := 2
  eAAM_OnHold := 4
  eAID_KeyboardMouse := 1
  eFE_Activate := 4
  bOnPressDefault := true
  bOnReleaseDefault := true
  bOnHoldDefault := true

/-! ## KeyMapper -/

/-- The initializer list of `s_keyIdToNameMap` in `InitializeKeyMappings`,
in source order (the Xbox block occurs twice in the source). -/
def keyTable : List (EKeySym × String) := [
  (EKeySym.eKI_Escape, "Escape"), (EKeySym.eKI_1, "1"),
  (EKeySym.eKI_2, "2"), (EKeySym.eKI_3, "3"),
  (EKeySym.eKI_4, "4"), (EKeySym.eKI_5, "5"),
  (EKeySym.eKI_6, "6"), (EKeySym.eKI_7, "7"),
  (EKeySym.eKI_8, "8"), (EKeySym.eKI_9, "9"),
  (EKeySym.eKI_0, "0"), (EKeySym.eKI_Minus, "Minus"),
  (EKeySym.eKI_Equals, "Equals"), (EKeySym.eKI_Backspace, "Backspace"),
  (EKeySym.eKI_Tab, "Tab"), (EKeySym.eKI_Q, "Q"),
  (EKeySym.eKI_W, "W"), (EKeySym.eKI_E, "E"),
  (EKeySym.eKI_R, "R"), (EKeySym.eKI_T, "T"),
  (EKeySym.eKI_Y, "Y"), (EKeySym.eKI_U, "U"),
  (EKeySym.eKI_I, "I"), (EKeySym.eKI_O, "O"),
  (EKeySym.eKI_P, "P"), (EKeySym.eKI_LBracket, "LBracket"),
  (EKeySym.eKI_RBracket, "RBracket"), (EKeySym.eKI_Enter, "Enter"),
  (EKeySym.eKI_LCtrl, "LCtrl"), (EKeySym.eKI_A, "A"),
  (EKeySym.eKI_S, "S"), (EKeySym.eKI_D, "D"),
  (EKeySym.eKI_F, "F"), (EKeySym.eKI_G, "G"),
  (EKeySym.eKI_H, "H"), (EKeySym.eKI_J, "J"),
  (EKeySym.eKI_K, "K"), (EKeySym.eKI_L, "L"),
  (EKeySym.eKI_Semicolon, "Semicolon"), (EKeySym.eKI_Apostrophe, "Apostrophe"),
  (EKeySym.eKI_Tilde, "Tilde"), (EKeySym.eKI_LShift, "LShift"),
  (EKeySym.eKI_Backslash, "Backslash"), (EKeySym.eKI_Z, "Z"),
  (EKeySym.eKI_X, "X"), (EKeySym.eKI_C, "C"),
  (EKeySym.eKI_V, "V"), (EKeySym.eKI_B, "B"),
  (EKeySym.eKI_N, "N"), (EKeySym.eKI_M, "M"),
  (EKeySym.eKI_Comma, "Comma"), (EKeySym.eKI_Period, "Period"),
  (EKeySym.eKI_Slash, "Slash"), (EKeySym.eKI_RShift, "RShift"),
  (EKeySym.eKI_NP_Multiply, "NPMultiply"), (EKeySym.eKI_LAlt, "LAlt"),
  (EKeySym.eKI_Space, "Space"), (EKeySym.eKI_CapsLock, "CapsLock"),
  (EKeySym.eKI_F1, "F1"), (EKeySym.eKI_F2, "F2"),
  (EKeySym.eKI_F3, "F3"), (EKeySym.eKI_F4, "F4"),
  (EKeySym.eKI_F5, "F5"), (EKeySym.eKI_F6, "F6"),
  (EKeySym.eKI_F7, "F7"), (EKeySym.eKI_F8, "F8"),
  (EKeySym.eKI_F9, "F9"), (EKeySym.eKI_F10, "F10"),
  (EKeySym.eKI_NumLock, "NumLock"), (EKeySym.eKI_ScrollLock, "ScrollLock"),
  (EKeySym.eKI_NP_7, "NP7"), (EKeySym.eKI_NP_8, "NP8"),
  (EKeySym.eKI_NP_9, "NP9"), (EKeySym.eKI_NP_Substract, "NPSubstract"),
  (EKeySym.eKI_NP_4, "NP4"), (EKeySym.eKI_NP_5, "NP5"),
  (EKeySym.eKI_NP_6, "NP6"), (EKeySym.eKI_NP_Add, "NPAdd"),
  (EKeySym.eKI_NP_1, "NP1"), (EKeySym.eKI_NP_2, "NP2"),
  (EKeySym.eKI_NP_3, "NP3"), (EKeySym.eKI_NP_0, "NP0"),
  (EKeySym.eKI_F11, "F11"), (EKeySym.eKI_F12, "F12"),
  (EKeySym.eKI_F13, "F13"), (EKeySym.eKI_F14, "F14"),
  (EKeySym.eKI_F15, "F15"), (EKeySym.eKI_Colon, "Colon"),
  (EKeySym.eKI_Underline, "Underline"), (EKeySym.eKI_NP_Enter, "NPEnter"),
  (EKeySym.eKI_RCtrl, "RCtrl"), (EKeySym.eKI_NP_Period, "NPPeriod"),
  (EKeySym.eKI_NP_Divide, "NPDivide"), (EKeySym.eKI_Print, "Print"),
  (EKeySym.eKI_RAlt, "RAlt"), (EKeySym.eKI_Pause, "Pause"),
  (EKeySym.eKI_Home, "Home"), (EKeySym.eKI_Up, "Up"),
  (EKeySym.eKI_PgUp, "PgUp"), (EKeySym.eKI_Left, "Left"),
  (EKeySym.eKI_Right, "Right"), (EKeySym.eKI_End, "End"),
  (EKeySym.eKI_Down, "Down"), (EKeySym.eKI_PgDn, "PgDn"),
  (EKeySym.eKI_Insert, "Insert"), (EKeySym.eKI_Delete, "Delete"),
  (EKeySym.eKI_LWin, "LWin"), (EKeySym.eKI_RWin, "RWin"),
  (EKeySym.eKI_Apps, "Apps"), (EKeySym.eKI_OEM_102, "OEM102"),
  (EKeySym.eKI_Mouse1, "Mouse1"), (EKeySym.eKI_Mouse2, "Mouse2"),
  (EKeySym.eKI_Mouse3, "Mouse3"), (EKeySym.eKI_Mouse4, "Mouse4"),
  (EKeySym.eKI_Mouse5, "Mouse5"), (EKeySym.eKI_Mouse6, "Mouse6"),
  (EKeySym.eKI_Mouse7, "Mouse7"), (EKeySym.eKI_Mouse8, "Mouse8"),
  (EKeySym.eKI_MouseWheelUp, "MouseWheelUp"), (EKeySym.eKI_MouseWheelDown, "MouseWheelDown"),
  (EKeySym.eKI_MouseX, "MouseX"), (EKeySym.eKI_MouseY, "MouseY"),
  (EKeySym.eKI_MouseZ, "MouseZ"), (EKeySym.eKI_MouseXAbsolute, "MouseXAbsolute"),
  (EKeySym.eKI_MouseYAbsolute, "MouseYAbsolute"), (EKeySym.eKI_XI_DPadUp, "XI_DPadUp"),
  (EKeySym.eKI_XI_DPadDown, "XI_DPadDown"), (EKeySym.eKI_XI_DPadLeft, "XI_DPadLeft"),
  (EKeySym.eKI_XI_DPadRight, "XI_DPadRight"), (EKeySym.eKI_XI_Start, "XI_Start"),
  (EKeySym.eKI_XI_Back, "XI_Back"), (EKeySym.eKI_XI_ThumbL, "XI_ThumbL"),
  (EKeySym.eKI_XI_ThumbR, "XI_ThumbR"), (EKeySym.eKI_XI_ShoulderL, "XI_ShoulderL"),
  (EKeySym.eKI_XI_ShoulderR, "XI_ShoulderR"), (EKeySym.eKI_XI_A, "XI_A"),
  (EKeySym.eKI_XI_B, "XI_B"), (EKeySym.eKI_XI_X, "XI_X"),
  (EKeySym.eKI_XI_Y, "XI_Y"), (EKeySym.eKI_XI_TriggerL, "XI_TriggerL"),
  (EKeySym.eKI_XI_TriggerR, "XI_TriggerR"), (EKeySym.eKI_XI_DPadUp, "XI_DPadUp"),
  (EKeySym.eKI_XI_DPadDown, "XI_DPadDown"), (EKeySym.eKI_XI_DPadLeft, "XI_DPadLeft"),
  (EKeySym.eKI_XI_DPadRight, "XI_DPadRight"), (EKeySym.eKI_XI_Start, "XI_Start"),
  (EKeySym.eKI_XI_Back, "XI_Back"), (EKeySym.eKI_XI_ThumbL, "XI_ThumbL"),
  (EKeySym.eKI_XI_ThumbR, "XI_ThumbR"), (EKeySym.eKI_XI_ShoulderL, "XI_ShoulderL"),
  (EKeySym.eKI_XI_ShoulderR, "XI_ShoulderR"), (EKeySym.eKI_XI_A, "XI_A"),
  (EKeySym.eKI_XI_B, "XI_B"), (EKeySym.eKI_XI_X, "XI_X"),
  (EKeySym.eKI_XI_Y, "XI_Y"), (EKeySym.eKI_XI_TriggerL, "XI_TriggerL"),
  (EKeySym.eKI_XI_TriggerR, "XI_TriggerR"), (EKeySym.eKI_XI_ThumbLX, "XI_ThumbLX"),
  (EKeySym.eKI_XI_ThumbLY, "XI_ThumbLY"), (EKeySym.eKI_XI_ThumbLUp, "XI_ThumbLUp"),
  (EKeySym.eKI_XI_ThumbLDown, "XI_ThumbLDown"), (EKeySym.eKI_XI_ThumbLLeft, "XI_ThumbLLeft"),
  (EKeySym.eKI_XI_ThumbLRight, "XI_ThumbLRight"), (EKeySym.eKI_XI_ThumbRX, "XI_ThumbRX"),
  (EKeySym.eKI_XI_ThumbRY, "XI_ThumbRY"), (EKeySym.eKI_XI_ThumbRUp, "XI_ThumbRUp"),
  (EKeySym.eKI_XI_ThumbRDown, "XI_ThumbRDown"), (EKeySym.eKI_XI_ThumbRLeft, "XI_ThumbRLeft"),
  (EKeySym.eKI_XI_ThumbRRight, "XI_ThumbRRight"), (EKeySym.eKI_Orbis_Options, "Orbis_Options"),
  (EKeySym.eKI_Orbis_L3, "Orbis_L3"), (EKeySym.eKI_Orbis_R3, "Orbis_R3"),
  (EKeySym.eKI_Orbis_Up, "Orbis_Up"), (EKeySym.eKI_Orbis_Right, "Orbis_Right"),
  (EKeySym.eKI_Orbis_Down, "Orbis_Down"), (EKeySym.eKI_Orbis_Left, "Orbis_Left"),
  (EKeySym.eKI_Orbis_L2, "Orbis_L2"), (EKeySym.eKI_Orbis_R2, "Orbis_R2"),
  (EKeySym.eKI_Orbis_L1, "Orbis_L1"), (EKeySym.eKI_Orbis_R1, "Orbis_R1"),
  (EKeySym.eKI_Orbis_Triangle, "Orbis_Triangle"), (EKeySym.eKI_Orbis_Circle, "Orbis_Circle"),
  (EKeySym.eKI_Orbis_Cross, "Orbis_Cross"), (EKeySym.eKI_Orbis_Square, "Orbis_Square"),
  (EKeySym.eKI_Orbis_StickLX, "Orbis_StickLX"), (EKeySym.eKI_Orbis_StickLY, "Orbis_StickLY"),
  (EKeySym.eKI_Orbis_StickRX, "Orbis_StickRX"), (EKeySym.eKI_Orbis_StickRY, "Orbis_StickRY"),
  (EKeySym.eKI_Orbis_RotX, "Orbis_RotX"), (EKeySym.eKI_Orbis_RotY, "Orbis_RotY"),
  (EKeySym.eKI_Orbis_RotZ, "Orbis_RotZ"), (EKeySym.eKI_Orbis_RotX_KeyL, "Orbis_RotX_KeyL"),
  (EKeySym.eKI_Orbis_RotX_KeyR, "Orbis_RotX_KeyR"), (EKeySym.eKI_Orbis_RotZ_KeyD, "Orbis_RotZ_KeyD"),
  (EKeySym.eKI_Orbis_RotZ_KeyU, "Orbis_RotZ_KeyU"), (EKeySym.eKI_Orbis_LeftTrigger, "Orbis_LeftTrigger"),
  (EKeySym.eKI_Orbis_RightTrigger, "Orbis_RightTrigger"), (EKeySym.eKI_Orbis_Touch, "Orbis_Touch"),
  (EKeySym.eKI_Motion_OculusTouch_A, "OculusTouch_A"), (EKeySym.eKI_Motion_OculusTouch_B, "OculusTouch_B"),
  (EKeySym.eKI_Motion_OculusTouch_X, "OculusTouch_X"), (EKeySym.eKI_Motion_OculusTouch_Y, "OculusTouch_Y"),
  (EKeySym.eKI_Motion_OculusTouch_L3, "OculusTouch_L3"), (EKeySym.eKI_Motion_OculusTouch_R3, "OculusTouch_R3"),
  (EKeySym.eKI_Motion_OculusTouch_TriggerBtnL, "OculusTouch_TriggerBtnL"), (EKeySym.eKI_Motion_OculusTouch_TriggerBtnR, "OculusTouch_TriggerBtnR"),
  (EKeySym.eKI_Motion_OculusTouch_L1, "OculusTouch_L1"), (EKeySym.eKI_Motion_OculusTouch_R1, "OculusTouch_R1"),
  (EKeySym.eKI_Motion_OculusTouch_L2, "OculusTouch_L2"), (EKeySym.eKI_Motion_OculusTouch_R2, "OculusTouch_R2"),
  (EKeySym.eKI_Motion_OculusTouch_StickL_Y, "OculusTouch_StickL_Y"), (EKeySym.eKI_Motion_OculusTouch_StickR_Y, "OculusTouch_StickR_Y"),
  (EKeySym.eKI_Motion_OculusTouch_StickL_X, "OculusTouch_StickL_X"), (EKeySym.eKI_Motion_OculusTouch_StickR_X, "OculusTouch_StickR_X"),
  (EKeySym.eKI_Motion_OculusTouch_Gesture_ThumbUpL, "OculusTouch_Gesture_ThumbUpL"), (EKeySym.eKI_Motion_OculusTouch_Gesture_ThumbUpR, "OculusTouch_Gesture_ThumbUpR"),
  (EKeySym.eKI_Motion_OculusTouch_Gesture_IndexPointingL, "OculusTouch_Gesture_IndexPointingL"), (EKeySym.eKI_Motion_OculusTouch_Gesture_IndexPointingR, "OculusTouch_Gesture_IndexPointingR"),
  (EKeySym.eKI_Motion_OculusTouch_NUM_SYMBOLS, "OculusTouch_NUM_SYMBOLS"), (EKeySym.eKI_Motion_OculusTouch_LastButtonIndex, "OculusTouch_LastButtonIndex"),
  (EKeySym.eKI_Motion_OculusTouch_FirstGestureIndex, "OculusTouch_FirstGestureIndex"), (EKeySym.eKI_Motion_OculusTouch_LastGestureIndex, "OculusTouch_LastGestureIndex"),
  (EKeySym.eKI_Motion_OculusTouch_FirstTriggerIndex, "OculusTouch_FirstTriggerIndex"), (EKeySym.eKI_Motion_OculusTouch_LastTriggerIndex, "OculusTouch_LastTriggerIndex"),
  (EKeySym.eKI_EyeTracker_X, "EyeTracker_X"), (EKeySym.eKI_EyeTracker_Y, "EyeTracker_Y"),
  (EKeySym.eKI_Motion_OpenVR_System, "OpenVR_System"), (EKeySym.eKI_Motion_OpenVR_ApplicationMenu, "OpenVR_ApplicationMenu"),
  (EKeySym.eKI_Motion_OpenVR_Grip, "OpenVR_Grip"), (EKeySym.eKI_Motion_OpenVR_TouchPad_X, "OpenVR_TouchPad_X"),
  (EKeySym.eKI_Motion_OpenVR_TouchPad_Y, "OpenVR_TouchPad_Y"), (EKeySym.eKI_Motion_OpenVR_Trigger, "OpenVR_Trigger"),
  (EKeySym.eKI_Motion_OpenVR_TriggerBtn, "OpenVR_TriggerBtn"), (EKeySym.eKI_Motion_OpenVR_TouchPadBtn, "OpenVR_TouchPadBtn"),
  (EKeySym.eKI_Motion_OpenVR_NUM_SYMBOLS, "OpenVR_NUM_SYMBOLS")
]

/-- The two static maps of `KeyMapper`. -/
structure KeyMapper where
  s_keyIdToNameMap : List (EKeyId × String)
  s_nameToKeyIdMap : List (String × EKeyId)

namespace KeyMapper

/-- The static maps before the first use: both empty. -/
def initial : KeyMapper := ⟨[], []⟩

/-- The reverse-mapping loop: `s_nameToKeyIdMap[pair.second] = pair.first`
for every pair of the forward map. The order in which the loop visits the
pairs is immaterial to the results below: `find_reverseInto` holds for every
list of pairs. -/
def reverseInto (fwd : List (EKeyId × String)) (rev : List (String × EKeyId)) :
    List (String × EKeyId) :=
  fwd.foldl (fun acc pair => Assoc.assign pair.2 pair.1 acc) rev

/-- `KeyMapper::InitializeKeyMappings`. -/
def InitializeKeyMappings (E : EngineHeaders) (m : KeyMapper) : KeyMapper :=
  if !m.s_keyIdToNameMap.isEmpty then m
  else
    let fwd := Assoc.ofInitList (keyTable.map fun e => (E.keyId e.1, e.2))
    ⟨fwd, reverseInto fwd m.s_nameToKeyIdMap⟩

/-- Conversion of an `int` to `char` by `std::string(1, c)`: the low byte. -/
def charOfInt (i : Int) : Char := Char.ofNat (i % 256).toNat

/-- The conversion `static_cast<int>` of a key id: wrap to 32 bits, signed. -/
def static_cast_int (k : Int) : Int := (k + 2147483648) % 4294967296 - 2147483648

/-- `KeyMapper::KeyIdToUserFriendlyName`: the name and the static maps after
the call. -/
def KeyIdToUserFriendlyName (E : EngineHeaders) (m : KeyMapper) (keyId : EKeyId) :
    String × KeyMapper :=
  let m1 := InitializeKeyMappings E m
  match Assoc.find keyId m1.s_keyIdToNameMap with
  | some name => (name, m1)
  | none =>
    if E.keyId .eKI_A ≤ keyId ∧ keyId ≤ E.keyId .eKI_Z then
      (String.singleton (charOfInt (65 + (keyId - E.keyId .eKI_A))), m1)
    else if E.keyId .eKI_0 ≤ keyId ∧ keyId ≤ E.keyId .eKI_9 then
      (toString (keyId - E.keyId .eKI_0), m1)
    else
      ("eKI_" ++ toString (static_cast_int keyId), m1)

/-- `KeyMapper::UserFriendlyNameToKeyId`: the key id and the static maps after
the call. -/
def UserFriendlyNameToKeyId (E : EngineHeaders) (m : KeyMapper) (keyName : String) :
    EKeyId × KeyMapper :=
  let m1 := InitializeKeyMappings E m
  match Assoc.find keyName m1.s_nameToKeyIdMap with
  | some keyId => (keyId, m1)
  | none => (E.keyId .eKI_Unknown, m1)

/-- The symbol listed first under a display name in a table. -/
def symOfName (name : String) : List (EKeySym × String) → Option EKeySym
  | [] => none
  | (s, n) :: rest => if n = name then some s else symOfName name rest

/-- The forward map that `InitializeKeyMappings` builds. -/
def forwardMap (E : EngineHeaders) : List (EKeyId × String) :=
  Assoc.ofInitList (keyTable.map fun e => (E.keyId e.1, e.2))

/-- The states the static maps can be in: untouched, or built. -/
def Reachable (E : EngineHeaders) (m : KeyMapper) : Prop :=
  m = initial ∨ m = InitializeKeyMappings E initial

end KeyMapper

/-! ## Player component: data -/

/-- The engine vector `Vec2`. -/
structure Vec2 (R : Type) where
  x : R
  y : R
  deriving DecidableEq, Repr

/-- The engine vector `Vec3`. -/
structure Vec3 (R : Type) where
  x : R
  y : R
  z : R
  deriving DecidableEq, Repr

/-- The engine quaternion `Quat`: vector part and scalar part. -/
structure Quat (R : Type) where
  v : Vec3 R
  w : R
  deriving DecidableEq, Repr

/-- Componentwise sum of two vectors (`Vec3::operator+`). -/
def Vec3.add {R : Type} [Add R] (a b : Vec3 R) : Vec3 R := ⟨a.x + b.x, a.y + b.y, a.z + b.z⟩

/-- `CPlayerComponent::EPlayerState`. -/
inductive EPlayerState where
  | Walking
  | Sprinting
  | Jump
  | Idle
  deriving DecidableEq, Repr

/-- `CPlayerComponent::EPlayerStance`. -/
inductive EPlayerStance where
  | Standing
  | Crouching
  deriving DecidableEq, Repr

/-- The data members of `CPlayerComponent`. The pointers to the sibling
components are represented in `Game`; `m_movementSpeed`, which no function
reads or writes, is left out. -/
structure CPlayerComponent (R : Type) where
  m_CurrentYaw : Quat R
  m_CurrentPitch : R
  m_movementDelta : Vec2 R
  m_MouseDeltaRotation : Vec2 R
  m_currentPlayerState : EPlayerState
  m_currentPlayerStance : EPlayerStance
  m_desiredPlayerStance : EPlayerStance
  m_CameraEndOffset : Vec3 R
  m_CameraOffsetStanding : Vec3 R
  m_RotationSpeed : R
  m_RotationLimitsMinPitch : R
  m_RotationLimitsMaxPitch : R
  m_RunSpeed : R
  m_WalkSpeed : R
  m_JumpHeight : R
  m_CameraOffsetCrouching : Vec3 R
  m_CapsuleHeightStanding : R
  m_CapsuleHeightCrouching : R
  m_CapsuleGroundOffset : R
  m_Walk : R
  m_Left : R
  m_Right : R
  m_Run : R
  m_Crouch : R
  m_Back : R
  m_AnimationIdle : String
  m_AnimationWalk : String
  m_AnimationBack : String
  m_AnimationRun : String
  m_AnimationJump : String
  m_AnimationLeft : String
  m_AnimationRight : String
  m_AnimationCrouch : String
  m_AnimationCrouchIdle : String
  m_AnimationCroucToStand : String
  m_AnimationStandToCrouch : String
  m_AnimationWalkLeft : String
  m_AnimationWalkRight : String
  m_AnimationRunLeft : String
  m_AnimationRunRight : String
  m_AnimationCrouchLeft : String
  m_AnimationCrouchRight : String
  m_AnimationCrouchWalk : String
  m_AnimationCrouchBack : String
  m_surfaceTypes : List (String × String)

/-- The constructor `CPlayerComponent::CPlayerComponent()` with the default
constants of `Player.h` and the in-class initialisers. -/
def CPlayerComponent.construct {R : Type} [Field R] : CPlayerComponent R where
  m_CurrentYaw := ⟨⟨0, 0, 0⟩, 1⟩
  m_CurrentPitch := 0
  m_movementDelta := ⟨0, 0⟩
  m_MouseDeltaRotation := ⟨0, 0⟩
  m_currentPlayerState := .Walking
  m_currentPlayerStance := .Standing
  m_desiredPlayerStance := .Standing
  m_CameraEndOffset := ⟨0, 0, 1.7⟩
  m_CameraOffsetStanding := ⟨0, 0, 1.7⟩
  m_RotationSpeed := 0.002
  m_RotationLimitsMinPitch := 1.5
  m_RotationLimitsMaxPitch := -1.1
  m_RunSpeed := 5
  m_WalkSpeed := 2
  m_JumpHeight := 3
  m_CameraOffsetCrouching := ⟨0, 0, 1.0⟩
  m_CapsuleHeightStanding := 1.6
  m_CapsuleHeightCrouching := 0.75
  m_CapsuleGroundOffset := 0.2
  m_Walk := 0
  m_Left := 0
  m_Right := 0
  m_Run := 0
  m_Crouch := 0
  m_Back := 0
  m_AnimationIdle := ""
  m_AnimationWalk := ""
  m_AnimationBack := ""
  m_AnimationRun := ""
  m_AnimationJump := ""
  m_AnimationLeft := ""
  m_AnimationRight := ""
  m_AnimationCrouch := ""
  m_AnimationCrouchIdle := ""
  m_AnimationCroucToStand := ""
  m_AnimationStandToCrouch := ""
  m_AnimationWalkLeft := ""
  m_AnimationWalkRight := ""
  m_AnimationRunLeft := ""
  m_AnimationRunRight := ""
  m_AnimationCrouchLeft := ""
  m_AnimationCrouchRight := ""
  m_AnimationCrouchWalk := ""
  m_AnimationCrouchBack := ""
  m_surfaceTypes := []

/-- The engine primitive `primitives::capsule`. -/
structure capsule (R : Type) where
  axis : Vec3 R
  center : Vec3 R
  r : R
  hh : R

/-- The two members of the engine structure `pe_player_dimensions` that the
source assigns. -/
structure pe_player_dimensions (R : Type) where
  heightCollider : R
  sizeCollider : Vec3 R

/-- A velocity request made to the character controller. -/
inductive ControllerCommand (R : Type) where
  | AddVelocity (v : Vec3 R)
  | SetVelocity (v : Vec3 R)

/-- The player component together with the engine objects its member
functions and input callbacks reach. -/
structure Game (R : Type) where
  /-- The data members of the component. -/
  player : CPlayerComponent R
  /-- Fragments requested from `m_pAdvancedAnimationComponent`, oldest first. -/
  fragmentQueue : List String
  /-- The answer of `m_pCharacterControllerComponent->IsOnGround()`. -/
  isOnGround : Bool
  /-- Requests made to `m_pCharacterControllerComponent`, oldest first. -/
  controllerCommands : List (ControllerCommand R)
  /-- The value `GetPhysicsParameters().m_radius` of the character controller. -/
  m_radius : R
  /-- The value `m_pEntity->GetWorldPos()`. -/
  worldPos : Vec3 R
  /-- The result of `m_pEntity->GetPhysicalEntity()`: null, or the physical
  entity with its player dimensions. -/
  physicalEntity : Option (pe_player_dimensions R)
  /-- The contact count `static_cast<int>(PrimitiveWorldIntersection(..))` the
  physical world reports for a capsule. -/
  PrimitiveWorldIntersection : capsule R → Int
  /-- Lines written by `CryLogAlways`, oldest first. -/
  log : List String

namespace Game

variable {R : Type}

/-- `m_pAdvancedAnimationComponent->QueueFragment(name)`. -/
def QueueFragment (name : String) (g : Game R) : Game R :=
  { g with fragmentQueue := g.fragmentQueue ++ [name] }

/-- `m_pCharacterControllerComponent->AddVelocity(v)`. -/
def AddVelocity (v : Vec3 R) (g : Game R) : Game R :=
  { g with controllerCommands := g.controllerCommands ++ [ControllerCommand.AddVelocity v] }

/-- `CryLogAlways(line)`. -/
def CryLogAlways (line : String) (g : Game R) : Game R :=
  { g with log := g.log ++ [line] }

end Game

/-! ## Input component -/

/-- The engine callback type `TActionCallback`: a function of the activation
mode and the value, acting on the game objects it captured. -/
abbrev TActionCallback (R : Type) := Int → R → Game R → Game R

/-- The key an action is bound to and its dispatch flags. -/
structure ActionBinding where
  device : Int
  keyId : EKeyId
  bOnPress : Bool
  bOnRelease : Bool
  bOnHold : Bool
  deriving DecidableEq, Repr

/-- Modelled from the spec: the engine class `CInputComponent`, whose code is
not in the repository. Section 3 describes an action binding as "a mapping
from (context, action-name) to an input callback and a bound physical key",
where "replacing the callback discards the previous one entirely". -/
structure CInputComponent (R : Type) where
  callbacks : List ((String × String) × TActionCallback R)
  bindings : List ((String × String) × ActionBinding)

namespace CInputComponent

variable {R : Type}

/-- Modelled from the spec: `RegisterAction(group, name, callback)` stores the
callback under (group, name), replacing the one stored there. -/
def RegisterAction (group name : String) (callback : TActionCallback R)
    (ic : CInputComponent R) : CInputComponent R :=
  { ic with callbacks := Assoc.assign (group, name) callback ic.callbacks }

/-- Modelled from the spec: `BindAction(group, name, device, keyId, bOnPress,
bOnRelease, bOnHold)` sets the bound key of (group, name). -/
def BindAction (group name : String) (device : Int) (keyId : EKeyId)
    (bOnPress bOnRelease bOnHold : Bool) (ic : CInputComponent R) : CInputComponent R :=
  { ic with bindings :=
      Assoc.assign (group, name) ⟨device, keyId, bOnPress, bOnRelease, bOnHold⟩ ic.bindings }

/-- The four-argument call `BindAction(group, name, device, keyId)`: the three
flags take the defaults of the engine declaration. -/
def BindActionDefault (E : EngineHeaders) (group name : String) (device : Int) (keyId : EKeyId)
    (ic : CInputComponent R) : CInputComponent R :=
  BindAction group name device keyId E.bOnPressDefault E.bOnReleaseDefault E.bOnHoldDefault ic

end CInputComponent

/-! ## `CPlayerComponent::InitializeInput` -/

namespace CPlayerComponent

variable {R : Type} [Field R]

/-- The callback of action "moveforward". -/
def moveforwardCallback (E : EngineHeaders) : TActionCallback R := fun activationMode value g =>
  let g : Game R :=
    { g with player := { g.player with m_movementDelta := { g.player.m_movementDelta with y := value } } }
  if activationMode = E.eAAM_OnPress then
    { g with player := { g.player with m_Walk := 1 } }
  else if activationMode = E.eAAM_OnRelease then
    let g := g.QueueFragment g.player.m_AnimationIdle
    { g with player := { g.player with m_Walk := 0 } }
  else g

/-- The callback of action "moveback". -/
def movebackCallback (E : EngineHeaders) : TActionCallback R := fun activationMode value g =>
  let g : Game R :=
    if activationMode = E.eAAM_OnPress then
      let g := g.QueueFragment g.player.m_AnimationBack
      { g with player := { g.player with m_Back := 1 } }
    else if activationMode = E.eAAM_OnRelease then
      let g := g.QueueFragment g.player.m_AnimationIdle
      { g with player := { g.player with m_Back := 0 } }
    else g
  { g with player := { g.player with m_movementDelta := { g.player.m_movementDelta with y := -value } } }

/-- The callback of action "moveleft". -/
def moveleftCallback (E : EngineHeaders) : TActionCallback R := fun activationMode value g =>
  let g : Game R :=
    { g with player := { g.player with m_movementDelta := { g.player.m_movementDelta with x := -value } } }
  if activationMode = E.eAAM_OnPress then
    let g := g.QueueFragment g.player.m_AnimationLeft
    { g with player := { g.player with m_Left := 1 } }
  else if activationMode = E.eAAM_OnRelease then
    let g := g.QueueFragment g.player.m_AnimationIdle
    { g with player := { g.player with m_Left := 0 } }
  else g

/-- The callback of action "moveright". -/
def moverightCallback (E : EngineHeaders) : TActionCallback R := fun activationMode value g =>
  let g : Game R :=
    { g with player := { g.player with m_movementDelta := { g.player.m_movementDelta with x := value } } }
  if activationMode = E.eAAM_OnPress then
    let g := g.QueueFragment g.player.m_AnimationRight
    { g with player := { g.player with m_Right := 1 } }
  else if activationMode = E.eAAM_OnRelease then
    let g := g.QueueFragment g.player.m_AnimationIdle
    { g with player := { g.player with m_Right := 0 } }
  else g

/-- The callback of action "yaw". -/
def yawCallback : TActionCallback R := fun _activationMode value g =>
  { g with player :=
      { g.player with m_MouseDeltaRotation := { g.player.m_MouseDeltaRotation with y := -value } } }

/-- The callback of action "pitch". -/
def pitchCallback : TActionCallback R := fun _activationMode value g =>
  { g with player :=
      { g.player with m_MouseDeltaRotation := { g.player.m_MouseDeltaRotation with x := -value } } }

/-- The callback of action "sprint". -/
def sprintCallback (E : EngineHeaders) : TActionCallback R := fun activationMode _value g =>
  if activationMode = E.eAAM_OnPress then
    let g : Game R := { g with player := { g.player with m_currentPlayerState := .Sprinting } }
    let g := g.QueueFragment g.player.m_AnimationRun
    { g with player := { g.player with m_Run := 1 } }
  else if activationMode = E.eAAM_OnRelease then
    { g with player := { g.player with m_currentPlayerState := .Walking, m_Run := 0 } }
  else g

/-- The callback of action "jump". -/
def jumpCallback (E : EngineHeaders) : TActionCallback R := fun activationMode _value g =>
  let g : Game R :=
    if g.isOnGround then g.AddVelocity ⟨0, 0, g.player.m_JumpHeight⟩ else g
  if activationMode = E.eAAM_OnPress then
    let g : Game R := { g with player := { g.player with m_currentPlayerState := .Jump } }
    g.QueueFragment g.player.m_AnimationJump
  else g

/-- The callback of action "crouch". -/
def crouchCallback (E : EngineHeaders) : TActionCallback R := fun activationMode _value g =>
  if activationMode = E.eAAM_OnPress then
    let g : Game R := { g with player := { g.player with m_desiredPlayerStance := .Crouching } }
    let g := g.QueueFragment g.player.m_AnimationCrouch
    { g with player := { g.player with m_Crouch := 1 } }
  else if activationMode = E.eAAM_OnRelease then
    { g with player := { g.player with m_desiredPlayerStance := .Standing, m_Crouch := 0 } }
  else g

/-- `CPlayerComponent::InitializeInput`, acting on `m_pInputComponent`. -/
def InitializeInput (E : EngineHeaders) (ic : CInputComponent R) : CInputComponent R :=
  let ic := ic.RegisterAction "player" "moveforward" (moveforwardCallback E)
  let ic := ic.BindActionDefault E "player" "moveforward" E.eAID_KeyboardMouse (E.keyId .eKI_W)
  let ic := ic.RegisterAction "player" "moveback" (movebackCallback E)
  let ic := ic.BindActionDefault E "player" "moveback" E.eAID_KeyboardMouse (E.keyId .eKI_S)
  let ic := ic.RegisterAction "player" "moveleft" (moveleftCallback E)
  let ic := ic.BindActionDefault E "player" "moveleft" E.eAID_KeyboardMouse (E.keyId .eKI_A)
  let ic := ic.RegisterAction "player" "moveright" (moverightCallback E)
  let ic := ic.BindActionDefault E "player" "moveright" E.eAID_KeyboardMouse (E.keyId .eKI_D)
  let ic := ic.RegisterAction "Player" "yaw" yawCallback
  let ic := ic.BindActionDefault E "Player" "yaw" E.eAID_KeyboardMouse (E.keyId .eKI_MouseY)
  let ic := ic.RegisterAction "Player" "pitch" pitchCallback
  let ic := ic.BindActionDefault E "Player" "pitch" E.eAID_KeyboardMouse (E.keyId .eKI_MouseX)
  let ic := ic.RegisterAction "player" "sprint" (sprintCallback E)
  let ic := ic.BindActionDefault E "player" "sprint" E.eAID_KeyboardMouse (E.keyId .eKI_LShift)
  let ic := ic.RegisterAction "player" "jump" (jumpCallback E)
  let ic := ic.BindActionDefault E "player" "crouch" E.eAID_KeyboardMouse (E.keyId .eKI_Space)
  let ic := ic.RegisterAction "player" "crouch" (crouchCallback E)
  ic.BindActionDefault E "player" "crouch" E.eAID_KeyboardMouse (E.keyId .eKI_C)

/-! ## `CPlayerComponent::TryUpdateStance` -/

/-- `CPlayerComponent::IsCapsuleIntersectingGeometry`. -/
def IsCapsuleIntersectingGeometry (g : Game R) (c : capsule R) : Bool :=
  match g.physicalEntity with
  | none => false
  | some _ =>
    let contactCount := g.PrimitiveWorldIntersection c
    decide (contactCount > 0)

/-- The local `radius` of `TryUpdateStance`. -/
def stanceRadius (g : Game R) : R := g.m_radius * 0.5

/-- The capsule that the `Standing` case of `TryUpdateStance` builds and tests. -/
def standingCapsule (g : Game R) : capsule R :=
  let radius := stanceRadius g
  let height := g.player.m_CapsuleHeightStanding
  { axis := ⟨0, 0, 1⟩
    center := g.worldPos.add ⟨0, 0, g.player.m_CapsuleGroundOffset + radius + height * 0.5⟩
    r := radius
    hh := height * 0.5 }

/-- The statements that stand after the last `break` inside the `switch` of
`TryUpdateStance` (from `pe_player_dimensions playerDimensions;` to
`pPhysEnt->SetParams(&playerDimensions);`). No `case` label precedes them, so
control never reaches them and `TryUpdateStance` does not use this function. -/
def stanceTail (g : Game R) (dims : pe_player_dimensions R) (radius height : R)
    (camOffset : Vec3 R) : Game R :=
  let playerDimensions : pe_player_dimensions R :=
    { dims with
      heightCollider := g.player.m_CapsuleGroundOffset + radius + height * 0.5
      sizeCollider := ⟨radius, radius, height * 0.5⟩ }
  { g with
    player := { g.player with
      m_CameraEndOffset := camOffset
      m_currentPlayerStance := g.player.m_desiredPlayerStance }
    physicalEntity := some playerDimensions }

/-- `CPlayerComponent::TryUpdateStance`. Each `case` of the `switch` ends in
`break`, which leaves the `switch`; the function body ends with the `switch`. -/
def TryUpdateStance (g : Game R) : Game R :=
  if g.player.m_desiredPlayerStance = g.player.m_currentPlayerStance then g
  else
    match g.physicalEntity with
    | none => g
    | some _ =>
      match g.player.m_desiredPlayerStance with
      | .Crouching =>
        -- sets the locals height, camOffset; break
        g
      | .Standing =>
        -- sets the locals height, camOffset and capsule
        if IsCapsuleIntersectingGeometry g (standingCapsule g) then
          g -- return
        else
          g -- break

end CPlayerComponent

/-! ## `CFlowNode_ChangeInputBinding` -/

/-- The flow node, the engine environment `gEnv` and the player it reaches. -/
structure World (R : Type) where
  /-- Whether the node's `m_pPlayerComponent` is set (non-null). -/
  m_pPlayerComponent : Bool
  /-- Whether `gEnv && gEnv->pEntitySystem` holds. -/
  entitySystem : Bool
  /-- The result of `FindEntityByName("Player")`: not found, or the entity,
  with whether `GetComponent<CPlayerComponent>()` is non-null on it. -/
  playerEntity : Option Bool
  /-- The call `gEnv->pInput->GetSymbolByName(name)`: null, or a symbol with its `keyId`. -/
  GetSymbolByName : String → Option EKeyId
  /-- The static maps of `KeyMapper`. -/
  keyMapper : KeyMapper
  /-- The player component and the objects around it. -/
  game : Game R
  /-- The player's `m_pInputComponent`: null, or the input component. -/
  m_pInputComponent : Option (CInputComponent R)

namespace CFlowNode_ChangeInputBinding

variable {R : Type} [Field R]

/-- `CryLogAlways(line)` from the flow node. -/
def logLine (line : String) (w : World R) : World R :=
  { w with game := w.game.CryLogAlways line }

/-- The lambda `defaultCallback` of `RebindAction`. -/
def defaultCallback (E : EngineHeaders) (actionName : String) : TActionCallback R :=
  fun activationMode value g =>
  if actionName = "moveforward" then
    let g : Game R :=
      { g with player := { g.player with m_movementDelta := { g.player.m_movementDelta with y := value } } }
    if activationMode = E.eAAM_OnPress then
      { g with player := { g.player with m_Walk := 1 } }
    else if activationMode = E.eAAM_OnRelease then
      { g with player := { g.player with m_Walk := 0 } }
    else g
  else if actionName = "moveback" then
    { g with player := { g.player with m_movementDelta := { g.player.m_movementDelta with y := -value } } }
  else if actionName = "moveleft" then
    let g : Game R :=
      { g with player := { g.player with m_movementDelta := { g.player.m_movementDelta with x := -value } } }
    if activationMode = E.eAAM_OnPress then
      { g with player := { g.player with m_Left := 1 } }
    else if activationMode = E.eAAM_OnRelease then
      { g with player := { g.player with m_Left := 0 } }
    else g
  else if actionName = "moveright" then
    let g : Game R :=
      { g with player := { g.player with m_movementDelta := { g.player.m_movementDelta with x := value } } }
    if activationMode = E.eAAM_OnPress then
      { g with player := { g.player with m_Right := 1 } }
    else if activationMode = E.eAAM_OnRelease then
      { g with player := { g.player with m_Right := 0 } }
    else g
  else if actionName = "yaw" then
    { g with player :=
        { g.player with m_MouseDeltaRotation := { g.player.m_MouseDeltaRotation with y := -value } } }
  else if actionName = "pitch" then
    { g with player :=
        { g.player with m_MouseDeltaRotation := { g.player.m_MouseDeltaRotation with x := -value } } }
  else if actionName = "sprint" then
    if activationMode = E.eAAM_OnPress then
      { g with player := { g.player with m_currentPlayerState := .Sprinting, m_Run := 1 } }
    else if activationMode = E.eAAM_OnRelease then
      { g with player := { g.player with m_currentPlayerState := .Walking, m_Run := 0 } }
    else g
  else if actionName = "jump" then
    if g.isOnGround then g.AddVelocity ⟨0, 0, g.player.m_JumpHeight⟩ else g
  else if actionName = "crouch" then
    if activationMode = E.eAAM_OnPress then
      { g with player := { g.player with m_desiredPlayerStance := .Crouching, m_Crouch := 1 } }
    else if activationMode = E.eAAM_OnRelease then
      { g with player := { g.player with m_desiredPlayerStance := .Standing, m_Crouch := 0 } }
    else g
  else g

/-- The lambda `combinedCallback` of `RebindAction`. -/
def combinedCallback (E : EngineHeaders) (actionName : String) : TActionCallback R :=
  fun activationMode value g =>
  let g := defaultCallback E actionName activationMode value g
  g.CryLogAlways ("[RebindAction] Flowgraph node triggered for action \x27" ++ actionName ++ "\x27.")

/-- The first block of `RebindAction`: when the node has no player component,
look the player up by name. `Except.error` carries the state of a `return false`. -/
def retrievePlayer (w : World R) : Except (World R) (World R) :=
  if !w.m_pPlayerComponent then
    let w := logLine "[RebindAction] Player component is null. Attempting to retrieve dynamically." w
    if w.entitySystem then
      match w.playerEntity with
      | some hasComponent =>
        let w : World R := { w with m_pPlayerComponent := hasComponent }
        if w.m_pPlayerComponent then
          .ok (logLine "[RebindAction] Successfully retrieved Player Component." w)
        else
          .error (logLine "[RebindAction] Failed to retrieve Player Component." w)
      | none =>
        .error (logLine "[RebindAction] Failed: Could not find entity named \x27Player\x27." w)
    else .ok w
  else .ok w

/-- `CFlowNode_ChangeInputBinding::RebindAction`: the returned flag and the
state after the call. -/
def RebindAction (E : EngineHeaders) (actionName newKey : String) (w : World R) :
    Bool × World R :=
  match retrievePlayer w with
  | .error w => (false, w)
  | .ok w =>
    if !w.m_pPlayerComponent then
      (false, logLine "[RebindAction] Failed: Player component is still null." w)
    else if actionName = "" then
      (false, logLine "[RebindAction] Failed: Action name is empty." w)
    else if newKey = "" then
      (false, logLine "[RebindAction] Failed: New key is empty." w)
    else
      match w.GetSymbolByName newKey with
      | none =>
        (false, logLine ("[RebindAction] Failed: Key \x27" ++ newKey
          ++ "\x27 not found in input system.") w)
      | some keyId =>
        let named := KeyMapper.KeyIdToUserFriendlyName E w.keyMapper keyId
        let w : World R := { w with keyMapper := named.2 }
        let w := logLine ("[RebindAction] Key \x27" ++ newKey ++ "\x27 resolved to EKeyId \x27"
          ++ named.1 ++ "\x27.") w
        match w.m_pInputComponent with
        | some ic =>
          let ic := ic.RegisterAction "player" actionName (combinedCallback E actionName)
          let ic := ic.BindAction "player" actionName E.eAID_KeyboardMouse keyId true true true
          let w : World R := { w with m_pInputComponent := some ic }
          (true, logLine ("[RebindAction] Successfully bound action \x27" ++ actionName
            ++ "\x27 to key \x27" ++ newKey ++ "\x27.") w)
        | none =>
          (false, logLine "[RebindAction] Failed: Input component is null." w)

end CFlowNode_ChangeInputBinding


/-! ## Sample states for concrete evaluations -/

/-- A player whose animation fragments are named, otherwise as constructed. -/
def samplePlayer : CPlayerComponent ℚ :=
  { (CPlayerComponent.construct : CPlayerComponent ℚ) with
    m_AnimationIdle := "Idle"
    m_AnimationBack := "Back"
    m_AnimationJump := "Jump" }

/-- A player standing on the ground with a physical entity; the physical world
reports `contacts` contacts for every capsule. -/
def sampleGame (contacts : Int) : Game ℚ where
  player := samplePlayer
  fragmentQueue := []
  isOnGround := true
  controllerCommands := []
  m_radius := 1
  worldPos := ⟨0, 0, 0⟩
  physicalEntity := some ⟨1, ⟨1, 1, 1⟩⟩
  PrimitiveWorldIntersection := fun _ => contacts
  log := []

/-- The sample game with the player crouched and a stand-up requested. -/
def crouchedGame (contacts : Int) : Game ℚ :=
  { sampleGame contacts with
    player := { samplePlayer with
      m_currentPlayerStance := .Crouching
      m_desiredPlayerStance := .Standing
      m_CameraEndOffset := samplePlayer.m_CameraOffsetCrouching } }

/-- A flow node bound to the player after `InitializeInput`, in an engine
whose input system knows the key name "Q". -/
def sampleWorld : World ℚ where
  m_pPlayerComponent := true
  entitySystem := true
  playerEntity := some true
  GetSymbolByName := fun name => if name = "Q" then some (sampleHeaders.keyId .eKI_Q) else none
  keyMapper := KeyMapper.initial
  game := sampleGame 0
  m_pInputComponent := some (CPlayerComponent.InitializeInput sampleHeaders ⟨[], []⟩)

namespace CFlowNode_ChangeInputBinding

/-- The player component can be reached: the node holds it, or the entity
system finds an entity named "Player" that has one. -/
def playerAvailable {R : Type} (w : World R) : Prop :=
  w.m_pPlayerComponent = true ∨ (w.entitySystem = true ∧ w.playerEntity = some true)

/-- The nine action names that `InitializeInput` registers. -/
def logicalActions : List String :=
  ["moveforward", "moveback", "moveleft", "moveright", "yaw", "pitch", "sprint", "jump", "crouch"]

end CFlowNode_ChangeInputBinding

/-! ## Engine vector operations -/

/-- The product `Vec3 * float`: every component times the scalar. -/
def Vec3.scale {R : Type} [Mul R] (v : Vec3 R) (c : R) : Vec3 R := ⟨v.x * c, v.y * c, v.z * c⟩

/-- The squared length of a vector. -/
def Vec3.magSq {R : Type} [Add R] [Mul R] (v : Vec3 R) : R := v.x * v.x + v.y * v.y + v.z * v.z

/-- Modelled from the spec: the engine routine `Vec3::normalize`, which is not
in the repository. Section 4.2 says the movement vector is "normalize"d: the
vector is scaled by the reciprocal of its length, `isqrt` being the engine's
reciprocal square root. -/
def Vec3.normalize {R : Type} [Add R] [Mul R] (isqrt : R → R) (v : Vec3 R) : Vec3 R :=
  v.scale (isqrt v.magSq)

/-- Modelled from the spec: the engine routine `crymath::clamp(val, lo, hi)`,
which is not in the repository ("clamp pitch to configured min/max"): the
value, raised to `lo` and then lowered to `hi`. -/
def clamp {R : Type} [LinearOrder R] (val lo hi : R) : R := min (max val lo) hi

/-- The engine matrix `Matrix33`, by rows. -/
structure Matrix33 (R : Type) where
  row0 : Vec3 R
  row1 : Vec3 R
  row2 : Vec3 R

/-- The engine's vector and rotation routines that the component calls. Their
code is not part of the repository. -/
structure EngineMath (R : Type) where
  /-- The reciprocal square root used by `Vec3::normalize`. -/
  isqrt : R → R
  /-- The product `Quat * Vec3`: the vector rotated by the quaternion. -/
  rotate : Quat R → Vec3 R → Vec3 R
  /-- The routine `Quat::CreateRotationZ(angle)`. -/
  CreateRotationZ : R → Quat R
  /-- The routine `Quat::GetRotZ()`. -/
  GetRotZ : Quat R → R
  /-- The routine `Matrix33::CreateRotationX(angle)`. -/
  CreateRotationX : R → Matrix33 R
  /-- The routine `Vec3::CreateLerp(p, q, t)`. -/
  CreateLerp : Vec3 R → Vec3 R → R → Vec3 R
  /-- The product `Quat * Quat`. -/
  quatMul : Quat R → Quat R → Quat R

/-- The transform `Matrix34` of the camera component: translation and
rotation part. -/
structure CameraTransform (R : Type) where
  translation : Vec3 R
  rotation33 : Matrix33 R

/-- The player component with its entity, camera and input component. -/
structure Scene (R : Type) where
  /-- The component and the objects its callbacks reach. -/
  game : Game R
  /-- The value `m_pEntity->GetWorldRotation()`. -/
  worldRotation : Quat R
  /-- The transform of `m_pCameraComponent`. -/
  camera : CameraTransform R
  /-- The rotation last given to `m_pEntity->SetRotation`. -/
  entityRotation : Quat R
  /-- The input component `*m_pInputComponent`. -/
  input : CInputComponent R

/-! ## Footstep sounds and surface types -/

/-- A child node of the root of `SurfaceTypes.xml`, as far as the loader looks
at it. -/
structure XmlChild where
  /-- The answer of `isTag("SurfaceType")`. -/
  isSurfaceType : Bool
  /-- The result of `getAttr("name", ..)`: the attribute value, if present. -/
  name : Option String

/-- The engine services behind `LoadSurfaceTypes` and `OnFootstepEvent`. -/
structure EngineEnv (R : Type) where
  /-- The console variable `sys_game_folder`: absent, or its string value. -/
  sys_game_folder : Option String
  /-- The call `LoadXmlFromFile(path)`: null, or the children of the root node. -/
  LoadXmlFromFile : String → Option (List XmlChild)
  /-- The call `RayWorldIntersection(origin, direction, ..)`: no hit, or the
  `surface_idx` of the hit. -/
  RayWorldIntersection : Vec3 R → Vec3 R → Option Int
  /-- The call `GetSurfaceType(idx)`: null, or the name of the surface type. -/
  GetSurfaceType : Int → Option String
  /-- Whether `gEnv->pAudioSystem` is non-null. -/
  audioSystem : Bool
  /-- The function `CryAudio::StringToId`. -/
  StringToId : String → Nat
  /-- The constant `CryAudio::InvalidControlId`. -/
  InvalidControlId : Nat

namespace CPlayerComponent

variable {R : Type}

/-- The characters of the literal `"mat_"`. -/
def matChars : List Char := ['m', 'a', 't', '_']

/-- The key computed from a surface name, in `LoadSurfaceTypes` and in
`OnFootstepEvent` alike: `if (name.find("mat_") == 0) name = name.substr(4);`. -/
def surfaceKey (name : String) : String :=
  if name.data.take 4 = matChars then ⟨name.data.drop 4⟩ else name

/-- The body of the loop of `LoadSurfaceTypes` for one child node. -/
def loadSurfaceNode (table : List (String × String)) (node : XmlChild) :
    List (String × String) :=
  if node.isSurfaceType then
    match node.name with
    | some surfaceName =>
      let surfaceNameStr := surfaceKey surfaceName
      Assoc.assign surfaceNameStr ("pl_footsteps/" ++ surfaceNameStr) table
    | none => table
  else table

/-- `CPlayerComponent::LoadSurfaceTypes`. -/
def LoadSurfaceTypes (env : EngineEnv R) (g : Game R) : Game R :=
  match env.sys_game_folder with
  | none => g.CryLogAlways "Failed to retrieve sys_game_folder cvar."
  | some gameFolder =>
    if gameFolder = "" then g.CryLogAlways "sys_game_folder cvar is empty."
    else
      let surfaceTypesPath := gameFolder ++ "/libs/MaterialEffects/SurfaceTypes.xml"
      match env.LoadXmlFromFile surfaceTypesPath with
      | none =>
        g.CryLogAlways ("Failed to load SurfaceTypes.xml from path: " ++ surfaceTypesPath)
      | some children =>
        let table := children.foldl loadSurfaceNode g.player.m_surfaceTypes
        let g : Game R := { g with player := { g.player with m_surfaceTypes := table } }
        g.CryLogAlways ("Loaded " ++ toString table.length ++ " surface types.")

/-- `CPlayerComponent::OnFootstepEvent`: the state after the call and the
control ids handed to `ExecuteTrigger`. -/
def OnFootstepEvent [Field R] (env : EngineEnv R) (_eventName : String) (g : Game R) :
    Game R × List Nat :=
  let playerPosition := g.worldPos
  match env.RayWorldIntersection playerPosition ((⟨0, 0, -1⟩ : Vec3 R).scale 1) with
  | some surface_idx =>
    match env.GetSurfaceType surface_idx with
    | none => (g.CryLogAlways "Failed to retrieve surface type from raycast hit.", [])
    | some surfaceTypeName =>
      let surfaceName := surfaceKey surfaceTypeName
      match Assoc.find surfaceName g.player.m_surfaceTypes with
      | none =>
        (g.CryLogAlways ("No audio trigger found for surface type: " ++ surfaceName), [])
      | some audioTriggerName =>
        if env.audioSystem then
          let audioTriggerId := env.StringToId audioTriggerName
          if audioTriggerId ≠ env.InvalidControlId then (g, [audioTriggerId])
          else (g.CryLogAlways ("Invalid audio trigger: " ++ audioTriggerName), [])
        else (g, [])
  | none => (g.CryLogAlways "No surface detected below the player.", [])

end CPlayerComponent

/-! ## Reset and the per-frame steps -/

namespace CPlayerComponent

variable {R : Type}

/-- `CPlayerComponent::Reset`. -/
def Reset [Field R] (E : EngineHeaders) (M : EngineMath R) (s : Scene R) : Scene R :=
  let p := s.game.player
  let p : CPlayerComponent R :=
    { p with
      m_movementDelta := ⟨0, 0⟩
      m_MouseDeltaRotation := ⟨0, 0⟩
      m_CurrentYaw := M.CreateRotationZ (M.GetRotZ s.worldRotation)
      m_CurrentPitch := 0 }
  let p : CPlayerComponent R := { p with m_currentPlayerState := .Walking }
  let input := InitializeInput E s.input
  let p : CPlayerComponent R := { p with m_currentPlayerStance := .Standing }
  let p : CPlayerComponent R := { p with m_desiredPlayerStance := p.m_currentPlayerStance }
  let p : CPlayerComponent R := { p with m_CameraEndOffset := p.m_CameraOffsetStanding }
  { s with game := { s.game with player := p }, input := input }

/-- The vector `Vec3(m_movementDelta.x, m_movementDelta.y, 0.0f)` of `UpdateMovement`. -/
def planarDelta [Zero R] (p : CPlayerComponent R) : Vec3 R :=
  ⟨p.m_movementDelta.x, p.m_movementDelta.y, 0⟩

/-- The local `velocity` of `UpdateMovement` after `velocity.normalize()`. -/
def movementDirection [Field R] (M : EngineMath R) (p : CPlayerComponent R) : Vec3 R :=
  (planarDelta p).normalize M.isqrt

/-- The local `playerMoveSpeed` of `UpdateMovement`. -/
def playerMoveSpeed (p : CPlayerComponent R) : R :=
  if p.m_currentPlayerState = EPlayerState.Sprinting then p.m_RunSpeed else p.m_WalkSpeed

/-- `CPlayerComponent::UpdateMovement`. -/
def UpdateMovement [Field R] (M : EngineMath R) (s : Scene R) : Scene R :=
  let velocity := movementDirection M s.game.player
  let speed := playerMoveSpeed s.game.player
  { s with game :=
      { s.game with controllerCommands := s.game.controllerCommands ++
          [ControllerCommand.SetVelocity ((M.rotate s.worldRotation velocity).scale speed)] } }

/-- `CPlayerComponent::UpdateCamera`. The interpolated `CurrentCameraOffset`
is a local that the function does not use after computing it. -/
def UpdateCamera [LinearOrderedField R] (M : EngineMath R) (frametime : R) (s : Scene R) :
    Scene R :=
  let p := s.game.player
  let pitch := clamp (p.m_CurrentPitch + p.m_MouseDeltaRotation.y * p.m_RotationSpeed)
    p.m_RotationLimitsMaxPitch p.m_RotationLimitsMinPitch
  let p : CPlayerComponent R := { p with m_CurrentPitch := pitch }
  let CurrentCameraOffset := s.camera.translation
  let _CurrentCameraOffset := M.CreateLerp CurrentCameraOffset p.m_CameraEndOffset (10.0 * frametime)
  let finalCamMatrix : CameraTransform R :=
    { translation := p.m_CameraOffsetStanding
      rotation33 := M.CreateRotationX p.m_CurrentPitch }
  { s with game := { s.game with player := p }, camera := finalCamMatrix }

end CPlayerComponent

/-! ## Flow node events -/

/-- The activation info of a flow node event, as far as the nodes read it. -/
structure SActivationInfo where
  /-- The answer of `IsPortActive(pActInfo, port)`. -/
  portActive : Nat → Bool
  /-- The value of `GetPortString(pActInfo, port)`. -/
  portString : Nat → String
  /-- The value of `GetPortBool(pActInfo, port)`. -/
  portBool : Nat → Bool

namespace CFlowNode_ChangeInputBinding

variable {R : Type} [Field R]

/-- `CFlowNode_ChangeInputBinding::ProcessEvent`: the state after the event and
the output ports activated so far, oldest first (0 is OnSuccess, 1 is
OnFailure). -/
def ProcessEvent (E : EngineHeaders) (event : Int) (act : SActivationInfo) (w : World R)
    (outputs : List Nat) : World R × List Nat :=
  if event = E.eFE_Activate ∧ act.portActive 2 = true then
    let actionName := act.portString 0
    let newKey := act.portString 1
    let r := RebindAction E actionName newKey w
    if r.1 then (r.2, outputs ++ [0])
    else (r.2, outputs ++ [1])
  else (w, outputs)

end CFlowNode_ChangeInputBinding

/-- The trigger-custom-animation node, the engine objects it reaches and the
output ports it has activated. -/
structure AnimationWorld (R : Type) where
  /-- Whether the node's `m_pPlayerComponent` is set (non-null). -/
  m_pPlayerComponent : Bool
  /-- The member `pActInfo->pEntity`: null, or an entity, with whether
  `GetComponent<CPlayerComponent>()` is non-null on it. -/
  pEntity : Option Bool
  /-- The result of `FindEntityByName("Player")`, in the same form. -/
  playerEntity : Option Bool
  /-- Whether the player's `m_pAdvancedAnimationComponent` is non-null. -/
  hasAnimationComponent : Bool
  /-- The flag last given to `SetAnimationDrivenMotion`. -/
  animationDrivenMotion : Bool
  /-- The player component and the objects around it. -/
  game : Game R
  /-- The output ports activated so far, oldest first (0 is OnSuccess, 1 is
  OnFailure). -/
  outputs : List Nat

namespace CFlowNode_TriggerCustomAnimation

variable {R : Type}

/-- `CryLogAlways(line)` from the flow node. -/
def logLine (line : String) (w : AnimationWorld R) : AnimationWorld R :=
  { w with game := w.game.CryLogAlways line }

/-- `ActivateOutput(pActInfo, port, true)`. -/
def ActivateOutput (port : Nat) (w : AnimationWorld R) : AnimationWorld R :=
  { w with outputs := w.outputs ++ [port] }

/-- The block `if (!pActInfo->pEntity)` of `ProcessEvent`. `Except.error`
carries the state at a `return`. -/
def resolveEntity (w : AnimationWorld R) : Except (AnimationWorld R) (AnimationWorld R) :=
  match w.pEntity with
  | none =>
    let w := logLine ("[CFlowNode_TriggerCustomAnimation] pEntity is null in Activation info. "
      ++ "Attempting to retrieve dynamically.") w
    match w.playerEntity with
    | some entity =>
      let w := logLine
        "[CFlowNode_TriggerCustomAnimation] Successfully retrieved entity dynamically." w
      .ok { w with pEntity := some entity }
    | none =>
      let w := logLine
        "[CFlowNode_TriggerCustomAnimation] Failed to retrieve entity dynamically." w
      .error (ActivateOutput 1 w)
  | some _ => .ok w

/-- The block `if (!m_pPlayerComponent)` of `ProcessEvent`; it runs with
`pActInfo->pEntity` non-null. -/
def resolvePlayer (w : AnimationWorld R) : Except (AnimationWorld R) (AnimationWorld R) :=
  if !w.m_pPlayerComponent then
    let w := logLine ("[CFlowNode_TriggerCustomAnimation] Player component is null. "
      ++ "Attempting to retrieve dynamically.") w
    let w : AnimationWorld R := { w with m_pPlayerComponent := w.pEntity.getD false }
    if w.m_pPlayerComponent then
      .ok (logLine ("[CFlowNode_TriggerCustomAnimation] Successfully retrieved Player "
        ++ "Component dynamically.") w)
    else
      let w := logLine ("[CFlowNode_TriggerCustomAnimation] Failed to retrieve Player "
        ++ "Component dynamically.") w
      .error (ActivateOutput 1 w)
  else .ok w

/-- The text `motionDriven ? "true" : "false"`. -/
def boolText (b : Bool) : String := if b then "true" else "false"

/-- `CFlowNode_TriggerCustomAnimation::ProcessEvent`. The test `if (!pActInfo)`
comes after `IsPortActive(pActInfo, 2)` has read through the pointer, so the
pointer is not null where the test stands. -/
def ProcessEvent (E : EngineHeaders) (event : Int) (act : SActivationInfo)
    (w : AnimationWorld R) : AnimationWorld R :=
  if event = E.eFE_Activate ∧ act.portActive 2 = true then
    let w := logLine "[CFlowNode_TriggerCustomAnimation] Trigger input activated." w
    match resolveEntity w with
    | .error w => w
    | .ok w =>
      match resolvePlayer w with
      | .error w => w
      | .ok w =>
        if !w.hasAnimationComponent then
          let w := logLine
            "[CFlowNode_TriggerCustomAnimation] AdvancedAnimationComponent is null." w
          ActivateOutput 1 w
        else
          let animationName := act.portString 0
          let motionDriven := act.portBool 1
          let w := logLine ("[CFlowNode_TriggerCustomAnimation] Animation name: \x27"
            ++ animationName ++ "\x27, Motion-driven: " ++ boolText motionDriven) w
          if animationName = "" then
            let w := logLine "[CFlowNode_TriggerCustomAnimation] Animation name is empty." w
            ActivateOutput 1 w
          else
            let w : AnimationWorld R := { w with animationDrivenMotion := motionDriven }
            let w := logLine ("[CFlowNode_TriggerCustomAnimation] Motion-driven flag set to: "
              ++ boolText motionDriven) w
            let w : AnimationWorld R := { w with game := w.game.QueueFragment animationName }
            let w := logLine ("[CFlowNode_TriggerCustomAnimation] Queued animation fragment: \x27"
              ++ animationName ++ "\x27") w
            let w := ActivateOutput 0 w
            logLine "[CFlowNode_TriggerCustomAnimation] Animation triggered successfully." w
  else w

/-- The entity the node works on: `pActInfo->pEntity`, or failing that the
entity found under the name "Player". -/
def resolvedEntity (w : AnimationWorld R) : Option Bool :=
  match w.pEntity with
  | some entity => some entity
  | none => w.playerEntity

/-- The entity, the player component and its animation component resolve. -/
def dependenciesResolve (w : AnimationWorld R) : Prop :=
  ∃ entity, resolvedEntity w = some entity ∧
    (w.m_pPlayerComponent = true ∨ entity = true) ∧ w.hasAnimationComponent = true

end CFlowNode_TriggerCustomAnimation

/-! ## Readings of the input component -/

namespace CInputComponent

variable {R : Type}

/-- The number of callbacks registered under an action name, in any context. -/
def callbacksNamed (name : String) (ic : CInputComponent R) : Nat :=
  (ic.callbacks.filter fun e => e.1.2 = name).length

/-- The keys bound to an action name, in any context. -/
def keysBoundTo (name : String) (ic : CInputComponent R) : List EKeyId :=
  (ic.bindings.filter fun e => e.1.2 = name).map fun e => e.2.keyId

end CInputComponent

/-! ## Further sample states -/

/-- The cross product of two vectors. -/
def Vec3.cross {R : Type} [Sub R] [Mul R] (a b : Vec3 R) : Vec3 R :=
  ⟨a.y * b.z - a.z * b.y, a.z * b.x - a.x * b.z, a.x * b.y - a.y * b.x⟩

/-- Stand-ins over `ℚ` for the engine routines, exact where the evaluations
below use them: the reciprocal square root at 1, 4 and 25, the rotation of a
vector by a quaternion, the product of quaternions, the linear interpolation.
The trigonometric constructors, which no evaluation inspects, return the
identity. -/
def sampleMath : EngineMath ℚ where
  isqrt := fun a => if a = 25 then 1 / 5 else if a = 4 then 1 / 2 else 1
  rotate := fun q v =>
    (v.add ((q.v.cross v).scale (2 * q.w))).add ((q.v.cross (q.v.cross v)).scale 2)
  CreateRotationZ := fun _ => ⟨⟨0, 0, 0⟩, 1⟩
  GetRotZ := fun _ => 0
  CreateRotationX := fun _ => ⟨⟨1, 0, 0⟩, ⟨0, 1, 0⟩, ⟨0, 0, 1⟩⟩
  CreateLerp := fun p q t => ⟨p.x + (q.x - p.x) * t, p.y + (q.y - p.y) * t, p.z + (q.z - p.z) * t⟩
  quatMul := fun p q =>
    ⟨((q.v.scale p.w).add (p.v.scale q.w)).add (p.v.cross q.v),
      p.w * q.w - (p.v.x * q.v.x + p.v.y * q.v.y + p.v.z * q.v.z)⟩

/-- The sample player with a given movement delta and discrete state, on an
entity turned about the vertical axis (a unit quaternion). -/
def movingScene (x y : ℚ) (state : EPlayerState) : Scene ℚ where
  game := { sampleGame 0 with
    player := { samplePlayer with m_movementDelta := ⟨x, y⟩, m_currentPlayerState := state } }
  worldRotation := ⟨⟨0, 0, 3 / 5⟩, 4 / 5⟩
  camera := ⟨⟨0, 0, 0⟩, ⟨⟨1, 0, 0⟩, ⟨0, 1, 0⟩, ⟨0, 0, 1⟩⟩⟩
  entityRotation := ⟨⟨0, 0, 3 / 5⟩, 4 / 5⟩
  input := ⟨[], []⟩

/-- An engine whose surface file lists one surface type named `xmlName`, whose
downward ray hits a surface named `hitName`, and whose audio system gives a
trigger name its length as control id (0 is the invalid id). -/
def sampleEnv (xmlName hitName : String) : EngineEnv ℚ where
  sys_game_folder := some "Assets"
  LoadXmlFromFile := fun _ => some [⟨true, some xmlName⟩]
  RayWorldIntersection := fun _ _ => some 0
  GetSurfaceType := fun _ => some hitName
  audioSystem := true
  StringToId := fun name => name.length
  InvalidControlId := 0

/-- A trigger-custom-animation node whose activation info carries no entity,
in an engine that finds the player entity by name. -/
def sampleAnimationWorld : AnimationWorld ℚ where
  m_pPlayerComponent := false
  pEntity := none
  playerEntity := some true
  hasAnimationComponent := true
  animationDrivenMotion := false
  game := sampleGame 0
  outputs := []

/-- An activation of port 2 with the strings `s0`, `s1` on ports 0 and 1 and
the flag `b1` on port 1. -/
def sampleActivation (s0 s1 : String) (b1 : Bool) : SActivationInfo where
  portActive := fun port => port == 2
  portString := fun port => if port = 0 then s0 else s1
  portBool := fun _ => b1

/-! ## The per-frame update -/

namespace CPlayerComponent

variable {R : Type}

/-- `CPlayerComponent::UpdateRotation`. -/
def UpdateRotation [Field R] (M : EngineMath R) (s : Scene R) : Scene R :=
  let p := s.game.player
  let yaw := M.quatMul p.m_CurrentYaw
    (M.CreateRotationZ (p.m_MouseDeltaRotation.x * p.m_RotationSpeed))
  let p : CPlayerComponent R := { p with m_CurrentYaw := yaw }
  { s with game := { s.game with player := p }, entityRotation := p.m_CurrentYaw }

/-- The call of `TryUpdateStance` on the component of a scene. -/
def stanceStep [Field R] (s : Scene R) : Scene R :=
  { s with game := TryUpdateStance s.game }

/-- The `Update` case of `CPlayerComponent::ProcessEvent`, `frametime` being
`eventParam.fParam[0]`: the four calls in the order of the source. -/
def ProcessEventUpdate [LinearOrderedField R] (M : EngineMath R) (frametime : R)
    (s : Scene R) : Scene R :=
  let s := stanceStep s
  let s := UpdateMovement M s
  let s := UpdateCamera M frametime s
  UpdateRotation M s

/-- The per-frame sequence in the words of the spec (section 4.2): "(1)
resolve desired stance", "(2) compute planar movement vector", "(3) integrate
rotation", "(4) update camera", in that fixed order. -/
def updateSequenceOfSpec [LinearOrderedField R] (M : EngineMath R) (frametime : R)
    (s : Scene R) : Scene R :=
  let s := stanceStep s
  let s := UpdateMovement M s
  let s := UpdateRotation M s
  UpdateCamera M frametime s

end CPlayerComponent

/-! ## Sequences of operations on the player -/

/-- The nine actions that `InitializeInput` registers. -/
inductive InputAction where
  | moveforward
  | moveback
  | moveleft
  | moveright
  | yaw
  | pitch
  | sprint
  | jump
  | crouch
  deriving DecidableEq, Repr

/-- The callback that `InitializeInput` registers for an action. -/
def InputAction.callback {R : Type} [Field R] (E : EngineHeaders) :
    InputAction → TActionCallback R
  | .moveforward => CPlayerComponent.moveforwardCallback E
  | .moveback => CPlayerComponent.movebackCallback E
  | .moveleft => CPlayerComponent.moveleftCallback E
  | .moveright => CPlayerComponent.moverightCallback E
  | .yaw => CPlayerComponent.yawCallback
  | .pitch => CPlayerComponent.pitchCallback
  | .sprint => CPlayerComponent.sprintCallback E
  | .jump => CPlayerComponent.jumpCallback E
  | .crouch => CPlayerComponent.crouchCallback E

/-- An operation on the player: a `Reset`, the delivery of an input to a
callback of `InitializeInput` or to a callback registered by `RebindAction`,
or an `Update` event. -/
inductive Op (R : Type) where
  | reset
  | input (action : InputAction) (activationMode : Int) (value : R)
  | rebound (actionName : String) (activationMode : Int) (value : R)
  | update (frametime : R)

namespace Op

variable {R : Type} [LinearOrderedField R]

/-- The state after one operation. -/
def apply (E : EngineHeaders) (M : EngineMath R) (s : Scene R) : Op R → Scene R
  | .reset => CPlayerComponent.Reset E M s
  | .input action activationMode value =>
    { s with game := action.callback E activationMode value s.game }
  | .rebound actionName activationMode value =>
    { s with game :=
        CFlowNode_ChangeInputBinding.combinedCallback E actionName activationMode value s.game }
  | .update frametime => CPlayerComponent.ProcessEventUpdate M frametime s

/-- The state after a sequence of operations, first to last. -/
def run (E : EngineHeaders) (M : EngineMath R) (s : Scene R) (ops : List (Op R)) : Scene R :=
  ops.foldl (apply E M) s

/-- Whether the operation is a press delivered to a sprint callback. -/
def isSprintPress (E : EngineHeaders) : Op R → Bool
  | .input action activationMode _ =>
    decide (action = InputAction.sprint) && decide (activationMode = E.eAAM_OnPress)
  | .rebound actionName activationMode _ =>
    decide (actionName = "sprint") && decide (activationMode = E.eAAM_OnPress)
  | _ => false

end Op

/-- A scene is reachable: it results from a newly constructed player
component, in any surroundings, by a sequence of operations. -/
def Reachable {R : Type} [LinearOrderedField R] (E : EngineHeaders) (M : EngineMath R)
    (s : Scene R) : Prop :=
  ∃ (s0 : Scene R) (ops : List (Op R)),
    s0.game.player = CPlayerComponent.construct ∧ s = Op.run E M s0 ops

/-- The sample scene with the player as constructed. -/
def constructedScene : Scene ℚ :=
  { movingScene 0 0 EPlayerState.Walking with
    game := { sampleGame 0 with player := CPlayerComponent.construct } }

/-- The sample scene with the camera at the standing offset and the crouching
offset as camera offset target. -/
def crouchTargetScene : Scene ℚ :=
  { movingScene 0 0 EPlayerState.Walking with
    game := { sampleGame 0 with
      player := { samplePlayer with m_CameraEndOffset := ⟨0, 0, 1⟩ } }
    camera := ⟨⟨0, 0, 17 / 10⟩, ⟨⟨1, 0, 0⟩, ⟨0, 1, 0⟩, ⟨0, 0, 1⟩⟩⟩ }

/-- The sample game with every locomotion fragment named. -/
def namedGame : Game ℚ :=
  { sampleGame 0 with
    player := { samplePlayer with
      m_AnimationWalk := "Walk"
      m_AnimationLeft := "Left"
      m_AnimationRight := "Right"
      m_AnimationRun := "Run"
      m_AnimationCrouch := "Crouch" } }

/-! ## Facts about the association lists -/

namespace Assoc

variable {κ ν : Type} [DecidableEq κ]

theorem find_some_mem {k : κ} {v : ν} {m : List (κ × ν)} (h : find k m = some v) :
    (k, v) ∈ m := by
  induction m with
  | nil => simp [find] at h
  | cons p rest ih =>
    obtain ⟨k', v'⟩ := p
    by_cases hk : k' = k
    · simp [find, hk] at h
      simp [hk, h]
    · simp [find, hk] at h
      exact List.mem_cons_of_mem _ (ih h)

theorem find_none_of_not_mem {k : κ} {m : List (κ × ν)} (h : ∀ p ∈ m, p.1 ≠ k) :
    find k m = none := by
  induction m with
  | nil => rfl
  | cons p rest ih =>
    obtain ⟨k', v'⟩ := p
    have hk : k' ≠ k := h (k', v') (List.mem_cons_self _ _)
    simp only [find, hk, if_false]
    exact ih fun q hq => h q (List.mem_cons_of_mem _ hq)

theorem find_assign_self (k : κ) (v : ν) (m : List (κ × ν)) :
    find k (assign k v m) = some v := by
  induction m with
  | nil => simp [assign, find]
  | cons p rest ih =>
    obtain ⟨k', v'⟩ := p
    by_cases hk : k' = k
    · simp [assign, find, hk]
    · simp [assign, find, hk, ih]

theorem find_assign_ne {k k0 : κ} (v : ν) (m : List (κ × ν)) (hne : k ≠ k0) :
    find k0 (assign k v m) = find k0 m := by
  induction m with
  | nil => simp [assign, find, hne]
  | cons p rest ih =>
    obtain ⟨k', v'⟩ := p
    by_cases hk : k' = k
    · subst hk
      simp [assign, find, hne]
    · by_cases hk0 : k' = k0
      · subst hk0
        simp [assign, find, hk]
      · simp [assign, find, hk, hk0, ih]

theorem mem_insert {k : κ} {v : ν} {m : List (κ × ν)} {p : κ × ν}
    (h : p ∈ insert k v m) : p ∈ m ∨ p = (k, v) := by
  unfold insert at h
  split at h
  · exact Or.inl h
  · simpa using h

theorem insert_ne_nil (k : κ) (v : ν) (m : List (κ × ν)) : insert k v m ≠ [] := by
  unfold insert
  split
  · rename_i h
    intro hm
    subst hm
    simp [find] at h
  · simp

theorem mem_foldl_insert {p : κ × ν} (l : List (κ × ν)) :
    ∀ acc : List (κ × ν), p ∈ l.foldl (fun m q => insert q.1 q.2 m) acc → p ∈ acc ∨ p ∈ l := by
  induction l with
  | nil => intro acc h; exact Or.inl h
  | cons q rest ih =>
    intro acc h
    rcases ih _ h with h1 | h1
    · rcases mem_insert h1 with h2 | h2
      · exact Or.inl h2
      · exact Or.inr (h2 ▸ List.mem_cons_self _ _)
    · exact Or.inr (List.mem_cons_of_mem _ h1)

theorem mem_ofInitList {p : κ × ν} {l : List (κ × ν)} (h : p ∈ ofInitList l) : p ∈ l := by
  rcases mem_foldl_insert l [] h with h1 | h1
  · simp at h1
  · exact h1

theorem foldl_insert_ne_nil (l : List (κ × ν)) :
    ∀ acc : List (κ × ν), acc ≠ [] → l.foldl (fun m q => insert q.1 q.2 m) acc ≠ [] := by
  induction l with
  | nil => intro acc h; exact h
  | cons q rest ih => intro acc _; exact ih _ (insert_ne_nil _ _ _)

theorem ofInitList_cons_ne_nil (q : κ × ν) (l : List (κ × ν)) : ofInitList (q :: l) ≠ [] :=
  foldl_insert_ne_nil l _ (insert_ne_nil _ _ _)

end Assoc

namespace KeyMapper

set_option maxRecDepth 100000 in
/-- In `keyTable` a display name is listed under one enumerator only. -/
theorem keyTable_names_functional :
    ∀ e ∈ keyTable, symOfName e.2 keyTable = some e.1 := by
  decide

theorem keyTable_name_determines_sym {s s' : EKeySym} {n : String}
    (h : (s, n) ∈ keyTable) (h' : (s', n) ∈ keyTable) : s = s' := by
  have h1 := keyTable_names_functional _ h
  have h2 := keyTable_names_functional _ h'
  simp only at h1 h2
  rw [h1] at h2
  exact Option.some.inj h2

theorem forwardMap_mem {E : EngineHeaders} {k : EKeyId} {n : String}
    (h : (k, n) ∈ forwardMap E) : ∃ s, (s, n) ∈ keyTable ∧ E.keyId s = k := by
  have h1 := Assoc.mem_ofInitList h
  rw [List.mem_map] at h1
  obtain ⟨⟨s, n'⟩, hmem, heq⟩ := h1
  simp only [Prod.mk.injEq] at heq
  exact ⟨s, heq.2 ▸ hmem, heq.1⟩

theorem forwardMap_name_determines_id {E : EngineHeaders} {k k' : EKeyId} {n : String}
    (h : (k, n) ∈ forwardMap E) (h' : (k', n) ∈ forwardMap E) : k = k' := by
  obtain ⟨s, hs, hk⟩ := forwardMap_mem h
  obtain ⟨s', hs', hk'⟩ := forwardMap_mem h'
  rw [← hk, ← hk', keyTable_name_determines_sym hs hs']

theorem forwardMap_isEmpty (E : EngineHeaders) : (forwardMap E).isEmpty = false := by
  have h : forwardMap E ≠ [] := by
    unfold forwardMap keyTable
    exact Assoc.ofInitList_cons_ne_nil _ _
  cases hf : forwardMap E with
  | nil => exact absurd hf h
  | cons _ _ => rfl

theorem find_reverseInto (n : String) (fwd : List (EKeyId × String)) :
    ∀ rev : List (String × EKeyId),
      (Assoc.find n (reverseInto fwd rev) = Assoc.find n rev ∧ ∀ p ∈ fwd, p.2 ≠ n) ∨
      (∃ k, (k, n) ∈ fwd ∧ Assoc.find n (reverseInto fwd rev) = some k) := by
  induction fwd with
  | nil => intro rev; exact Or.inl ⟨rfl, by simp⟩
  | cons p rest ih =>
    intro rev
    obtain ⟨k0, n0⟩ := p
    have hstep : reverseInto ((k0, n0) :: rest) rev
        = reverseInto rest (Assoc.assign n0 k0 rev) := rfl
    rw [hstep]
    rcases ih (Assoc.assign n0 k0 rev) with ⟨h1, h2⟩ | ⟨k, hk, h1⟩
    · by_cases hn : n0 = n
      · subst hn
        exact Or.inr ⟨k0, List.mem_cons_self _ _, by rw [h1, Assoc.find_assign_self]⟩
      · refine Or.inl ⟨by rw [h1, Assoc.find_assign_ne _ _ hn], ?_⟩
        intro q hq
        rcases List.mem_cons.mp hq with hq | hq
        · rw [hq]; exact hn
        · exact h2 q hq
    · exact Or.inr ⟨k, List.mem_cons_of_mem _ hk, h1⟩

theorem InitializeKeyMappings_initial (E : EngineHeaders) :
    InitializeKeyMappings E initial = ⟨forwardMap E, reverseInto (forwardMap E) []⟩ := rfl

theorem InitializeKeyMappings_idem (E : EngineHeaders) :
    InitializeKeyMappings E (InitializeKeyMappings E initial) = InitializeKeyMappings E initial := by
  rw [InitializeKeyMappings_initial]
  simp [InitializeKeyMappings, forwardMap_isEmpty]

theorem InitializeKeyMappings_reachable {E : EngineHeaders} {m : KeyMapper} (h : Reachable E m) :
    InitializeKeyMappings E m = InitializeKeyMappings E initial := by
  rcases h with h | h
  · rw [h]
  · rw [h, InitializeKeyMappings_idem]

end KeyMapper

/-- C1: for every key id with an entry in the table built by InitializeKeyMappings,
converting it to its display name and the name back to a key id returns the key id. -/
theorem C1_name_roundtrip (E : EngineHeaders) (m : KeyMapper) (hm : KeyMapper.Reachable E m)
    (k : EKeyId)
    (hk : (Assoc.find k (KeyMapper.InitializeKeyMappings E KeyMapper.initial).s_keyIdToNameMap).isSome
      = true) :
    (KeyMapper.UserFriendlyNameToKeyId E (KeyMapper.KeyIdToUserFriendlyName E m k).2
      (KeyMapper.KeyIdToUserFriendlyName E m k).1).1 = k := by
  rw [KeyMapper.InitializeKeyMappings_initial] at hk
  obtain ⟨n, hn⟩ := Option.isSome_iff_exists.mp hk
  simp only at hn
  have h1 : KeyMapper.KeyIdToUserFriendlyName E m k
      = (n, KeyMapper.InitializeKeyMappings E KeyMapper.initial) := by
    simp only [KeyMapper.KeyIdToUserFriendlyName, KeyMapper.InitializeKeyMappings_reachable hm,
      KeyMapper.InitializeKeyMappings_initial, hn]
  rw [h1]
  simp only [KeyMapper.UserFriendlyNameToKeyId, KeyMapper.InitializeKeyMappings_idem]
  rw [KeyMapper.InitializeKeyMappings_initial]
  simp only
  have hmem := Assoc.find_some_mem hn
  rcases KeyMapper.find_reverseInto n (KeyMapper.forwardMap E) [] with ⟨_, h2⟩ | ⟨k', hk', h2⟩
  · exact absurd rfl (h2 _ hmem)
  · rw [h2]
    exact KeyMapper.forwardMap_name_determines_id hk' hmem


set_option maxRecDepth 100000 in
theorem C1_name_roundtrip_witness :
    KeyMapper.Reachable sampleHeaders KeyMapper.initial ∧
    (Assoc.find (15 : EKeyId)
      (KeyMapper.InitializeKeyMappings sampleHeaders KeyMapper.initial).s_keyIdToNameMap).isSome
      = true ∧
    (KeyMapper.UserFriendlyNameToKeyId sampleHeaders
      (KeyMapper.KeyIdToUserFriendlyName sampleHeaders KeyMapper.initial 15).2
      (KeyMapper.KeyIdToUserFriendlyName sampleHeaders KeyMapper.initial 15).1).1 = 15 :=
  ⟨Or.inl rfl, by decide, C1_name_roundtrip sampleHeaders KeyMapper.initial (Or.inl rfl) 15 (by decide)⟩

/-- C2: for every string that is not the display name of an entry of the key-name
table, UserFriendlyNameToKeyId returns the sentinel eKI_Unknown; the function is total,
so no error is signalled. -/
theorem C2_unknown_name (E : EngineHeaders) (m : KeyMapper) (hm : KeyMapper.Reachable E m)
    (keyName : String)
    (hname : ∀ p ∈ (KeyMapper.InitializeKeyMappings E KeyMapper.initial).s_keyIdToNameMap,
      p.2 ≠ keyName) :
    (KeyMapper.UserFriendlyNameToKeyId E m keyName).1 = E.keyId EKeySym.eKI_Unknown := by
  simp only [KeyMapper.InitializeKeyMappings_initial] at hname
  have hfind : Assoc.find keyName (KeyMapper.reverseInto (KeyMapper.forwardMap E) []) = none := by
    rcases KeyMapper.find_reverseInto keyName (KeyMapper.forwardMap E) [] with ⟨h1, _⟩ | ⟨k, hk, _⟩
    · rw [h1]; rfl
    · exact absurd rfl (hname (k, keyName) hk)
  simp only [KeyMapper.UserFriendlyNameToKeyId, KeyMapper.InitializeKeyMappings_reachable hm,
    KeyMapper.InitializeKeyMappings_initial, hfind]

set_option maxRecDepth 100000 in
theorem C2_unknown_name_witness :
    KeyMapper.Reachable sampleHeaders KeyMapper.initial ∧
    (∀ p ∈ (KeyMapper.InitializeKeyMappings sampleHeaders KeyMapper.initial).s_keyIdToNameMap,
      p.2 ≠ "Hyper") ∧
    (KeyMapper.UserFriendlyNameToKeyId sampleHeaders KeyMapper.initial "Hyper").1
      = sampleHeaders.keyId EKeySym.eKI_Unknown :=
  ⟨Or.inl rfl, by decide,
    C2_unknown_name sampleHeaders KeyMapper.initial (Or.inl rfl) "Hyper" (by decide)⟩

/-! ## Stance update -/

namespace CPlayerComponent

variable {R : Type} [Field R]

/-- Every path through `TryUpdateStance` ends without an assignment. -/
theorem TryUpdateStance_eq (g : Game R) : TryUpdateStance g = g := by
  unfold TryUpdateStance
  split
  · rfl
  · split
    · rfl
    · split
      · rfl
      · split <;> rfl

end CPlayerComponent

/-- C3: when the desired stance is Standing, the current stance is Crouching and the
standing-capsule geometry test reports an intersection, TryUpdateStance leaves the state
unchanged: current stance, desired stance, camera offset target and collider dimensions
are as before. -/
theorem C3_blocked_stand_up_unchanged {R : Type} [Field R] (g : Game R)
    (_hd : g.player.m_desiredPlayerStance = EPlayerStance.Standing)
    (_hc : g.player.m_currentPlayerStance = EPlayerStance.Crouching)
    (_hi : CPlayerComponent.IsCapsuleIntersectingGeometry g (CPlayerComponent.standingCapsule g)
      = true) :
    CPlayerComponent.TryUpdateStance g = g ∧
    (CPlayerComponent.TryUpdateStance g).player.m_currentPlayerStance
      = g.player.m_currentPlayerStance ∧
    (CPlayerComponent.TryUpdateStance g).player.m_desiredPlayerStance
      = g.player.m_desiredPlayerStance ∧
    (CPlayerComponent.TryUpdateStance g).player.m_CameraEndOffset
      = g.player.m_CameraEndOffset ∧
    (CPlayerComponent.TryUpdateStance g).physicalEntity = g.physicalEntity := by
  rw [CPlayerComponent.TryUpdateStance_eq]
  exact ⟨rfl, rfl, rfl, rfl, rfl⟩

theorem C3_blocked_stand_up_unchanged_witness :
    (crouchedGame 1).player.m_desiredPlayerStance = EPlayerStance.Standing ∧
    (crouchedGame 1).player.m_currentPlayerStance = EPlayerStance.Crouching ∧
    CPlayerComponent.IsCapsuleIntersectingGeometry (crouchedGame 1)
      (CPlayerComponent.standingCapsule (crouchedGame 1)) = true ∧
    CPlayerComponent.TryUpdateStance (crouchedGame 1) = crouchedGame 1 :=
  ⟨rfl, rfl, rfl, (C3_blocked_stand_up_unchanged (crouchedGame 1) rfl rfl rfl).1⟩

/-! ## Runtime rebinding -/

namespace CFlowNode_ChangeInputBinding

variable {R : Type}

/-- The lookup block keeps the input system, the input component and the key maps. -/
theorem retrievePlayer_frame (w : World R) :
    ∀ w', (retrievePlayer w = .ok w' ∨ retrievePlayer w = .error w') →
      w'.GetSymbolByName = w.GetSymbolByName ∧ w'.m_pInputComponent = w.m_pInputComponent ∧
      w'.keyMapper = w.keyMapper := by
  intro w' h
  unfold retrievePlayer at h
  split at h
  · simp only [logLine] at h
    split at h
    · split at h
      · split at h
        · rcases h with h | h
          · injection h with h; subst h; exact ⟨rfl, rfl, rfl⟩
          · cases h
        · rcases h with h | h
          · cases h
          · injection h with h; subst h; exact ⟨rfl, rfl, rfl⟩
      · rcases h with h | h
        · cases h
        · injection h with h; subst h; exact ⟨rfl, rfl, rfl⟩
    · rcases h with h | h
      · injection h with h; subst h; exact ⟨rfl, rfl, rfl⟩
      · cases h
  · rcases h with h | h
    · injection h with h; subst h; exact ⟨rfl, rfl, rfl⟩
    · cases h

/-- With a reachable player component the lookup block succeeds and the node
holds the component afterwards. -/
theorem retrievePlayer_available (w : World R) (h : playerAvailable w) :
    ∃ w', retrievePlayer w = .ok w' ∧ w'.m_pPlayerComponent = true := by
  unfold retrievePlayer
  by_cases hp : w.m_pPlayerComponent = true
  · exact ⟨w, by simp [hp], hp⟩
  · rcases h with h | ⟨he, hf⟩
    · exact absurd h hp
    · simp only [Bool.not_eq_true] at hp
      simp [hp, logLine, he, hf]

section

variable [Field R]

/-- A call that returns false leaves the input component as it was. -/
theorem RebindAction_false_frame (E : EngineHeaders) (actionName newKey : String) (w : World R)
    (h : (RebindAction E actionName newKey w).1 = false) :
    (RebindAction E actionName newKey w).2.m_pInputComponent = w.m_pInputComponent := by
  cases hr : retrievePlayer w with
  | error w' =>
    have hf := (retrievePlayer_frame w w' (Or.inr hr)).2.1
    simp only [RebindAction, hr]
    exact hf
  | ok w' =>
    have hf := (retrievePlayer_frame w w' (Or.inl hr)).2.1
    by_cases h1 : (!w'.m_pPlayerComponent) = true
    · simp only [RebindAction, hr, h1, if_true, logLine]
      exact hf
    · by_cases h2 : actionName = ""
      · simp only [RebindAction, hr, h1, h2, if_true, if_false, logLine]
        exact hf
      · by_cases h3 : newKey = ""
        · simp only [RebindAction, hr, h1, h2, h3, if_true, if_false, logLine]
          exact hf
        · cases h4 : w'.GetSymbolByName newKey with
          | none =>
            simp only [RebindAction, hr, h1, h2, h3, h4, if_false, logLine]
            exact hf
          | some keyId =>
            cases h5 : w'.m_pInputComponent with
            | none =>
              rw [← hf, h5]
              simp [RebindAction, hr, h1, h2, h3, h4, h5, logLine]
            | some ic =>
              simp [RebindAction, hr, h1, h2, h3, h4, h5, logLine] at h

/-- The outcome of a call in which every dependency resolves. -/
theorem RebindAction_success (E : EngineHeaders) (actionName newKey : String) (w : World R)
    (ic : CInputComponent R) (k : EKeyId) (hp : playerAvailable w)
    (hi : w.m_pInputComponent = some ic) (ha : actionName ≠ "") (hn : newKey ≠ "")
    (hk : w.GetSymbolByName newKey = some k) :
    (RebindAction E actionName newKey w).1 = true ∧
    (RebindAction E actionName newKey w).2.m_pInputComponent
      = some ((ic.RegisterAction "player" actionName (combinedCallback E actionName)).BindAction
          "player" actionName E.eAID_KeyboardMouse k true true true) := by
  obtain ⟨w', hr, hw'⟩ := retrievePlayer_available w hp
  obtain ⟨hs, hic, _⟩ := retrievePlayer_frame w w' (Or.inl hr)
  unfold RebindAction
  rw [hr]
  simp only [hw', ha, hn, hs, hk, logLine, hic, hi]
  simp

end

end CFlowNode_ChangeInputBinding

namespace CFlowNode_ChangeInputBinding

variable {R : Type} [Field R]

/-- A call with an empty action name, an empty key name or an unknown key name
returns false. -/
theorem RebindAction_reject (E : EngineHeaders) (actionName newKey : String) (w : World R)
    (h : actionName = "" ∨ newKey = "" ∨ w.GetSymbolByName newKey = none) :
    (RebindAction E actionName newKey w).1 = false := by
  cases hr : retrievePlayer w with
  | error w' => simp only [RebindAction, hr]
  | ok w' =>
    have hs := (retrievePlayer_frame w w' (Or.inl hr)).1
    by_cases h1 : (!w'.m_pPlayerComponent) = true
    · simp only [RebindAction, hr, h1, if_true]
    · by_cases h2 : actionName = ""
      · simp [RebindAction, hr, h1, h2]
      · by_cases h3 : newKey = ""
        · simp [RebindAction, hr, h1, h2, h3]
        · rcases h with h | h | h
          · exact absurd h h2
          · exact absurd h h3
          · rw [← hs] at h
            simp [RebindAction, hr, h1, h2, h3, h]

/-- The callbacks and the bindings after a successful call. -/
theorem RebindAction_registered (E : EngineHeaders) (actionName newKey : String) (w : World R)
    (ic : CInputComponent R) (k : EKeyId) (hp : playerAvailable w)
    (hi : w.m_pInputComponent = some ic) (ha : actionName ≠ "") (hn : newKey ≠ "")
    (hk : w.GetSymbolByName newKey = some k) :
    (RebindAction E actionName newKey w).1 = true ∧
    ∃ ic', (RebindAction E actionName newKey w).2.m_pInputComponent = some ic' ∧
      ic'.callbacks = Assoc.assign ("player", actionName) (combinedCallback E actionName)
        ic.callbacks ∧
      ic'.bindings = Assoc.assign ("player", actionName)
        ⟨E.eAID_KeyboardMouse, k, true, true, true⟩ ic.bindings := by
  obtain ⟨h1, h2⟩ := RebindAction_success E actionName newKey w ic k hp hi ha hn hk
  exact ⟨h1, _, h2, rfl, rfl⟩

/-- The rebound callback of an action other than "moveback" and "jump" leaves the
data members of the player as the callback of `InitializeInput` does. -/
theorem rebound_player_agrees (E : EngineHeaders) (activationMode : Int) (value : R)
    (g : Game R) :
    (combinedCallback E "moveforward" activationMode value g).player
      = (CPlayerComponent.moveforwardCallback E activationMode value g).player ∧
    (combinedCallback E "moveleft" activationMode value g).player
      = (CPlayerComponent.moveleftCallback E activationMode value g).player ∧
    (combinedCallback E "moveright" activationMode value g).player
      = (CPlayerComponent.moverightCallback E activationMode value g).player ∧
    (combinedCallback E "yaw" activationMode value g).player
      = (CPlayerComponent.yawCallback activationMode value g).player ∧
    (combinedCallback E "pitch" activationMode value g).player
      = (CPlayerComponent.pitchCallback activationMode value g).player ∧
    (combinedCallback E "sprint" activationMode value g).player
      = (CPlayerComponent.sprintCallback E activationMode value g).player ∧
    (combinedCallback E "crouch" activationMode value g).player
      = (CPlayerComponent.crouchCallback E activationMode value g).player := by
  refine ⟨?_, ?_, ?_, ?_, ?_, ?_, ?_⟩ <;>
    simp only [combinedCallback, defaultCallback, CPlayerComponent.moveforwardCallback,
      CPlayerComponent.moveleftCallback, CPlayerComponent.moverightCallback,
      CPlayerComponent.yawCallback, CPlayerComponent.pitchCallback,
      CPlayerComponent.sprintCallback, CPlayerComponent.crouchCallback,
      Game.CryLogAlways, Game.QueueFragment] <;>
    simp <;>
    split_ifs <;> rfl

end CFlowNode_ChangeInputBinding

/-- C5: with an empty action name, an empty key name, or a key name that does not resolve
to an input symbol, RebindAction returns false and the registered callbacks and key
bindings of the input component are what they were before the call. -/
theorem C5_invalid_rebind_rejected {R : Type} [Field R] (E : EngineHeaders)
    (actionName newKey : String) (w : World R)
    (h : actionName = "" ∨ newKey = "" ∨ w.GetSymbolByName newKey = none) :
    (CFlowNode_ChangeInputBinding.RebindAction E actionName newKey w).1 = false ∧
    (CFlowNode_ChangeInputBinding.RebindAction E actionName newKey w).2.m_pInputComponent
      = w.m_pInputComponent :=
  ⟨CFlowNode_ChangeInputBinding.RebindAction_reject E actionName newKey w h,
    CFlowNode_ChangeInputBinding.RebindAction_false_frame E actionName newKey w
      (CFlowNode_ChangeInputBinding.RebindAction_reject E actionName newKey w h)⟩

theorem C5_invalid_rebind_rejected_witness :
    ("jump" = "" ∨ "Tab" = "" ∨ sampleWorld.GetSymbolByName "Tab" = none) ∧
    (CFlowNode_ChangeInputBinding.RebindAction sampleHeaders "jump" "Tab" sampleWorld).1 = false ∧
    (CFlowNode_ChangeInputBinding.RebindAction sampleHeaders "jump" "Tab"
      sampleWorld).2.m_pInputComponent = sampleWorld.m_pInputComponent :=
  ⟨Or.inr (Or.inr (by decide)),
    C5_invalid_rebind_rejected sampleHeaders "jump" "Tab" sampleWorld
      (Or.inr (Or.inr (by decide)))⟩

namespace CFlowNode_ChangeInputBinding

/-- The sample world satisfies the premises of a successful call with key "Q". -/
theorem sampleWorld_ready :
    playerAvailable sampleWorld ∧
    sampleWorld.m_pInputComponent
      = some (CPlayerComponent.InitializeInput sampleHeaders ⟨[], []⟩) ∧
    sampleWorld.GetSymbolByName "Q" = some 15 :=
  ⟨Or.inl rfl, rfl, by decide⟩

end CFlowNode_ChangeInputBinding

/-- C6: evaluation at the failing input. On the sample world RebindAction("jump", "Q")
returns true; a press delivered to the callback it registers for jump leaves the discrete
state Walking and requests no fragment, where the jump callback that InitializeInput
registered makes the state Jump and requests the jump fragment. -/
theorem C6_rebound_jump_differs :
    (CFlowNode_ChangeInputBinding.RebindAction sampleHeaders "jump" "Q" sampleWorld).1 = true ∧
    Assoc.find ("player", "jump")
      (CPlayerComponent.InitializeInput sampleHeaders (⟨[], []⟩ : CInputComponent ℚ)).callbacks
      = some (CPlayerComponent.jumpCallback sampleHeaders) ∧
    (CPlayerComponent.jumpCallback sampleHeaders sampleHeaders.eAAM_OnPress 1
      (sampleGame 0)).player.m_currentPlayerState = EPlayerState.Jump ∧
    (CPlayerComponent.jumpCallback sampleHeaders sampleHeaders.eAAM_OnPress 1
      (sampleGame 0)).fragmentQueue = ["Jump"] ∧
    ∃ ic cb,
      (CFlowNode_ChangeInputBinding.RebindAction sampleHeaders "jump" "Q"
        sampleWorld).2.m_pInputComponent = some ic ∧
      Assoc.find ("player", "jump") ic.callbacks = some cb ∧
      (cb sampleHeaders.eAAM_OnPress 1 (sampleGame 0)).player.m_currentPlayerState
        = EPlayerState.Walking ∧
      (cb sampleHeaders.eAAM_OnPress 1 (sampleGame 0)).fragmentQueue = [] := by
  obtain ⟨hp, hi, hk⟩ := CFlowNode_ChangeInputBinding.sampleWorld_ready
  obtain ⟨h1, ic, h2, h3, _⟩ := CFlowNode_ChangeInputBinding.RebindAction_registered
    sampleHeaders "jump" "Q" sampleWorld _ 15 hp hi (by decide) (by decide) hk
  refine ⟨h1, ?_, rfl, rfl, ic,
    CFlowNode_ChangeInputBinding.combinedCallback sampleHeaders "jump", h2, ?_, rfl, rfl⟩
  · simp [CPlayerComponent.InitializeInput, CInputComponent.RegisterAction,
      CInputComponent.BindActionDefault, CInputComponent.BindAction, Assoc.assign, Assoc.find]
  · rw [h3]
    exact Assoc.find_assign_self _ _ _

/-- When the player component and its input component are available and "Q" resolves to a
key id, RebindAction("jump", "Q") returns true, and for every activation mode and value
the callback it registers for jump makes the same request to the character controller as
the jump callback of InitializeInput (the vertical velocity of jump height is added when
on ground, nothing otherwise); it leaves the fragment queue as it was. -/
theorem rebound_jump_request {R : Type} [Field R] (E : EngineHeaders) (w : World R)
    (ic : CInputComponent R) (k : EKeyId)
    (hp : CFlowNode_ChangeInputBinding.playerAvailable w)
    (hi : w.m_pInputComponent = some ic) (hk : w.GetSymbolByName "Q" = some k) :
    (CFlowNode_ChangeInputBinding.RebindAction E "jump" "Q" w).1 = true ∧
    ∃ ic' cb,
      (CFlowNode_ChangeInputBinding.RebindAction E "jump" "Q" w).2.m_pInputComponent = some ic' ∧
      Assoc.find ("player", "jump") ic'.callbacks = some cb ∧
      ∀ (activationMode : Int) (value : R) (g : Game R),
        (cb activationMode value g).controllerCommands
          = (CPlayerComponent.jumpCallback E activationMode value g).controllerCommands ∧
        (cb activationMode value g).controllerCommands
          = (if g.isOnGround = true then
              g.controllerCommands ++ [ControllerCommand.AddVelocity ⟨0, 0, g.player.m_JumpHeight⟩]
            else g.controllerCommands) ∧
        (cb activationMode value g).fragmentQueue = g.fragmentQueue := by
  obtain ⟨h1, ic', h2, h3, _⟩ := CFlowNode_ChangeInputBinding.RebindAction_registered
    E "jump" "Q" w ic k hp hi (by decide) (by decide) hk
  refine ⟨h1, ic', CFlowNode_ChangeInputBinding.combinedCallback E "jump", h2, ?_, ?_⟩
  · rw [h3]
    exact Assoc.find_assign_self _ _ _
  · intro activationMode value g
    simp only [CFlowNode_ChangeInputBinding.combinedCallback,
      CFlowNode_ChangeInputBinding.defaultCallback, CPlayerComponent.jumpCallback,
      Game.CryLogAlways, Game.QueueFragment, Game.AddVelocity]
    simp
    refine ⟨?_, ?_, ?_⟩ <;> split_ifs <;> rfl

/-- C7: evaluation at the failing inputs. After RebindAction on the sample world, a press
delivered to the callback registered for moveback leaves m_Back at 0 where the moveback
callback of InitializeInput sets it to 1, and a press delivered to the callback registered
for jump leaves the discrete state Walking where the jump callback of InitializeInput
sets it to Jump. -/
theorem C7_rebound_moveback_jump_diverge :
    Assoc.find ("player", "moveback")
      (CPlayerComponent.InitializeInput sampleHeaders (⟨[], []⟩ : CInputComponent ℚ)).callbacks
      = some (CPlayerComponent.movebackCallback sampleHeaders) ∧
    (sampleGame 0).player.m_Back = 0 ∧
    (CPlayerComponent.movebackCallback sampleHeaders sampleHeaders.eAAM_OnPress 1
      (sampleGame 0)).player.m_Back = 1 ∧
    (∃ ic cb,
      (CFlowNode_ChangeInputBinding.RebindAction sampleHeaders "moveback" "Q"
        sampleWorld).2.m_pInputComponent = some ic ∧
      Assoc.find ("player", "moveback") ic.callbacks = some cb ∧
      (cb sampleHeaders.eAAM_OnPress 1 (sampleGame 0)).player.m_Back = 0) ∧
    (CPlayerComponent.jumpCallback sampleHeaders sampleHeaders.eAAM_OnPress 1
      (sampleGame 0)).player.m_currentPlayerState = EPlayerState.Jump ∧
    (∃ ic cb,
      (CFlowNode_ChangeInputBinding.RebindAction sampleHeaders "jump" "Q"
        sampleWorld).2.m_pInputComponent = some ic ∧
      Assoc.find ("player", "jump") ic.callbacks = some cb ∧
      (cb sampleHeaders.eAAM_OnPress 1 (sampleGame 0)).player.m_currentPlayerState
        = EPlayerState.Walking) := by
  obtain ⟨hp, hi, hk⟩ := CFlowNode_ChangeInputBinding.sampleWorld_ready
  obtain ⟨_, ic, h2, h3, _⟩ := CFlowNode_ChangeInputBinding.RebindAction_registered
    sampleHeaders "moveback" "Q" sampleWorld _ 15 hp hi (by decide) (by decide) hk
  obtain ⟨_, jc, j2, j3, _⟩ := CFlowNode_ChangeInputBinding.RebindAction_registered
    sampleHeaders "jump" "Q" sampleWorld _ 15 hp hi (by decide) (by decide) hk
  refine ⟨?_, rfl, rfl,
    ⟨ic, CFlowNode_ChangeInputBinding.combinedCallback sampleHeaders "moveback", h2, ?_, rfl⟩,
    rfl,
    ⟨jc, CFlowNode_ChangeInputBinding.combinedCallback sampleHeaders "jump", j2, ?_, rfl⟩⟩
  · simp [CPlayerComponent.InitializeInput, CInputComponent.RegisterAction,
      CInputComponent.BindActionDefault, CInputComponent.BindAction, Assoc.assign, Assoc.find]
  · rw [h3]
    exact Assoc.find_assign_self _ _ _
  · rw [j3]
    exact Assoc.find_assign_self _ _ _

/-- C8 (counterexample): with the player, its input component and the key name "Q" all
resolving, RebindAction("fly", "Q"), whose action name is none of the nine logical
actions, returns true, registers a callback under ("player", "fly") and binds it. -/
theorem C8_unknown_action_accepted :
    "fly" ∉ CFlowNode_ChangeInputBinding.logicalActions ∧
    (CFlowNode_ChangeInputBinding.RebindAction sampleHeaders "fly" "Q" sampleWorld).1 = true ∧
    ∃ ic,
      (CFlowNode_ChangeInputBinding.RebindAction sampleHeaders "fly" "Q"
        sampleWorld).2.m_pInputComponent = some ic ∧
      (Assoc.find ("player", "fly") ic.callbacks).isSome = true ∧
      Assoc.find ("player", "fly") ic.bindings
        = some ⟨sampleHeaders.eAID_KeyboardMouse, 15, true, true, true⟩ := by
  obtain ⟨hp, hi, hk⟩ := CFlowNode_ChangeInputBinding.sampleWorld_ready
  obtain ⟨h1, ic, h2, h3, h4⟩ := CFlowNode_ChangeInputBinding.RebindAction_registered
    sampleHeaders "fly" "Q" sampleWorld _ 15 hp hi (by decide) (by decide) hk
  refine ⟨by decide, h1, ic, h2, ?_, ?_⟩
  · rw [h3, Assoc.find_assign_self]
    rfl
  · rw [h4, Assoc.find_assign_self]

/-- C8 (amended): RebindAction does not look the action name up among the registered
actions. With the player, its input component and a non-empty key name resolving, it
returns false and leaves callbacks and bindings as they were when the action name is
empty; for every non-empty action name that is none of the nine logical actions it
returns true, binds ("player", name) to the key and registers under it a callback that
does nothing but write one log line. -/
theorem C8_only_empty_name_rejected {R : Type} [Field R] (E : EngineHeaders)
    (actionName newKey : String) (w : World R) (ic : CInputComponent R) (k : EKeyId)
    (hp : CFlowNode_ChangeInputBinding.playerAvailable w)
    (hi : w.m_pInputComponent = some ic) (hn : newKey ≠ "")
    (hk : w.GetSymbolByName newKey = some k) :
    (actionName = "" →
      (CFlowNode_ChangeInputBinding.RebindAction E actionName newKey w).1 = false ∧
      (CFlowNode_ChangeInputBinding.RebindAction E actionName newKey w).2.m_pInputComponent
        = w.m_pInputComponent) ∧
    (actionName ≠ "" → actionName ∉ CFlowNode_ChangeInputBinding.logicalActions →
      (CFlowNode_ChangeInputBinding.RebindAction E actionName newKey w).1 = true ∧
      ∃ ic' cb,
        (CFlowNode_ChangeInputBinding.RebindAction E actionName newKey w).2.m_pInputComponent
          = some ic' ∧
        Assoc.find ("player", actionName) ic'.callbacks = some cb ∧
        Assoc.find ("player", actionName) ic'.bindings
          = some ⟨E.eAID_KeyboardMouse, k, true, true, true⟩ ∧
        ∀ (activationMode : Int) (value : R) (g : Game R),
          cb activationMode value g
            = g.CryLogAlways ("[RebindAction] Flowgraph node triggered for action \x27"
                ++ actionName ++ "\x27.")) := by
  constructor
  · intro ha
    have hf := CFlowNode_ChangeInputBinding.RebindAction_reject E actionName newKey w (Or.inl ha)
    exact ⟨hf, CFlowNode_ChangeInputBinding.RebindAction_false_frame E actionName newKey w hf⟩
  · intro ha hnot
    obtain ⟨h1, ic', h2, h3, h4⟩ := CFlowNode_ChangeInputBinding.RebindAction_registered
      E actionName newKey w ic k hp hi ha hn hk
    refine ⟨h1, ic', CFlowNode_ChangeInputBinding.combinedCallback E actionName, h2, ?_, ?_, ?_⟩
    · rw [h3, Assoc.find_assign_self]
    · rw [h4, Assoc.find_assign_self]
    · intro activationMode value g
      simp only [CFlowNode_ChangeInputBinding.logicalActions, List.mem_cons, List.mem_singleton,
        List.not_mem_nil, or_false, not_or] at hnot
      obtain ⟨n1, n2, n3, n4, n5, n6, n7, n8, n9⟩ := hnot
      simp only [CFlowNode_ChangeInputBinding.combinedCallback,
        CFlowNode_ChangeInputBinding.defaultCallback, n1, n2, n3, n4, n5, n6, n7, n8, n9,
        if_false]

theorem C8_only_empty_name_rejected_witness :
    CFlowNode_ChangeInputBinding.playerAvailable sampleWorld ∧
    sampleWorld.m_pInputComponent
      = some (CPlayerComponent.InitializeInput sampleHeaders ⟨[], []⟩) ∧
    "Q" ≠ "" ∧
    sampleWorld.GetSymbolByName "Q" = some 15 ∧
    "fly" ≠ "" ∧
    "fly" ∉ CFlowNode_ChangeInputBinding.logicalActions ∧
    (CFlowNode_ChangeInputBinding.RebindAction sampleHeaders "fly" "Q" sampleWorld).1 = true :=
  ⟨Or.inl rfl, rfl, by decide, by decide, by decide, by decide,
    ((C8_only_empty_name_rejected sampleHeaders "fly" "Q" sampleWorld _ 15 (Or.inl rfl) rfl
      (by decide) (by decide)).2 (by decide) (by decide)).1⟩

/-- C9: if the player component and its input component are available, the action name and
the key name are non-empty and the key name resolves to an input symbol with key id k,
then RebindAction returns true and afterwards the action ("player", actionName) is bound
on the keyboard/mouse device to k with press, release and hold dispatch enabled. -/
theorem C9_rebind_binds_key {R : Type} [Field R] (E : EngineHeaders)
    (actionName newKey : String) (w : World R) (ic : CInputComponent R) (k : EKeyId)
    (hp : CFlowNode_ChangeInputBinding.playerAvailable w)
    (hi : w.m_pInputComponent = some ic) (ha : actionName ≠ "") (hn : newKey ≠ "")
    (hk : w.GetSymbolByName newKey = some k) :
    (CFlowNode_ChangeInputBinding.RebindAction E actionName newKey w).1 = true ∧
    ∃ ic',
      (CFlowNode_ChangeInputBinding.RebindAction E actionName newKey w).2.m_pInputComponent
        = some ic' ∧
      Assoc.find ("player", actionName) ic'.bindings
        = some { device := E.eAID_KeyboardMouse, keyId := k, bOnPress := true,
                 bOnRelease := true, bOnHold := true } := by
  obtain ⟨h1, ic', h2, _, h4⟩ := CFlowNode_ChangeInputBinding.RebindAction_registered
    E actionName newKey w ic k hp hi ha hn hk
  exact ⟨h1, ic', h2, by rw [h4, Assoc.find_assign_self]⟩

theorem C9_rebind_binds_key_witness :
    CFlowNode_ChangeInputBinding.playerAvailable sampleWorld ∧
    sampleWorld.m_pInputComponent
      = some (CPlayerComponent.InitializeInput sampleHeaders ⟨[], []⟩) ∧
    "sprint" ≠ "" ∧ "Q" ≠ "" ∧
    sampleWorld.GetSymbolByName "Q" = some 15 ∧
    ((CFlowNode_ChangeInputBinding.RebindAction sampleHeaders "sprint" "Q" sampleWorld).1 = true ∧
    ∃ ic',
      (CFlowNode_ChangeInputBinding.RebindAction sampleHeaders "sprint" "Q"
        sampleWorld).2.m_pInputComponent = some ic' ∧
      Assoc.find ("player", "sprint") ic'.bindings
        = some { device := sampleHeaders.eAID_KeyboardMouse, keyId := 15, bOnPress := true,
                 bOnRelease := true, bOnHold := true }) :=
  ⟨Or.inl rfl, rfl, by decide, by decide, by decide,
    C9_rebind_binds_key sampleHeaders "sprint" "Q" sampleWorld _ 15 (Or.inl rfl) rfl
      (by decide) (by decide) (by decide)⟩

/-- C10: evaluation at the failing input. After InitializeInput, RebindAction("yaw", "Q")
returns true and registers its callback under ("player", "yaw"); the callback that
InitializeInput registered for yaw, under ("Player", "yaw"), is still registered. -/
theorem C10_original_yaw_still_registered :
    Assoc.find ("Player", "yaw")
      (CPlayerComponent.InitializeInput sampleHeaders (⟨[], []⟩ : CInputComponent ℚ)).callbacks
      = some CPlayerComponent.yawCallback ∧
    (CFlowNode_ChangeInputBinding.RebindAction sampleHeaders "yaw" "Q" sampleWorld).1 = true ∧
    ∃ ic,
      (CFlowNode_ChangeInputBinding.RebindAction sampleHeaders "yaw" "Q"
        sampleWorld).2.m_pInputComponent = some ic ∧
      Assoc.find ("Player", "yaw") ic.callbacks = some CPlayerComponent.yawCallback ∧
      Assoc.find ("player", "yaw") ic.callbacks
        = some (CFlowNode_ChangeInputBinding.combinedCallback sampleHeaders "yaw") := by
  obtain ⟨hp, hi, hk⟩ := CFlowNode_ChangeInputBinding.sampleWorld_ready
  obtain ⟨h1, ic, h2, h3, _⟩ := CFlowNode_ChangeInputBinding.RebindAction_registered
    sampleHeaders "yaw" "Q" sampleWorld _ 15 hp hi (by decide) (by decide) hk
  have hinit : Assoc.find ("Player", "yaw")
      (CPlayerComponent.InitializeInput sampleHeaders (⟨[], []⟩ : CInputComponent ℚ)).callbacks
      = some CPlayerComponent.yawCallback := by
    simp [CPlayerComponent.InitializeInput, CInputComponent.RegisterAction,
      CInputComponent.BindActionDefault, CInputComponent.BindAction, Assoc.assign, Assoc.find]
  refine ⟨hinit, h1, ic, h2, ?_, ?_⟩
  · rw [h3, Assoc.find_assign_ne _ _ (by decide), hinit]
  · rw [h3, Assoc.find_assign_self]

/-! ## Footstep sounds and surface types -/

namespace CPlayerComponent

/-- A name that carries the prefix loses it. -/
theorem surfaceKey_mat (s : String) : surfaceKey ("mat_" ++ s) = s := by
  have hd : ("mat_" ++ s).data = matChars ++ s.data := by
    rw [String.data_append]; rfl
  unfold surfaceKey
  rw [hd]
  simp [matChars]

/-- A name that does not carry the prefix is its own key. -/
theorem surfaceKey_plain (s : String) (hs : s.data.take 4 ≠ matChars) : surfaceKey s = s := by
  unfold surfaceKey
  rw [if_neg hs]

end CPlayerComponent

/-- C11 (counterexample): for s = "mat_a" the names s and "mat_" + s get the keys "a"
and "mat_a". A table loaded from the one name has no entry for the key looked up for the
other, in either direction, so the footstep executes no trigger. -/
theorem C11_nested_mat_keys_differ :
    CPlayerComponent.surfaceKey "mat_a" = "a" ∧
    CPlayerComponent.surfaceKey ("mat_" ++ "mat_a") = "mat_a" ∧
    (CPlayerComponent.OnFootstepEvent (sampleEnv "mat_mat_a" "mat_a") "step"
      (CPlayerComponent.LoadSurfaceTypes (sampleEnv "mat_mat_a" "mat_a") (sampleGame 0))).2 = [] ∧
    (CPlayerComponent.OnFootstepEvent (sampleEnv "mat_a" "mat_mat_a") "step"
      (CPlayerComponent.LoadSurfaceTypes (sampleEnv "mat_a" "mat_mat_a") (sampleGame 0))).2 = [] := by
  refine ⟨by decide, by decide, by decide, by decide⟩

/-- C11 (amended): for every string s that does not itself begin with "mat_", the names s
and "mat_" + s get the same key, namely s; the entry that LoadSurfaceTypes stores for the
one is the entry found under the key OnFootstepEvent looks up for the other. -/
theorem C11_same_key_single_mat (s : String) (hs : s.data.take 4 ≠ CPlayerComponent.matChars) :
    CPlayerComponent.surfaceKey s = CPlayerComponent.surfaceKey ("mat_" ++ s) ∧
    (∀ table : List (String × String),
      Assoc.find (CPlayerComponent.surfaceKey ("mat_" ++ s))
        (CPlayerComponent.loadSurfaceNode table ⟨true, some s⟩) = some ("pl_footsteps/" ++ s)) ∧
    (∀ table : List (String × String),
      Assoc.find (CPlayerComponent.surfaceKey s)
        (CPlayerComponent.loadSurfaceNode table ⟨true, some ("mat_" ++ s)⟩)
        = some ("pl_footsteps/" ++ s)) := by
  rw [CPlayerComponent.surfaceKey_mat, CPlayerComponent.surfaceKey_plain s hs]
  refine ⟨rfl, ?_, ?_⟩
  · intro table
    simp only [CPlayerComponent.loadSurfaceNode, if_true, CPlayerComponent.surfaceKey_plain s hs]
    exact Assoc.find_assign_self _ _ _
  · intro table
    simp only [CPlayerComponent.loadSurfaceNode, if_true, CPlayerComponent.surfaceKey_mat]
    exact Assoc.find_assign_self _ _ _

theorem C11_same_key_single_mat_witness :
    "grass".data.take 4 ≠ CPlayerComponent.matChars ∧
    CPlayerComponent.surfaceKey "grass" = CPlayerComponent.surfaceKey ("mat_" ++ "grass") ∧
    (∀ table : List (String × String),
      Assoc.find (CPlayerComponent.surfaceKey ("mat_" ++ "grass"))
        (CPlayerComponent.loadSurfaceNode table ⟨true, some "grass"⟩)
        = some ("pl_footsteps/" ++ "grass")) ∧
    (∀ table : List (String × String),
      Assoc.find (CPlayerComponent.surfaceKey "grass")
        (CPlayerComponent.loadSurfaceNode table ⟨true, some ("mat_" ++ "grass")⟩)
        = some ("pl_footsteps/" ++ "grass")) :=
  ⟨by decide, C11_same_key_single_mat "grass" (by decide)⟩

/-! ## Movement -/

namespace CPlayerComponent

variable {R : Type}

/-- A movement delta other than (0, 0) has a positive squared length. -/
theorem planarDelta_magSq_pos [LinearOrderedField R] (p : CPlayerComponent R)
    (hne : p.m_movementDelta ≠ ⟨0, 0⟩) : 0 < (planarDelta p).magSq := by
  have hxy : p.m_movementDelta.x ≠ 0 ∨ p.m_movementDelta.y ≠ 0 := by
    by_contra hcon
    push_neg at hcon
    apply hne
    cases hd : p.m_movementDelta with
    | mk x y =>
      rw [hd] at hcon
      simp only at hcon
      rw [hcon.1, hcon.2]
  simp only [planarDelta, Vec3.magSq, mul_zero, add_zero]
  rcases hxy with hx | hy
  · have := mul_self_pos.mpr hx
    have := mul_self_nonneg p.m_movementDelta.y
    linarith
  · have := mul_self_pos.mpr hy
    have := mul_self_nonneg p.m_movementDelta.x
    linarith

/-- The squared length of a scaled vector. -/
theorem magSq_scale [Field R] (v : Vec3 R) (c : R) : (v.scale c).magSq = c * c * v.magSq := by
  simp only [Vec3.scale, Vec3.magSq]
  ring

end CPlayerComponent

/-- C12: for every movement delta other than (0, 0), the vector UpdateMovement forms before
scaling by the speed is the normalized delta: the planar vector (x, y, 0) times the
reciprocal of its length, of squared length 1, hence of magnitude at most 1. The engine's
reciprocal square root is taken to be exact at the squared length of the delta. -/
theorem C12_direction_normalized {R : Type} [LinearOrderedField R] (M : EngineMath R)
    (s : Scene R) (hne : s.game.player.m_movementDelta ≠ ⟨0, 0⟩)
    (hexact : 0 < (CPlayerComponent.planarDelta s.game.player).magSq →
      0 < M.isqrt (CPlayerComponent.planarDelta s.game.player).magSq ∧
      M.isqrt (CPlayerComponent.planarDelta s.game.player).magSq
        * M.isqrt (CPlayerComponent.planarDelta s.game.player).magSq
        * (CPlayerComponent.planarDelta s.game.player).magSq = 1) :
    CPlayerComponent.movementDirection M s.game.player
      = (CPlayerComponent.planarDelta s.game.player).scale
          (M.isqrt (CPlayerComponent.planarDelta s.game.player).magSq) ∧
    0 < M.isqrt (CPlayerComponent.planarDelta s.game.player).magSq ∧
    (CPlayerComponent.movementDirection M s.game.player).z = 0 ∧
    (CPlayerComponent.movementDirection M s.game.player).magSq = 1 ∧
    (CPlayerComponent.movementDirection M s.game.player).magSq ≤ 1 ∧
    (CPlayerComponent.UpdateMovement M s).game.controllerCommands
      = s.game.controllerCommands ++
          [ControllerCommand.SetVelocity
            ((M.rotate s.worldRotation (CPlayerComponent.movementDirection M s.game.player)).scale
              (CPlayerComponent.playerMoveSpeed s.game.player))] := by
  obtain ⟨hpos, hone⟩ := hexact (CPlayerComponent.planarDelta_magSq_pos s.game.player hne)
  have hmag : (CPlayerComponent.movementDirection M s.game.player).magSq = 1 := by
    unfold CPlayerComponent.movementDirection Vec3.normalize
    rw [CPlayerComponent.magSq_scale]
    exact hone
  refine ⟨rfl, hpos, ?_, hmag, le_of_eq hmag, rfl⟩
  simp [CPlayerComponent.movementDirection, Vec3.normalize, Vec3.scale,
    CPlayerComponent.planarDelta]

theorem C12_direction_normalized_witness :
    (movingScene 3 4 EPlayerState.Walking).game.player.m_movementDelta ≠ ⟨0, 0⟩ ∧
    (CPlayerComponent.movementDirection sampleMath
      (movingScene 3 4 EPlayerState.Walking).game.player) = ⟨3 / 5, 4 / 5, 0⟩ ∧
    (CPlayerComponent.movementDirection sampleMath
      (movingScene 3 4 EPlayerState.Walking).game.player).magSq ≤ 1 :=
  ⟨by decide,
    by norm_num [CPlayerComponent.movementDirection, Vec3.normalize, Vec3.scale, Vec3.magSq,
      CPlayerComponent.planarDelta, movingScene, sampleMath],
    (C12_direction_normalized sampleMath (movingScene 3 4 EPlayerState.Walking) (by decide)
      (fun _ => by
        norm_num [Vec3.magSq, CPlayerComponent.planarDelta, movingScene, sampleMath])).2.2.2.2.1⟩

/-- C13: with movement delta (1, 0), discrete state Sprinting and run speed 5, the velocity
UpdateMovement submits is the world rotation applied to (5, 0, 0), of squared length 25
(magnitude 5), whatever the world rotation and the walk speed. The engine's reciprocal
square root is taken exact at 1 and its rotation linear and length-preserving. -/
theorem C13_sprint_velocity {R : Type} [Field R] (M : EngineMath R) (s : Scene R)
    (hd : s.game.player.m_movementDelta = ⟨1, 0⟩)
    (hs : s.game.player.m_currentPlayerState = EPlayerState.Sprinting)
    (hr : s.game.player.m_RunSpeed = 5)
    (h1 : M.isqrt 1 = 1)
    (hlin : ∀ (v : Vec3 R) (c : R),
      M.rotate s.worldRotation (v.scale c) = (M.rotate s.worldRotation v).scale c)
    (hiso : ∀ v : Vec3 R, (M.rotate s.worldRotation v).magSq = v.magSq) :
    (CPlayerComponent.UpdateMovement M s).game.controllerCommands
      = s.game.controllerCommands ++
          [ControllerCommand.SetVelocity (M.rotate s.worldRotation ⟨5, 0, 0⟩)] ∧
    (M.rotate s.worldRotation ⟨5, 0, 0⟩).magSq = 5 * 5 := by
  have hdir : CPlayerComponent.movementDirection M s.game.player = ⟨1, 0, 0⟩ := by
    simp [CPlayerComponent.movementDirection, Vec3.normalize, Vec3.scale, Vec3.magSq,
      CPlayerComponent.planarDelta, hd, h1]
  have hspeed : CPlayerComponent.playerMoveSpeed s.game.player = 5 := by
    simp [CPlayerComponent.playerMoveSpeed, hs, hr]
  have hscale : ((⟨1, 0, 0⟩ : Vec3 R).scale 5) = ⟨5, 0, 0⟩ := by
    simp [Vec3.scale]
  constructor
  · simp only [CPlayerComponent.UpdateMovement, hdir, hspeed]
    rw [← hlin, hscale]
  · rw [hiso]
    simp [Vec3.magSq]

theorem C13_sprint_velocity_witness :
    (movingScene 1 0 EPlayerState.Sprinting).game.player.m_movementDelta = ⟨1, 0⟩ ∧
    (movingScene 1 0 EPlayerState.Sprinting).game.player.m_currentPlayerState
      = EPlayerState.Sprinting ∧
    (movingScene 1 0 EPlayerState.Sprinting).game.player.m_RunSpeed = 5 ∧
    sampleMath.isqrt 1 = 1 ∧
    (CPlayerComponent.UpdateMovement sampleMath
      (movingScene 1 0 EPlayerState.Sprinting)).game.controllerCommands
      = (movingScene 1 0 EPlayerState.Sprinting).game.controllerCommands ++
          [ControllerCommand.SetVelocity
            (sampleMath.rotate (movingScene 1 0 EPlayerState.Sprinting).worldRotation ⟨5, 0, 0⟩)] ∧
    (sampleMath.rotate (movingScene 1 0 EPlayerState.Sprinting).worldRotation ⟨5, 0, 0⟩).magSq
      = 5 * 5 :=
  ⟨rfl, rfl, rfl, by norm_num [sampleMath],
    C13_sprint_velocity sampleMath (movingScene 1 0 EPlayerState.Sprinting) rfl rfl rfl
      (by norm_num [sampleMath])
      (fun v c => by
        simp only [sampleMath, movingScene, Vec3.scale, Vec3.add, Vec3.cross, Vec3.mk.injEq]
        refine ⟨?_, ?_, ?_⟩ <;> ring)
      (fun v => by
        simp only [sampleMath, movingScene, Vec3.scale, Vec3.add, Vec3.cross, Vec3.magSq]
        ring)⟩

/-- C14: after Reset, whatever the state before, the movement delta and the mouse delta are
zero, the pitch is 0, the yaw is the rotation about Z taken from the entity's world
rotation, the discrete state is Walking, the current and the desired stance are Standing,
the camera offset target is the standing camera offset, and the input component is the
one InitializeInput yields, with the nine callbacks registered again. -/
theorem C14_reset_state {R : Type} [Field R] (E : EngineHeaders) (M : EngineMath R)
    (s : Scene R) :
    (CPlayerComponent.Reset E M s).game.player.m_movementDelta = ⟨0, 0⟩ ∧
    (CPlayerComponent.Reset E M s).game.player.m_MouseDeltaRotation = ⟨0, 0⟩ ∧
    (CPlayerComponent.Reset E M s).game.player.m_CurrentPitch = 0 ∧
    (CPlayerComponent.Reset E M s).game.player.m_CurrentYaw
      = M.CreateRotationZ (M.GetRotZ s.worldRotation) ∧
    (CPlayerComponent.Reset E M s).game.player.m_currentPlayerState = EPlayerState.Walking ∧
    (CPlayerComponent.Reset E M s).game.player.m_currentPlayerStance = EPlayerStance.Standing ∧
    (CPlayerComponent.Reset E M s).game.player.m_desiredPlayerStance = EPlayerStance.Standing ∧
    (CPlayerComponent.Reset E M s).game.player.m_CameraEndOffset
      = s.game.player.m_CameraOffsetStanding ∧
    (CPlayerComponent.Reset E M s).input = CPlayerComponent.InitializeInput E s.input ∧
    Assoc.find ("player", "moveforward") (CPlayerComponent.Reset E M s).input.callbacks
      = some (CPlayerComponent.moveforwardCallback E) ∧
    Assoc.find ("player", "moveback") (CPlayerComponent.Reset E M s).input.callbacks
      = some (CPlayerComponent.movebackCallback E) ∧
    Assoc.find ("player", "moveleft") (CPlayerComponent.Reset E M s).input.callbacks
      = some (CPlayerComponent.moveleftCallback E) ∧
    Assoc.find ("player", "moveright") (CPlayerComponent.Reset E M s).input.callbacks
      = some (CPlayerComponent.moverightCallback E) ∧
    Assoc.find ("Player", "yaw") (CPlayerComponent.Reset E M s).input.callbacks
      = some CPlayerComponent.yawCallback ∧
    Assoc.find ("Player", "pitch") (CPlayerComponent.Reset E M s).input.callbacks
      = some CPlayerComponent.pitchCallback ∧
    Assoc.find ("player", "sprint") (CPlayerComponent.Reset E M s).input.callbacks
      = some (CPlayerComponent.sprintCallback E) ∧
    Assoc.find ("player", "jump") (CPlayerComponent.Reset E M s).input.callbacks
      = some (CPlayerComponent.jumpCallback E) ∧
    Assoc.find ("player", "crouch") (CPlayerComponent.Reset E M s).input.callbacks
      = some (CPlayerComponent.crouchCallback E) := by
  refine ⟨rfl, rfl, rfl, rfl, rfl, rfl, rfl, rfl, rfl, ?_, ?_, ?_, ?_, ?_, ?_, ?_, ?_, ?_⟩ <;>
    simp [CPlayerComponent.Reset, CPlayerComponent.InitializeInput,
      CInputComponent.RegisterAction, CInputComponent.BindActionDefault,
      CInputComponent.BindAction, Assoc.find_assign_self, Assoc.find_assign_ne]

/-- C15: evaluation at the failing input. After InitializeInput on an empty input component
each of the nine action names has one registered callback and eight of them have a bound
key, but no key is bound to jump: the call that follows the registration of jump binds
the Space key to crouch. -/
theorem C15_jump_left_unbound :
    CFlowNode_ChangeInputBinding.logicalActions.map (fun name =>
      CInputComponent.callbacksNamed name
        (CPlayerComponent.InitializeInput sampleHeaders (⟨[], []⟩ : CInputComponent ℚ)))
      = [1, 1, 1, 1, 1, 1, 1, 1, 1] ∧
    CInputComponent.keysBoundTo "jump"
      (CPlayerComponent.InitializeInput sampleHeaders (⟨[], []⟩ : CInputComponent ℚ)) = [] ∧
    Assoc.find ("player", "jump")
      (CPlayerComponent.InitializeInput sampleHeaders (⟨[], []⟩ : CInputComponent ℚ)).bindings
      = none ∧
    CInputComponent.keysBoundTo "crouch"
      (CPlayerComponent.InitializeInput sampleHeaders (⟨[], []⟩ : CInputComponent ℚ))
      = [sampleHeaders.keyId EKeySym.eKI_C] ∧
    (["moveforward", "moveback", "moveleft", "moveright", "yaw", "pitch", "sprint"].map
      fun name => (CInputComponent.keysBoundTo name
        (CPlayerComponent.InitializeInput sampleHeaders (⟨[], []⟩ : CInputComponent ℚ))).length)
      = [1, 1, 1, 1, 1, 1, 1] := by
  refine ⟨by decide, by decide, by decide, by decide, by decide⟩

/-- C16: OnFootstepEvent executes an audio trigger exactly when the downward ray hits, the
surface type of the hit resolves, the prefix-stripped surface name has an entry in the
surface table, the audio system is present and the entry's trigger id is valid; it then
executes that one trigger. In every other case it executes none. In all cases it returns,
and the data members of the player, the surface table among them, are as before. -/
theorem C16_footstep_trigger {R : Type} [Field R] (env : EngineEnv R) (eventName : String)
    (g : Game R) :
    ((CPlayerComponent.OnFootstepEvent env eventName g).2 ≠ [] ↔
      ∃ surface_idx name trigger,
        env.RayWorldIntersection g.worldPos ((⟨0, 0, -1⟩ : Vec3 R).scale 1) = some surface_idx ∧
        env.GetSurfaceType surface_idx = some name ∧
        Assoc.find (CPlayerComponent.surfaceKey name) g.player.m_surfaceTypes = some trigger ∧
        env.audioSystem = true ∧
        env.StringToId trigger ≠ env.InvalidControlId) ∧
    (∀ surface_idx name trigger,
        env.RayWorldIntersection g.worldPos ((⟨0, 0, -1⟩ : Vec3 R).scale 1) = some surface_idx →
        env.GetSurfaceType surface_idx = some name →
        Assoc.find (CPlayerComponent.surfaceKey name) g.player.m_surfaceTypes = some trigger →
        env.audioSystem = true →
        env.StringToId trigger ≠ env.InvalidControlId →
        (CPlayerComponent.OnFootstepEvent env eventName g).2 = [env.StringToId trigger]) ∧
    (CPlayerComponent.OnFootstepEvent env eventName g).1.player = g.player ∧
    (CPlayerComponent.OnFootstepEvent env eventName g).1.fragmentQueue = g.fragmentQueue ∧
    (CPlayerComponent.OnFootstepEvent env eventName g).1.controllerCommands
      = g.controllerCommands ∧
    (CPlayerComponent.OnFootstepEvent env eventName g).1.physicalEntity = g.physicalEntity := by
  cases hray : env.RayWorldIntersection g.worldPos ((⟨0, 0, -1⟩ : Vec3 R).scale 1) with
  | none =>
    have hres : CPlayerComponent.OnFootstepEvent env eventName g
        = (g.CryLogAlways "No surface detected below the player.", []) := by
      simp only [CPlayerComponent.OnFootstepEvent, hray]
    rw [hres]
    refine ⟨?_, ?_, rfl, rfl, rfl, rfl⟩
    · constructor
      · intro h; exact absurd rfl h
      · rintro ⟨i, n, t, hi, _⟩
        cases hi
    · intro i n t hi
      cases hi
  | some surface_idx =>
    cases hsurf : env.GetSurfaceType surface_idx with
    | none =>
      have hres : CPlayerComponent.OnFootstepEvent env eventName g
          = (g.CryLogAlways "Failed to retrieve surface type from raycast hit.", []) := by
        simp only [CPlayerComponent.OnFootstepEvent, hray, hsurf]
      rw [hres]
      refine ⟨?_, ?_, rfl, rfl, rfl, rfl⟩
      · constructor
        · intro h; exact absurd rfl h
        · rintro ⟨i, n, t, hi, hs, _⟩
          cases hi
          rw [hsurf] at hs
          cases hs
      · intro i n t hi hs
        cases hi
        rw [hsurf] at hs
        cases hs
    | some name =>
      cases hfind : Assoc.find (CPlayerComponent.surfaceKey name) g.player.m_surfaceTypes with
      | none =>
        have hres : CPlayerComponent.OnFootstepEvent env eventName g
            = (g.CryLogAlways ("No audio trigger found for surface type: "
                ++ CPlayerComponent.surfaceKey name), []) := by
          simp only [CPlayerComponent.OnFootstepEvent, hray, hsurf, hfind]
        rw [hres]
        refine ⟨?_, ?_, rfl, rfl, rfl, rfl⟩
        · constructor
          · intro h; exact absurd rfl h
          · rintro ⟨i, n, t, hi, hs, hf, _⟩
            cases hi
            rw [hsurf] at hs
            cases hs
            rw [hfind] at hf
            cases hf
        · intro i n t hi hs hf
          cases hi
          rw [hsurf] at hs
          cases hs
          rw [hfind] at hf
          cases hf
      | some trigger =>
        have hsame : ∀ (i : Int) (n t : String), some surface_idx = some i →
            env.GetSurfaceType i = some n →
            Assoc.find (CPlayerComponent.surfaceKey n) g.player.m_surfaceTypes = some t →
            t = trigger := by
          intro i n t hi hs hf
          cases hi
          rw [hsurf] at hs
          cases hs
          rw [hfind] at hf
          cases hf
          rfl
        by_cases haudio : env.audioSystem = true
        · by_cases hid : env.StringToId trigger = env.InvalidControlId
          · have hres : CPlayerComponent.OnFootstepEvent env eventName g
                = (g.CryLogAlways ("Invalid audio trigger: " ++ trigger), []) := by
              simp [CPlayerComponent.OnFootstepEvent, hray, hsurf, hfind, haudio, hid]
            rw [hres]
            refine ⟨?_, ?_, rfl, rfl, rfl, rfl⟩
            · constructor
              · intro h; exact absurd rfl h
              · rintro ⟨i, n, t, hi, hs, hf, _, hv⟩
                rw [hsame i n t hi hs hf] at hv
                exact absurd hid hv
            · intro i n t hi hs hf _ hv
              rw [hsame i n t hi hs hf] at hv
              exact absurd hid hv
          · have hres : CPlayerComponent.OnFootstepEvent env eventName g
                = (g, [env.StringToId trigger]) := by
              simp [CPlayerComponent.OnFootstepEvent, hray, hsurf, hfind, haudio, hid]
            rw [hres]
            refine ⟨?_, ?_, rfl, rfl, rfl, rfl⟩
            · constructor
              · intro _
                exact ⟨surface_idx, name, trigger, rfl, hsurf, hfind, haudio, hid⟩
              · intro _ h
                cases h
            · intro i n t hi hs hf _ _
              rw [hsame i n t hi hs hf]
        · have hres : CPlayerComponent.OnFootstepEvent env eventName g = (g, []) := by
            simp [CPlayerComponent.OnFootstepEvent, hray, hsurf, hfind, haudio]
          rw [hres]
          refine ⟨?_, ?_, rfl, rfl, rfl, rfl⟩
          · constructor
            · intro h; exact absurd rfl h
            · rintro ⟨_, _, _, _, _, _, ha, _⟩
              exact absurd ha haudio
          · intro _ _ _ _ _ _ ha
            exact absurd ha haudio

namespace KeyMapper

/-- The conversion to `int` keeps a value that fits in 32 bits. -/
theorem static_cast_int_of_range (j : Int) (hlo : -2147483648 ≤ j) (hhi : j < 2147483648) :
    static_cast_int j = j := by
  unfold static_cast_int
  omega

/-- The character `'A' + d` for an offset that stays within a byte. -/
theorem charOfInt_letter (d : Int) (hlo : 0 ≤ d) (hhi : d < 191) :
    charOfInt (65 + d) = Char.ofNat (65 + d.toNat) := by
  have hbyte : ((65 + d) % 256).toNat = 65 + d.toNat := by omega
  unfold charOfInt
  rw [hbyte]

end KeyMapper

/-- C17 (counterexample): the id 4294967295 has no entry in the key-name table and lies in
neither the letter nor the digit range; KeyIdToUserFriendlyName returns "eKI_-1", which is
not "eKI_" followed by the decimal value 4294967295 of the id. -/
theorem C17_generic_label_wraps :
    Assoc.find (4294967295 : EKeyId)
      (KeyMapper.InitializeKeyMappings sampleHeaders KeyMapper.initial).s_keyIdToNameMap = none ∧
    ¬(sampleHeaders.keyId EKeySym.eKI_A ≤ 4294967295 ∧
      4294967295 ≤ sampleHeaders.keyId EKeySym.eKI_Z) ∧
    ¬(sampleHeaders.keyId EKeySym.eKI_0 ≤ 4294967295 ∧
      4294967295 ≤ sampleHeaders.keyId EKeySym.eKI_9) ∧
    (KeyMapper.KeyIdToUserFriendlyName sampleHeaders KeyMapper.initial 4294967295).1
      = "eKI_-1" ∧
    "eKI_" ++ toString (4294967295 : Int) = "eKI_4294967295" ∧
    (KeyMapper.KeyIdToUserFriendlyName sampleHeaders KeyMapper.initial 4294967295).1
      ≠ "eKI_" ++ toString (4294967295 : Int) := by
  have hk : Assoc.find (4294967295 : EKeyId)
      (KeyMapper.InitializeKeyMappings sampleHeaders KeyMapper.initial).s_keyIdToNameMap
      = none := by
    set_option maxRecDepth 100000 in decide
  have hres : (KeyMapper.KeyIdToUserFriendlyName sampleHeaders KeyMapper.initial
      4294967295).1 = "eKI_-1" := by
    simp only [KeyMapper.KeyIdToUserFriendlyName, hk]
    decide
  have hlabel : "eKI_" ++ toString (4294967295 : Int) = "eKI_4294967295" := by decide
  refine ⟨hk, by decide, by decide, hres, hlabel, ?_⟩
  rw [hres, hlabel]
  decide

/-- C17 (amended): for every key id without an entry in the key-name table,
KeyIdToUserFriendlyName returns a synthesized label: the single character
'A' + (k - eKI_A) when k lies between eKI_A and eKI_Z; otherwise the decimal text of
k - eKI_0 when k lies between eKI_0 and eKI_9; otherwise "eKI_" followed by the decimal
text of k converted to a 32-bit int, which is k itself when k fits in a 32-bit int. The
function is total, so no error is signalled. -/
theorem C17_fallback_label (E : EngineHeaders) (m : KeyMapper) (hm : KeyMapper.Reachable E m)
    (k : EKeyId)
    (hk : Assoc.find k (KeyMapper.InitializeKeyMappings E KeyMapper.initial).s_keyIdToNameMap
      = none) :
    (E.keyId EKeySym.eKI_A ≤ k ∧ k ≤ E.keyId EKeySym.eKI_Z →
      (KeyMapper.KeyIdToUserFriendlyName E m k).1
        = String.singleton (KeyMapper.charOfInt (65 + (k - E.keyId EKeySym.eKI_A)))) ∧
    (¬(E.keyId EKeySym.eKI_A ≤ k ∧ k ≤ E.keyId EKeySym.eKI_Z) →
      E.keyId EKeySym.eKI_0 ≤ k ∧ k ≤ E.keyId EKeySym.eKI_9 →
      (KeyMapper.KeyIdToUserFriendlyName E m k).1 = toString (k - E.keyId EKeySym.eKI_0)) ∧
    (¬(E.keyId EKeySym.eKI_A ≤ k ∧ k ≤ E.keyId EKeySym.eKI_Z) →
      ¬(E.keyId EKeySym.eKI_0 ≤ k ∧ k ≤ E.keyId EKeySym.eKI_9) →
      (KeyMapper.KeyIdToUserFriendlyName E m k).1
        = "eKI_" ++ toString (KeyMapper.static_cast_int k)) ∧
    (-2147483648 ≤ k → k < 2147483648 → KeyMapper.static_cast_int k = k) ∧
    (0 ≤ k - E.keyId EKeySym.eKI_A → k - E.keyId EKeySym.eKI_A < 191 →
      KeyMapper.charOfInt (65 + (k - E.keyId EKeySym.eKI_A))
        = Char.ofNat (65 + (k - E.keyId EKeySym.eKI_A).toNat)) := by
  have hcall : KeyMapper.KeyIdToUserFriendlyName E m k
      = KeyMapper.KeyIdToUserFriendlyName E KeyMapper.initial k := by
    simp only [KeyMapper.KeyIdToUserFriendlyName, KeyMapper.InitializeKeyMappings_reachable hm,
      KeyMapper.InitializeKeyMappings_reachable (Or.inl rfl)]
  rw [hcall]
  refine ⟨?_, ?_, ?_, ?_, ?_⟩
  · intro hA
    simp only [KeyMapper.KeyIdToUserFriendlyName, hk, hA, and_self, if_true]
  · intro hA h0
    simp only [KeyMapper.KeyIdToUserFriendlyName, hk, hA, h0, and_self, if_true, if_false]
  · intro hA h0
    simp only [KeyMapper.KeyIdToUserFriendlyName, hk, hA, h0, if_false]
  · intro hlo hhi
    exact KeyMapper.static_cast_int_of_range k hlo hhi
  · intro hlo hhi
    exact KeyMapper.charOfInt_letter _ hlo hhi

set_option maxRecDepth 100000 in
theorem C17_fallback_label_witness :
    KeyMapper.Reachable spacedHeaders KeyMapper.initial ∧
    (Assoc.find (291 : EKeyId)
        (KeyMapper.InitializeKeyMappings spacedHeaders KeyMapper.initial).s_keyIdToNameMap
        = none ∧
      (spacedHeaders.keyId EKeySym.eKI_A ≤ 291 ∧ 291 ≤ spacedHeaders.keyId EKeySym.eKI_Z) ∧
      (KeyMapper.KeyIdToUserFriendlyName spacedHeaders KeyMapper.initial 291).1
        = String.singleton
            (KeyMapper.charOfInt (65 + (291 - spacedHeaders.keyId EKeySym.eKI_A))) ∧
      String.singleton (KeyMapper.charOfInt (65 + (291 - spacedHeaders.keyId EKeySym.eKI_A)))
        = "B") ∧
    (Assoc.find (7 : EKeyId)
        (KeyMapper.InitializeKeyMappings spacedHeaders KeyMapper.initial).s_keyIdToNameMap
        = none ∧
      ¬(spacedHeaders.keyId EKeySym.eKI_A ≤ 7 ∧ 7 ≤ spacedHeaders.keyId EKeySym.eKI_Z) ∧
      (spacedHeaders.keyId EKeySym.eKI_0 ≤ 7 ∧ 7 ≤ spacedHeaders.keyId EKeySym.eKI_9) ∧
      (KeyMapper.KeyIdToUserFriendlyName spacedHeaders KeyMapper.initial 7).1
        = toString (7 - spacedHeaders.keyId EKeySym.eKI_0) ∧
      toString (7 - spacedHeaders.keyId EKeySym.eKI_0) = "2") ∧
    (Assoc.find (1001 : EKeyId)
        (KeyMapper.InitializeKeyMappings spacedHeaders KeyMapper.initial).s_keyIdToNameMap
        = none ∧
      ¬(spacedHeaders.keyId EKeySym.eKI_A ≤ 1001 ∧ 1001 ≤ spacedHeaders.keyId EKeySym.eKI_Z) ∧
      ¬(spacedHeaders.keyId EKeySym.eKI_0 ≤ 1001 ∧ 1001 ≤ spacedHeaders.keyId EKeySym.eKI_9) ∧
      (KeyMapper.KeyIdToUserFriendlyName spacedHeaders KeyMapper.initial 1001).1
        = "eKI_" ++ toString (KeyMapper.static_cast_int 1001) ∧
      KeyMapper.static_cast_int 1001 = 1001 ∧
      "eKI_" ++ toString (KeyMapper.static_cast_int 1001) = "eKI_1001") := by
  have hletter : Assoc.find (291 : EKeyId)
      (KeyMapper.InitializeKeyMappings spacedHeaders KeyMapper.initial).s_keyIdToNameMap
      = none := by decide
  have hdigit : Assoc.find (7 : EKeyId)
      (KeyMapper.InitializeKeyMappings spacedHeaders KeyMapper.initial).s_keyIdToNameMap
      = none := by decide
  have hother : Assoc.find (1001 : EKeyId)
      (KeyMapper.InitializeKeyMappings spacedHeaders KeyMapper.initial).s_keyIdToNameMap
      = none := by decide
  exact ⟨Or.inl rfl,
    ⟨hletter, by decide,
      (C17_fallback_label spacedHeaders KeyMapper.initial (Or.inl rfl) 291 hletter).1
        (by decide),
      by decide⟩,
    ⟨hdigit, by decide, by decide,
      (C17_fallback_label spacedHeaders KeyMapper.initial (Or.inl rfl) 7 hdigit).2.1
        (by decide) (by decide),
      by decide⟩,
    ⟨hother, by decide, by decide,
      (C17_fallback_label spacedHeaders KeyMapper.initial (Or.inl rfl) 1001 hother).2.2.1
        (by decide) (by decide),
      (C17_fallback_label spacedHeaders KeyMapper.initial (Or.inl rfl) 1001 hother).2.2.2.1
        (by decide) (by decide),
      by decide⟩⟩

/-! ## Flow node events -/

/-- C18: on an activate event with the Trigger port active the change-input-binding node
runs RebindAction on the ActionName and NewKey ports and activates one output: OnSuccess
(port 0) if it returned true, OnFailure (port 1) otherwise. On any other event, or with
the Trigger port inactive, it activates no output and leaves the state as it was. -/
theorem C18_rebind_node_outputs {R : Type} [Field R] (E : EngineHeaders) (event : Int)
    (act : SActivationInfo) (w : World R) (outputs : List Nat) :
    (event = E.eFE_Activate ∧ act.portActive 2 = true →
      (CFlowNode_ChangeInputBinding.ProcessEvent E event act w outputs).1
        = (CFlowNode_ChangeInputBinding.RebindAction E (act.portString 0) (act.portString 1) w).2 ∧
      (((CFlowNode_ChangeInputBinding.RebindAction E (act.portString 0) (act.portString 1) w).1
          = true ∧
        (CFlowNode_ChangeInputBinding.ProcessEvent E event act w outputs).2 = outputs ++ [0]) ∨
       ((CFlowNode_ChangeInputBinding.RebindAction E (act.portString 0) (act.portString 1) w).1
          = false ∧
        (CFlowNode_ChangeInputBinding.ProcessEvent E event act w outputs).2 = outputs ++ [1]))) ∧
    (¬(event = E.eFE_Activate ∧ act.portActive 2 = true) →
      CFlowNode_ChangeInputBinding.ProcessEvent E event act w outputs = (w, outputs)) := by
  constructor
  · intro ht
    cases hr : (CFlowNode_ChangeInputBinding.RebindAction E (act.portString 0)
        (act.portString 1) w).1 with
    | true =>
      simp [CFlowNode_ChangeInputBinding.ProcessEvent, ht, hr]
    | false =>
      simp [CFlowNode_ChangeInputBinding.ProcessEvent, ht, hr]
  · intro hn
    simp only [CFlowNode_ChangeInputBinding.ProcessEvent, hn, if_false]

namespace CFlowNode_TriggerCustomAnimation

variable {R : Type}

/-- The three lookups of a triggered event when every dependency resolves. -/
theorem resolve_ok (w : AnimationWorld R) (hdep : dependenciesResolve w) :
    ∃ w1 w2, resolveEntity w = .ok w1 ∧ resolvePlayer w1 = .ok w2 ∧
      w2.hasAnimationComponent = true ∧ w2.outputs = w.outputs ∧
      w2.animationDrivenMotion = w.animationDrivenMotion ∧
      w2.game.fragmentQueue = w.game.fragmentQueue := by
  obtain ⟨entity, hent, hplayer, hanim⟩ := hdep
  unfold resolvedEntity at hent
  have hstep : ∃ w1, resolveEntity w = .ok w1 ∧ w1.pEntity = some entity ∧
      w1.m_pPlayerComponent = w.m_pPlayerComponent ∧
      w1.hasAnimationComponent = w.hasAnimationComponent ∧ w1.outputs = w.outputs ∧
      w1.animationDrivenMotion = w.animationDrivenMotion ∧
      w1.game.fragmentQueue = w.game.fragmentQueue := by
    cases hp : w.pEntity with
    | some e =>
      rw [hp] at hent
      simp only [Option.some.injEq] at hent
      exact ⟨w, by simp [resolveEntity, hp], by rw [hp, hent], rfl, rfl, rfl, rfl, rfl⟩
    | none =>
      rw [hp] at hent
      simp only at hent
      simp [resolveEntity, hp, logLine, hent, Game.CryLogAlways]
  obtain ⟨w1, h1, hpe, hpc, hac, hout, hflag, hq⟩ := hstep
  by_cases hc : w1.m_pPlayerComponent = true
  · exact ⟨w1, w1, h1, by simp [resolvePlayer, hc], by rw [hac, hanim], hout, hflag, hq⟩
  · have hentity : entity = true := by
      rcases hplayer with h | h
      · rw [← hpc] at h
        exact absurd h hc
      · exact h
    simp only [Bool.not_eq_true] at hc
    refine ⟨w1, ?_⟩
    simp [resolvePlayer, hc, logLine, hpe, hentity, h1, Game.CryLogAlways, hac, hanim, hout,
      hflag, hq]

/-- A triggered event with an unresolved dependency ends in OnFailure alone. -/
theorem unresolved_fails (E : EngineHeaders) (event : Int) (act : SActivationInfo)
    (w : AnimationWorld R)
    (ht : event = E.eFE_Activate ∧ act.portActive 2 = true)
    (hdep : ¬dependenciesResolve w) :
    (ProcessEvent E event act w).outputs = w.outputs ++ [1] ∧
    (ProcessEvent E event act w).animationDrivenMotion = w.animationDrivenMotion ∧
    (ProcessEvent E event act w).game.fragmentQueue = w.game.fragmentQueue := by
  simp only [ProcessEvent, ht, and_self, if_true]
  cases hp : w.pEntity with
  | none =>
    cases hf : w.playerEntity with
    | none =>
      simp [resolveEntity, logLine, hp, hf, ActivateOutput, Game.CryLogAlways]
    | some entity =>
      simp only [resolveEntity, logLine, hp, hf]
      by_cases hc : w.m_pPlayerComponent = true
      · have hanim : w.hasAnimationComponent = false := by
          by_contra hcon
          simp only [Bool.not_eq_false] at hcon
          exact hdep ⟨entity, by simp [resolvedEntity, hp, hf], Or.inl hc, hcon⟩
        simp [resolvePlayer, hc, Bool.not_true, Bool.false_eq_true, if_false, hanim,
          Bool.not_false, if_true, logLine, ActivateOutput, Game.CryLogAlways]
      · simp only [Bool.not_eq_true] at hc
        cases he : entity with
        | false =>
          simp [resolvePlayer, hc, Bool.not_false, if_true, logLine, Option.getD_some,
            Bool.false_eq_true, if_false, ActivateOutput, Game.CryLogAlways]
        | true =>
          have hanim : w.hasAnimationComponent = false := by
            by_contra hcon
            simp only [Bool.not_eq_false] at hcon
            exact hdep ⟨entity, by simp [resolvedEntity, hp, hf], Or.inr he, hcon⟩
          simp [resolvePlayer, hc, Bool.not_false, if_true, logLine, Option.getD_some,
            hanim, ActivateOutput, Game.CryLogAlways]
  | some entity =>
    simp only [resolveEntity, logLine, hp]
    by_cases hc : w.m_pPlayerComponent = true
    · have hanim : w.hasAnimationComponent = false := by
        by_contra hcon
        simp only [Bool.not_eq_false] at hcon
        exact hdep ⟨entity, by simp [resolvedEntity, hp], Or.inl hc, hcon⟩
      simp [resolvePlayer, hc, Bool.not_true, Bool.false_eq_true, if_false, hanim,
        Bool.not_false, if_true, logLine, ActivateOutput, Game.CryLogAlways]
    · simp only [Bool.not_eq_true] at hc
      cases he : entity with
      | false =>
        simp [resolvePlayer, hc, Bool.not_false, if_true, logLine, hp, he,
          Option.getD_some, Bool.false_eq_true, if_false, ActivateOutput, Game.CryLogAlways]
      | true =>
        have hanim : w.hasAnimationComponent = false := by
          by_contra hcon
          simp only [Bool.not_eq_false] at hcon
          exact hdep ⟨entity, by simp [resolvedEntity, hp], Or.inr he, hcon⟩
        simp [resolvePlayer, hc, Bool.not_false, if_true, logLine, hp, he,
          Option.getD_some, hanim, ActivateOutput, Game.CryLogAlways]

end CFlowNode_TriggerCustomAnimation

/-- C19: when triggered, the trigger-custom-animation node activates one output. If the
entity, the player component and its animation component resolve and the animation name
is non-empty, it activates OnSuccess (port 0), sets the motion-driven flag to the
MotionDriven input and queues the fragment named by AnimationName; otherwise it activates
OnFailure (port 1) and leaves the motion-driven flag and the fragment queue unchanged. -/
theorem C19_animation_node_outputs {R : Type} (E : EngineHeaders) (event : Int)
    (act : SActivationInfo) (w : AnimationWorld R)
    (ht : event = E.eFE_Activate ∧ act.portActive 2 = true) :
    (CFlowNode_TriggerCustomAnimation.dependenciesResolve w ∧ act.portString 0 ≠ "" →
      (CFlowNode_TriggerCustomAnimation.ProcessEvent E event act w).outputs
        = w.outputs ++ [0] ∧
      (CFlowNode_TriggerCustomAnimation.ProcessEvent E event act w).animationDrivenMotion
        = act.portBool 1 ∧
      (CFlowNode_TriggerCustomAnimation.ProcessEvent E event act w).game.fragmentQueue
        = w.game.fragmentQueue ++ [act.portString 0]) ∧
    (¬(CFlowNode_TriggerCustomAnimation.dependenciesResolve w ∧ act.portString 0 ≠ "") →
      (CFlowNode_TriggerCustomAnimation.ProcessEvent E event act w).outputs
        = w.outputs ++ [1] ∧
      (CFlowNode_TriggerCustomAnimation.ProcessEvent E event act w).animationDrivenMotion
        = w.animationDrivenMotion ∧
      (CFlowNode_TriggerCustomAnimation.ProcessEvent E event act w).game.fragmentQueue
        = w.game.fragmentQueue) := by
  constructor
  · rintro ⟨hdep, hname⟩
    have hdep' : CFlowNode_TriggerCustomAnimation.dependenciesResolve
        (CFlowNode_TriggerCustomAnimation.logLine
          "[CFlowNode_TriggerCustomAnimation] Trigger input activated." w) := hdep
    obtain ⟨w1, w2, h1, h2, hanim, hout, hflag, hq⟩ :=
      CFlowNode_TriggerCustomAnimation.resolve_ok _ hdep'
    simp only [CFlowNode_TriggerCustomAnimation.ProcessEvent, ht, and_self, if_true, h1, h2,
      hanim, hname, Bool.not_true, Bool.false_eq_true, if_false]
    simp [CFlowNode_TriggerCustomAnimation.logLine,
      CFlowNode_TriggerCustomAnimation.ActivateOutput, Game.CryLogAlways, Game.QueueFragment,
      hout, hq]
  · intro hnot
    by_cases hdep : CFlowNode_TriggerCustomAnimation.dependenciesResolve w
    · have hname : act.portString 0 = "" := by
        by_contra hcon
        exact hnot ⟨hdep, hcon⟩
      have hdep' : CFlowNode_TriggerCustomAnimation.dependenciesResolve
          (CFlowNode_TriggerCustomAnimation.logLine
            "[CFlowNode_TriggerCustomAnimation] Trigger input activated." w) := hdep
      obtain ⟨w1, w2, h1, h2, hanim, hout, hflag, hq⟩ :=
        CFlowNode_TriggerCustomAnimation.resolve_ok _ hdep'
      simp only [CFlowNode_TriggerCustomAnimation.ProcessEvent, ht, and_self, if_true, h1, h2,
        hanim, hname, Bool.not_true, Bool.false_eq_true, if_false]
      simp [CFlowNode_TriggerCustomAnimation.logLine,
        CFlowNode_TriggerCustomAnimation.ActivateOutput, Game.CryLogAlways, hout, hq, hflag]
    · exact CFlowNode_TriggerCustomAnimation.unresolved_fails E event act w ht hdep

theorem C19_animation_node_outputs_witness :
    ((4 : Int) = sampleHeaders.eFE_Activate ∧
      (sampleActivation "Wave" "" true).portActive 2 = true) ∧
    (CFlowNode_TriggerCustomAnimation.dependenciesResolve sampleAnimationWorld ∧
      (sampleActivation "Wave" "" true).portString 0 ≠ "") ∧
    (CFlowNode_TriggerCustomAnimation.ProcessEvent sampleHeaders 4
      (sampleActivation "Wave" "" true) sampleAnimationWorld).outputs = [] ++ [0] ∧
    (CFlowNode_TriggerCustomAnimation.ProcessEvent sampleHeaders 4
      (sampleActivation "Wave" "" true) sampleAnimationWorld).animationDrivenMotion = true ∧
    (CFlowNode_TriggerCustomAnimation.ProcessEvent sampleHeaders 4
      (sampleActivation "Wave" "" true) sampleAnimationWorld).game.fragmentQueue
      = [] ++ ["Wave"] :=
  ⟨⟨rfl, rfl⟩, ⟨⟨true, rfl, Or.inr rfl, rfl⟩, by decide⟩,
    (C19_animation_node_outputs sampleHeaders 4 (sampleActivation "Wave" "" true)
      sampleAnimationWorld ⟨rfl, rfl⟩).1 ⟨⟨true, rfl, Or.inr rfl, rfl⟩, by decide⟩⟩

/-! ## Camera -/

/-- C20: evaluation at the failing input. With the default limits, pitch 0 and no mouse
movement, the pitch after UpdateCamera is 0: below the configured minimum pitch 1.5 and
above the configured maximum pitch -1.1. -/
theorem C20_default_pitch_outside_named_limits :
    (CPlayerComponent.UpdateCamera sampleMath 1
      (movingScene 0 0 EPlayerState.Walking)).game.player.m_CurrentPitch = 0 ∧
    (CPlayerComponent.UpdateCamera sampleMath 1
      (movingScene 0 0 EPlayerState.Walking)).game.player.m_RotationLimitsMinPitch = 3 / 2 ∧
    (CPlayerComponent.UpdateCamera sampleMath 1
      (movingScene 0 0 EPlayerState.Walking)).game.player.m_RotationLimitsMaxPitch = -11 / 10 ∧
    (CPlayerComponent.UpdateCamera sampleMath 1
      (movingScene 0 0 EPlayerState.Walking)).game.player.m_CurrentPitch
      < (CPlayerComponent.UpdateCamera sampleMath 1
        (movingScene 0 0 EPlayerState.Walking)).game.player.m_RotationLimitsMinPitch ∧
    (CPlayerComponent.UpdateCamera sampleMath 1
      (movingScene 0 0 EPlayerState.Walking)).game.player.m_RotationLimitsMaxPitch
      < (CPlayerComponent.UpdateCamera sampleMath 1
        (movingScene 0 0 EPlayerState.Walking)).game.player.m_CurrentPitch := by
  have hpitch : (CPlayerComponent.UpdateCamera sampleMath 1
      (movingScene 0 0 EPlayerState.Walking)).game.player.m_CurrentPitch = 0 := by
    norm_num [CPlayerComponent.UpdateCamera, clamp, movingScene, sampleGame, samplePlayer,
      CPlayerComponent.construct]
  have hmin : (CPlayerComponent.UpdateCamera sampleMath 1
      (movingScene 0 0 EPlayerState.Walking)).game.player.m_RotationLimitsMinPitch = 3 / 2 := by
    norm_num [CPlayerComponent.UpdateCamera, movingScene, sampleGame, samplePlayer,
      CPlayerComponent.construct]
  have hmax : (CPlayerComponent.UpdateCamera sampleMath 1
      (movingScene 0 0 EPlayerState.Walking)).game.player.m_RotationLimitsMaxPitch
      = -11 / 10 := by
    norm_num [CPlayerComponent.UpdateCamera, movingScene, sampleGame, samplePlayer,
      CPlayerComponent.construct]
  refine ⟨hpitch, hmin, hmax, ?_, ?_⟩
  · rw [hpitch, hmin]; norm_num
  · rw [hpitch, hmax]; norm_num

/-- The pitch after UpdateCamera when m_RotationLimitsMaxPitch does not exceed
m_RotationLimitsMinPitch, as with the default limits -1.1 and 1.5: the prior pitch plus
mouse delta y times rotation speed, no less than m_RotationLimitsMaxPitch and no greater
than m_RotationLimitsMinPitch. -/
theorem UpdateCamera_pitch_bounds {R : Type} [LinearOrderedField R] (M : EngineMath R)
    (frametime : R) (s : Scene R)
    (hlim : s.game.player.m_RotationLimitsMaxPitch ≤ s.game.player.m_RotationLimitsMinPitch) :
    (CPlayerComponent.UpdateCamera M frametime s).game.player.m_CurrentPitch
      = clamp (s.game.player.m_CurrentPitch
          + s.game.player.m_MouseDeltaRotation.y * s.game.player.m_RotationSpeed)
          s.game.player.m_RotationLimitsMaxPitch s.game.player.m_RotationLimitsMinPitch ∧
    s.game.player.m_RotationLimitsMaxPitch
      ≤ (CPlayerComponent.UpdateCamera M frametime s).game.player.m_CurrentPitch ∧
    (CPlayerComponent.UpdateCamera M frametime s).game.player.m_CurrentPitch
      ≤ s.game.player.m_RotationLimitsMinPitch := by
  refine ⟨rfl, ?_, ?_⟩
  · show _ ≤ clamp _ _ _
    exact le_min (le_max_right _ _) hlim
  · show clamp _ _ _ ≤ _
    exact min_le_right _ _

/-- The pitch after UpdateCamera when the limits are set as their descriptions say, the
minimum below the maximum: whatever the prior pitch and the mouse delta, the pitch is
m_RotationLimitsMinPitch. -/
theorem UpdateCamera_pitch_frozen {R : Type} [LinearOrderedField R] (M : EngineMath R)
    (frametime : R) (s : Scene R)
    (hlim : s.game.player.m_RotationLimitsMinPitch < s.game.player.m_RotationLimitsMaxPitch) :
    (CPlayerComponent.UpdateCamera M frametime s).game.player.m_CurrentPitch
      = s.game.player.m_RotationLimitsMinPitch := by
  show clamp _ _ _ = _
  exact min_eq_right (le_trans hlim.le (le_max_right _ _))

/-! ## The per-frame update -/

namespace CPlayerComponent

/-- The translation `UpdateCamera` gives the camera is the standing offset. -/
theorem UpdateCamera_translation {R : Type} [LinearOrderedField R] (M : EngineMath R)
    (frametime : R) (s : Scene R) :
    (UpdateCamera M frametime s).camera.translation = s.game.player.m_CameraOffsetStanding :=
  rfl

end CPlayerComponent

/-- C21: evaluation at the failing inputs. With the camera at (0, 0, 0), the camera offset
target at the standing offset (0, 0, 1.7) and frame time 0.05, the interpolation with
factor 10 * t is (0, 0, 0.85), but UpdateCamera sets the translation (0, 0, 1.7). With
the camera at the standing offset and the crouching offset (0, 0, 1) as target the
interpolation is (0, 0, 1.35), and the translation set is again (0, 0, 1.7). -/
theorem C21_camera_translation_not_interpolated :
    (movingScene 0 0 EPlayerState.Walking).camera.translation = ⟨0, 0, 0⟩ ∧
    sampleMath.CreateLerp (movingScene 0 0 EPlayerState.Walking).camera.translation
      (movingScene 0 0 EPlayerState.Walking).game.player.m_CameraEndOffset (10 * (1 / 20))
      = ⟨0, 0, 17 / 20⟩ ∧
    (CPlayerComponent.UpdateCamera sampleMath (1 / 20)
      (movingScene 0 0 EPlayerState.Walking)).camera.translation = ⟨0, 0, 17 / 10⟩ ∧
    crouchTargetScene.camera.translation = ⟨0, 0, 17 / 10⟩ ∧
    crouchTargetScene.game.player.m_CameraEndOffset = ⟨0, 0, 1⟩ ∧
    sampleMath.CreateLerp crouchTargetScene.camera.translation
      crouchTargetScene.game.player.m_CameraEndOffset (10 * (1 / 20)) = ⟨0, 0, 27 / 20⟩ ∧
    (CPlayerComponent.UpdateCamera sampleMath (1 / 20) crouchTargetScene).camera.translation
      = ⟨0, 0, 17 / 10⟩ := by
  refine ⟨rfl, ?_, ?_, rfl, rfl, ?_, ?_⟩
  · norm_num [sampleMath, movingScene, sampleGame, samplePlayer, CPlayerComponent.construct]
  · rw [CPlayerComponent.UpdateCamera_translation]
    norm_num [movingScene, sampleGame, samplePlayer, CPlayerComponent.construct]
  · norm_num [sampleMath, crouchTargetScene]
  · rw [CPlayerComponent.UpdateCamera_translation]
    norm_num [crouchTargetScene, samplePlayer, CPlayerComponent.construct]

/-- C22: for every state and frame time, the scene that the Update case of ProcessEvent
produces (the player state, the requests to the controller, the rotation given to the
entity and the transform given to the camera) is the scene that the four steps produce in
the order stance, movement, rotation, camera. The source runs the camera step before the
rotation step; the two write different members. -/
theorem C22_update_matches_spec_order {R : Type} [LinearOrderedField R] (M : EngineMath R)
    (frametime : R) (s : Scene R) :
    CPlayerComponent.ProcessEventUpdate M frametime s
      = CPlayerComponent.updateSequenceOfSpec M frametime s := by
  simp only [CPlayerComponent.ProcessEventUpdate, CPlayerComponent.updateSequenceOfSpec,
    CPlayerComponent.UpdateRotation, CPlayerComponent.UpdateCamera,
    CPlayerComponent.UpdateMovement, CPlayerComponent.stanceStep]

/-- C24: for every activation mode and every value v, the callbacks that InitializeInput
registers for the analog axes write the accumulated deltas: moveforward sets movement
delta y to v, moveback to -v, moveleft sets x to -v, moveright to v, yaw sets mouse delta
y to -v and pitch sets mouse delta x to -v; the other component of that delta and the
other delta are left as they were. -/
theorem C24_axis_callbacks_write_deltas {R : Type} [Field R] (E : EngineHeaders)
    (activationMode : Int) (v : R) (g : Game R) :
    ((CPlayerComponent.moveforwardCallback E activationMode v g).player.m_movementDelta
        = ⟨g.player.m_movementDelta.x, v⟩ ∧
      (CPlayerComponent.moveforwardCallback E activationMode v g).player.m_MouseDeltaRotation
        = g.player.m_MouseDeltaRotation) ∧
    ((CPlayerComponent.movebackCallback E activationMode v g).player.m_movementDelta
        = ⟨g.player.m_movementDelta.x, -v⟩ ∧
      (CPlayerComponent.movebackCallback E activationMode v g).player.m_MouseDeltaRotation
        = g.player.m_MouseDeltaRotation) ∧
    ((CPlayerComponent.moveleftCallback E activationMode v g).player.m_movementDelta
        = ⟨-v, g.player.m_movementDelta.y⟩ ∧
      (CPlayerComponent.moveleftCallback E activationMode v g).player.m_MouseDeltaRotation
        = g.player.m_MouseDeltaRotation) ∧
    ((CPlayerComponent.moverightCallback E activationMode v g).player.m_movementDelta
        = ⟨v, g.player.m_movementDelta.y⟩ ∧
      (CPlayerComponent.moverightCallback E activationMode v g).player.m_MouseDeltaRotation
        = g.player.m_MouseDeltaRotation) ∧
    ((CPlayerComponent.yawCallback activationMode v g).player.m_MouseDeltaRotation
        = ⟨g.player.m_MouseDeltaRotation.x, -v⟩ ∧
      (CPlayerComponent.yawCallback activationMode v g).player.m_movementDelta
        = g.player.m_movementDelta) ∧
    ((CPlayerComponent.pitchCallback activationMode v g).player.m_MouseDeltaRotation
        = ⟨-v, g.player.m_MouseDeltaRotation.y⟩ ∧
      (CPlayerComponent.pitchCallback activationMode v g).player.m_movementDelta
        = g.player.m_movementDelta) := by
  refine ⟨⟨?_, ?_⟩, ⟨?_, ?_⟩, ⟨?_, ?_⟩, ⟨?_, ?_⟩, ⟨rfl, rfl⟩, ⟨rfl, rfl⟩⟩ <;>
    simp only [CPlayerComponent.moveforwardCallback, CPlayerComponent.movebackCallback,
      CPlayerComponent.moveleftCallback, CPlayerComponent.moverightCallback,
      Game.QueueFragment] <;>
    split_ifs <;> rfl

/-! ## Input callbacks -/

namespace CPlayerComponent

/-- What the flag callbacks of `InitializeInput` do on press and on release, the two
activation modes being different values. -/
theorem flag_callbacks {R : Type} [Field R] (E : EngineHeaders)
    (hne : E.eAAM_OnPress ≠ E.eAAM_OnRelease) (v : R) (g : Game R) :
    ((moveforwardCallback E E.eAAM_OnPress v g).player.m_Walk = 1 ∧
      (moveforwardCallback E E.eAAM_OnPress v g).fragmentQueue = g.fragmentQueue ∧
      (moveforwardCallback E E.eAAM_OnRelease v g).player.m_Walk = 0) ∧
    ((movebackCallback E E.eAAM_OnPress v g).player.m_Back = 1 ∧
      (movebackCallback E E.eAAM_OnPress v g).fragmentQueue
        = g.fragmentQueue ++ [g.player.m_AnimationBack] ∧
      (movebackCallback E E.eAAM_OnRelease v g).player.m_Back = 0) ∧
    ((moveleftCallback E E.eAAM_OnPress v g).player.m_Left = 1 ∧
      (moveleftCallback E E.eAAM_OnPress v g).fragmentQueue
        = g.fragmentQueue ++ [g.player.m_AnimationLeft] ∧
      (moveleftCallback E E.eAAM_OnRelease v g).player.m_Left = 0) ∧
    ((moverightCallback E E.eAAM_OnPress v g).player.m_Right = 1 ∧
      (moverightCallback E E.eAAM_OnPress v g).fragmentQueue
        = g.fragmentQueue ++ [g.player.m_AnimationRight] ∧
      (moverightCallback E E.eAAM_OnRelease v g).player.m_Right = 0) ∧
    ((sprintCallback E E.eAAM_OnPress v g).player.m_Run = 1 ∧
      (sprintCallback E E.eAAM_OnPress v g).fragmentQueue
        = g.fragmentQueue ++ [g.player.m_AnimationRun] ∧
      (sprintCallback E E.eAAM_OnRelease v g).player.m_Run = 0) ∧
    ((crouchCallback E E.eAAM_OnPress v g).player.m_Crouch = 1 ∧
      (crouchCallback E E.eAAM_OnPress v g).fragmentQueue
        = g.fragmentQueue ++ [g.player.m_AnimationCrouch] ∧
      (crouchCallback E E.eAAM_OnRelease v g).player.m_Crouch = 0) := by
  have hne' : E.eAAM_OnRelease ≠ E.eAAM_OnPress := fun h => hne h.symm
  simp [moveforwardCallback, movebackCallback, moveleftCallback, moverightCallback,
    sprintCallback, crouchCallback, Game.QueueFragment, hne']

end CPlayerComponent

/-- C23: evaluation at the failing input. A press delivered to the moveforward callback sets
m_Walk to 1 and requests no fragment (the queue stays empty, the walk fragment "Walk" is
not requested), where a press delivered to the moveback, moveleft, moveright, sprint and
crouch callbacks sets the flag and requests the fragment of the action. -/
theorem C23_moveforward_press_requests_no_fragment :
    namedGame.fragmentQueue = [] ∧
    namedGame.player.m_AnimationWalk = "Walk" ∧
    (CPlayerComponent.moveforwardCallback sampleHeaders sampleHeaders.eAAM_OnPress 1
      namedGame).player.m_Walk = 1 ∧
    (CPlayerComponent.moveforwardCallback sampleHeaders sampleHeaders.eAAM_OnPress 1
      namedGame).fragmentQueue = [] ∧
    (CPlayerComponent.movebackCallback sampleHeaders sampleHeaders.eAAM_OnPress 1
      namedGame).fragmentQueue = ["Back"] ∧
    (CPlayerComponent.moveleftCallback sampleHeaders sampleHeaders.eAAM_OnPress 1
      namedGame).fragmentQueue = ["Left"] ∧
    (CPlayerComponent.moverightCallback sampleHeaders sampleHeaders.eAAM_OnPress 1
      namedGame).fragmentQueue = ["Right"] ∧
    (CPlayerComponent.sprintCallback sampleHeaders sampleHeaders.eAAM_OnPress 1
      namedGame).fragmentQueue = ["Run"] ∧
    (CPlayerComponent.crouchCallback sampleHeaders sampleHeaders.eAAM_OnPress 1
      namedGame).fragmentQueue = ["Crouch"] :=
  ⟨rfl, rfl, rfl, rfl, rfl, rfl, rfl, rfl, rfl⟩

/-! ## Yaw and pitch -/

namespace CPlayerComponent

/-- The stance step returns the scene it was given. -/
theorem stanceStep_eq {R : Type} [Field R] (s : Scene R) : stanceStep s = s := by
  unfold stanceStep
  rw [TryUpdateStance_eq]

end CPlayerComponent

/-- C26: the value delivered to the action named yaw does not reach the yaw: after the yaw
callback and an Update event the yaw quaternion and the rotation given to the entity are
what they are without the callback, and the pitch is the prior pitch plus -v times the
rotation speed, clamped; nothing else of the player differs but the stored mouse delta.
The value delivered to the action named pitch leaves the pitch and the camera as without
the callback and turns the yaw by -v times the rotation speed. -/
theorem C26_yaw_action_drives_pitch {R : Type} [LinearOrderedField R] (E : EngineHeaders)
    (M : EngineMath R) (activationMode : Int) (v frametime : R) (s : Scene R) :
    ((CPlayerComponent.ProcessEventUpdate M frametime
        (Op.apply E M s (Op.input InputAction.yaw activationMode v))).game.player.m_CurrentYaw
      = (CPlayerComponent.ProcessEventUpdate M frametime s).game.player.m_CurrentYaw ∧
    (CPlayerComponent.ProcessEventUpdate M frametime
        (Op.apply E M s (Op.input InputAction.yaw activationMode v))).entityRotation
      = (CPlayerComponent.ProcessEventUpdate M frametime s).entityRotation ∧
    (CPlayerComponent.ProcessEventUpdate M frametime
        (Op.apply E M s (Op.input InputAction.yaw activationMode v))).game.player.m_CurrentPitch
      = clamp (s.game.player.m_CurrentPitch + -v * s.game.player.m_RotationSpeed)
          s.game.player.m_RotationLimitsMaxPitch s.game.player.m_RotationLimitsMinPitch ∧
    (CPlayerComponent.ProcessEventUpdate M frametime
        (Op.apply E M s (Op.input InputAction.yaw activationMode v))).game.player
      = { (CPlayerComponent.ProcessEventUpdate M frametime s).game.player with
          m_MouseDeltaRotation := ⟨s.game.player.m_MouseDeltaRotation.x, -v⟩
          m_CurrentPitch :=
            clamp (s.game.player.m_CurrentPitch + -v * s.game.player.m_RotationSpeed)
              s.game.player.m_RotationLimitsMaxPitch s.game.player.m_RotationLimitsMinPitch }) ∧
    ((CPlayerComponent.ProcessEventUpdate M frametime
        (Op.apply E M s (Op.input InputAction.pitch activationMode v))).game.player.m_CurrentPitch
      = (CPlayerComponent.ProcessEventUpdate M frametime s).game.player.m_CurrentPitch ∧
    (CPlayerComponent.ProcessEventUpdate M frametime
        (Op.apply E M s (Op.input InputAction.pitch activationMode v))).camera
      = (CPlayerComponent.ProcessEventUpdate M frametime s).camera ∧
    (CPlayerComponent.ProcessEventUpdate M frametime
        (Op.apply E M s (Op.input InputAction.pitch activationMode v))).game.player.m_CurrentYaw
      = M.quatMul s.game.player.m_CurrentYaw
          (M.CreateRotationZ (-v * s.game.player.m_RotationSpeed)) ∧
    (CPlayerComponent.ProcessEventUpdate M frametime
        (Op.apply E M s (Op.input InputAction.pitch activationMode v))).game.player
      = { (CPlayerComponent.ProcessEventUpdate M frametime s).game.player with
          m_MouseDeltaRotation := ⟨-v, s.game.player.m_MouseDeltaRotation.y⟩
          m_CurrentYaw := M.quatMul s.game.player.m_CurrentYaw
            (M.CreateRotationZ (-v * s.game.player.m_RotationSpeed)) }) := by
  simp only [CPlayerComponent.ProcessEventUpdate, CPlayerComponent.stanceStep_eq, Op.apply,
    InputAction.callback]
  exact ⟨⟨rfl, rfl, rfl, rfl⟩, ⟨rfl, rfl, rfl, rfl⟩⟩

/-! ## Sequences of operations -/

namespace Op

variable {R : Type} [LinearOrderedField R]

/-- No callback of `InitializeInput` assigns the current stance. -/
theorem callback_stance (E : EngineHeaders) (action : InputAction) (activationMode : Int)
    (value : R) (g : Game R) :
    (action.callback E activationMode value g).player.m_currentPlayerStance
      = g.player.m_currentPlayerStance := by
  cases action <;>
    simp only [InputAction.callback, CPlayerComponent.moveforwardCallback,
      CPlayerComponent.movebackCallback, CPlayerComponent.moveleftCallback,
      CPlayerComponent.moverightCallback, CPlayerComponent.yawCallback,
      CPlayerComponent.pitchCallback, CPlayerComponent.sprintCallback,
      CPlayerComponent.jumpCallback, CPlayerComponent.crouchCallback, Game.QueueFragment,
      Game.AddVelocity] <;>
    split_ifs <;> rfl

/-- The lambda `defaultCallback` does not assign the current stance. -/
theorem default_stance (E : EngineHeaders) (actionName : String) (activationMode : Int)
    (value : R) (g : Game R) :
    (CFlowNode_ChangeInputBinding.defaultCallback E actionName activationMode value
      g).player.m_currentPlayerStance = g.player.m_currentPlayerStance := by
  simp only [CFlowNode_ChangeInputBinding.defaultCallback, Game.AddVelocity,
    apply_ite Game.player, apply_ite CPlayerComponent.m_currentPlayerStance, ite_self]

/-- No callback registered by `RebindAction` assigns the current stance. -/
theorem rebound_stance (E : EngineHeaders) (actionName : String) (activationMode : Int)
    (value : R) (g : Game R) :
    (CFlowNode_ChangeInputBinding.combinedCallback E actionName activationMode value
      g).player.m_currentPlayerStance = g.player.m_currentPlayerStance :=
  default_stance E actionName activationMode value g

/-- An operation leaves the current stance Standing. -/
theorem apply_standing (E : EngineHeaders) (M : EngineMath R) (s : Scene R) (op : Op R)
    (hs : s.game.player.m_currentPlayerStance = EPlayerStance.Standing) :
    (apply E M s op).game.player.m_currentPlayerStance = EPlayerStance.Standing := by
  cases op with
  | reset => rfl
  | input action activationMode value =>
    simp only [apply]
    rw [callback_stance, hs]
  | rebound actionName activationMode value =>
    simp only [apply]
    rw [rebound_stance, hs]
  | update frametime =>
    simp only [apply, CPlayerComponent.ProcessEventUpdate, CPlayerComponent.stanceStep_eq]
    exact hs

/-- A sequence of operations leaves the current stance Standing. -/
theorem run_standing (E : EngineHeaders) (M : EngineMath R) (ops : List (Op R)) :
    ∀ s : Scene R, s.game.player.m_currentPlayerStance = EPlayerStance.Standing →
      (run E M s ops).game.player.m_currentPlayerStance = EPlayerStance.Standing := by
  induction ops with
  | nil => intro s hs; exact hs
  | cons op rest ih =>
    intro s hs
    exact ih _ (apply_standing E M s op hs)

/-- The discrete state after a callback of `InitializeInput`. -/
theorem callback_state (E : EngineHeaders) (action : InputAction) (activationMode : Int)
    (value : R) (g : Game R) :
    (action.callback E activationMode value g).player.m_currentPlayerState
      = (if action = InputAction.sprint then
          (if activationMode = E.eAAM_OnPress then EPlayerState.Sprinting
           else if activationMode = E.eAAM_OnRelease then EPlayerState.Walking
           else g.player.m_currentPlayerState)
        else if action = InputAction.jump then
          (if activationMode = E.eAAM_OnPress then EPlayerState.Jump
           else g.player.m_currentPlayerState)
        else g.player.m_currentPlayerState) := by
  cases action <;>
    simp only [InputAction.callback, CPlayerComponent.moveforwardCallback,
      CPlayerComponent.movebackCallback, CPlayerComponent.moveleftCallback,
      CPlayerComponent.moverightCallback, CPlayerComponent.yawCallback,
      CPlayerComponent.pitchCallback, CPlayerComponent.sprintCallback,
      CPlayerComponent.jumpCallback, CPlayerComponent.crouchCallback, Game.QueueFragment,
      Game.AddVelocity, apply_ite Game.player,
      apply_ite CPlayerComponent.m_currentPlayerState, reduceCtorEq, if_false, if_true,
      ite_self]

/-- The discrete state after the lambda `defaultCallback`. -/
theorem default_state (E : EngineHeaders) (actionName : String) (activationMode : Int)
    (value : R) (g : Game R) :
    (CFlowNode_ChangeInputBinding.defaultCallback E actionName activationMode value
      g).player.m_currentPlayerState
      = (if actionName = "sprint" then
          (if activationMode = E.eAAM_OnPress then EPlayerState.Sprinting
           else if activationMode = E.eAAM_OnRelease then EPlayerState.Walking
           else g.player.m_currentPlayerState)
        else g.player.m_currentPlayerState) := by
  simp only [CFlowNode_ChangeInputBinding.defaultCallback, Game.AddVelocity,
    apply_ite Game.player, apply_ite CPlayerComponent.m_currentPlayerState, ite_self]
  by_cases hs : actionName = "sprint"
  · subst hs
    simp
  · simp only [if_neg hs, ite_self]

/-- The discrete state after a callback registered by `RebindAction`. -/
theorem rebound_state (E : EngineHeaders) (actionName : String) (activationMode : Int)
    (value : R) (g : Game R) :
    (CFlowNode_ChangeInputBinding.combinedCallback E actionName activationMode value
      g).player.m_currentPlayerState
      = (if actionName = "sprint" then
          (if activationMode = E.eAAM_OnPress then EPlayerState.Sprinting
           else if activationMode = E.eAAM_OnRelease then EPlayerState.Walking
           else g.player.m_currentPlayerState)
        else g.player.m_currentPlayerState) :=
  default_state E actionName activationMode value g

/-- The discrete state after an Update event is the state before. -/
theorem update_state (M : EngineMath R) (frametime : R) (s : Scene R) :
    (CPlayerComponent.ProcessEventUpdate M frametime s).game.player.m_currentPlayerState
      = s.game.player.m_currentPlayerState := by
  simp only [CPlayerComponent.ProcessEventUpdate, CPlayerComponent.stanceStep_eq]
  rfl

/-- An operation other than a sprint press does not make the state Sprinting. -/
theorem apply_not_sprinting (E : EngineHeaders) (M : EngineMath R) (s : Scene R) (op : Op R)
    (hop : isSprintPress E op = false)
    (hs : s.game.player.m_currentPlayerState ≠ EPlayerState.Sprinting) :
    (apply E M s op).game.player.m_currentPlayerState ≠ EPlayerState.Sprinting := by
  cases op with
  | reset => simp [apply, CPlayerComponent.Reset]
  | input action activationMode value =>
    simp only [apply, callback_state]
    simp only [isSprintPress, Bool.and_eq_false_imp, decide_eq_true_eq,
      decide_eq_false_iff_not] at hop
    split_ifs with h1 h2 h3 h4 h5 <;> first | exact hs | exact absurd h2 (hop h1) | simp
  | rebound actionName activationMode value =>
    simp only [apply, rebound_state]
    simp only [isSprintPress, Bool.and_eq_false_imp, decide_eq_true_eq,
      decide_eq_false_iff_not] at hop
    split_ifs with h1 h2 h3 <;> first | exact hs | exact absurd h2 (hop h1) | simp
  | update frametime =>
    simp only [apply, update_state]
    exact hs

/-- A sequence without sprint press does not make the state Sprinting. -/
theorem run_not_sprinting (E : EngineHeaders) (M : EngineMath R) (ops : List (Op R)) :
    ∀ s : Scene R, (∀ op ∈ ops, isSprintPress E op = false) →
      s.game.player.m_currentPlayerState ≠ EPlayerState.Sprinting →
      (run E M s ops).game.player.m_currentPlayerState ≠ EPlayerState.Sprinting := by
  induction ops with
  | nil => intro s _ hs; exact hs
  | cons op rest ih =>
    intro s hops hs
    exact ih _ (fun o ho => hops o (List.mem_cons_of_mem _ ho))
      (apply_not_sprinting E M s op (hops op (List.mem_cons_self _ _)) hs)

/-- No operation makes the state Idle. -/
theorem apply_idle (E : EngineHeaders) (M : EngineMath R) (s : Scene R) (op : Op R)
    (h : (apply E M s op).game.player.m_currentPlayerState = EPlayerState.Idle) :
    s.game.player.m_currentPlayerState = EPlayerState.Idle := by
  cases op with
  | reset => simp [apply, CPlayerComponent.Reset] at h
  | input action activationMode value =>
    simp only [apply, callback_state] at h
    split_ifs at h <;> exact h
  | rebound actionName activationMode value =>
    simp only [apply, rebound_state] at h
    split_ifs at h <;> exact h
  | update frametime =>
    simp only [apply, update_state] at h
    exact h

end Op

/-- C25: in every state reachable from a newly constructed player by a sequence of Reset,
input callbacks (of InitializeInput or registered by RebindAction) and Update events, the
current stance is Standing; and TryUpdateStance leaves the current stance, the camera
offset target and the collider dimensions of every state as they were. -/
theorem C25_stance_stays_standing {R : Type} [LinearOrderedField R] (E : EngineHeaders)
    (M : EngineMath R) (s : Scene R) (h : Reachable E M s) :
    s.game.player.m_currentPlayerStance = EPlayerStance.Standing ∧
    ∀ g : Game R,
      (CPlayerComponent.TryUpdateStance g).player.m_currentPlayerStance
        = g.player.m_currentPlayerStance ∧
      (CPlayerComponent.TryUpdateStance g).player.m_CameraEndOffset
        = g.player.m_CameraEndOffset ∧
      (CPlayerComponent.TryUpdateStance g).physicalEntity = g.physicalEntity := by
  obtain ⟨s0, ops, h0, hrun⟩ := h
  constructor
  · rw [hrun]
    apply Op.run_standing
    rw [h0]
    rfl
  · intro g
    rw [CPlayerComponent.TryUpdateStance_eq]
    exact ⟨rfl, rfl, rfl⟩

theorem C25_stance_stays_standing_witness :
    Reachable sampleHeaders sampleMath
      (Op.run sampleHeaders sampleMath constructedScene
        [Op.input InputAction.crouch sampleHeaders.eAAM_OnPress 1, Op.update (1 / 20)]) ∧
    (Op.run sampleHeaders sampleMath constructedScene
      [Op.input InputAction.crouch sampleHeaders.eAAM_OnPress 1,
        Op.update (1 / 20)]).game.player.m_desiredPlayerStance = EPlayerStance.Crouching ∧
    (Op.run sampleHeaders sampleMath constructedScene
      [Op.input InputAction.crouch sampleHeaders.eAAM_OnPress 1,
        Op.update (1 / 20)]).game.player.m_currentPlayerStance = EPlayerStance.Standing :=
  ⟨⟨constructedScene, _, rfl, rfl⟩, rfl,
    (C25_stance_stays_standing sampleHeaders sampleMath _
      ⟨constructedScene, _, rfl, rfl⟩).1⟩

/-- C27: UpdateMovement scales by the run speed in the state Sprinting and by the walk speed
in every other state, and a press delivered to the jump callback of InitializeInput makes
the state Jump. So from a Sprinting state, after that jump press and any further operations
without a sprint press, the state is not Sprinting and UpdateMovement submits the velocity
scaled by the walk speed; a sprint press makes the state Sprinting. No operation makes the
state Idle. -/
theorem C27_jump_press_ends_sprint {R : Type} [LinearOrderedField R] (E : EngineHeaders)
    (M : EngineMath R) (s : Scene R) (v : R) (ops : List (Op R))
    (_hs : s.game.player.m_currentPlayerState = EPlayerState.Sprinting)
    (hops : ∀ op ∈ ops, Op.isSprintPress E op = false) :
    (∀ p : CPlayerComponent R,
      (p.m_currentPlayerState = EPlayerState.Sprinting →
        CPlayerComponent.playerMoveSpeed p = p.m_RunSpeed) ∧
      (p.m_currentPlayerState ≠ EPlayerState.Sprinting →
        CPlayerComponent.playerMoveSpeed p = p.m_WalkSpeed)) ∧
    (Op.apply E M s
      (Op.input InputAction.jump E.eAAM_OnPress v)).game.player.m_currentPlayerState
      = EPlayerState.Jump ∧
    (Op.run E M s
      (Op.input InputAction.jump E.eAAM_OnPress v :: ops)).game.player.m_currentPlayerState
      ≠ EPlayerState.Sprinting ∧
    (CPlayerComponent.UpdateMovement M
      (Op.run E M s (Op.input InputAction.jump E.eAAM_OnPress v :: ops))).game.controllerCommands
      = (Op.run E M s
          (Op.input InputAction.jump E.eAAM_OnPress v :: ops)).game.controllerCommands ++
        [ControllerCommand.SetVelocity
          ((M.rotate
              (Op.run E M s (Op.input InputAction.jump E.eAAM_OnPress v :: ops)).worldRotation
              (CPlayerComponent.movementDirection M
                (Op.run E M s
                  (Op.input InputAction.jump E.eAAM_OnPress v :: ops)).game.player)).scale
            (Op.run E M s
              (Op.input InputAction.jump E.eAAM_OnPress v :: ops)).game.player.m_WalkSpeed)] ∧
    (∀ (s1 : Scene R) (v1 : R),
      (Op.apply E M s1
        (Op.input InputAction.sprint E.eAAM_OnPress v1)).game.player.m_currentPlayerState
        = EPlayerState.Sprinting) ∧
    (∀ (s1 : Scene R) (op : Op R),
      (Op.apply E M s1 op).game.player.m_currentPlayerState = EPlayerState.Idle →
      s1.game.player.m_currentPlayerState = EPlayerState.Idle) := by
  have hspeed : ∀ p : CPlayerComponent R,
      p.m_currentPlayerState ≠ EPlayerState.Sprinting →
      CPlayerComponent.playerMoveSpeed p = p.m_WalkSpeed := by
    intro p hp
    simp [CPlayerComponent.playerMoveSpeed, hp]
  have hjump : (Op.apply E M s
      (Op.input InputAction.jump E.eAAM_OnPress v)).game.player.m_currentPlayerState
      = EPlayerState.Jump := by
    simp [Op.apply, Op.callback_state]
  have hrun : (Op.run E M s
      (Op.input InputAction.jump E.eAAM_OnPress v :: ops)).game.player.m_currentPlayerState
      ≠ EPlayerState.Sprinting := by
    show (Op.run E M (Op.apply E M s (Op.input InputAction.jump E.eAAM_OnPress v))
      ops).game.player.m_currentPlayerState ≠ EPlayerState.Sprinting
    apply Op.run_not_sprinting E M ops _ hops
    rw [hjump]
    decide
  refine ⟨fun p => ⟨?_, hspeed p⟩, hjump, hrun, ?_, ?_, ?_⟩
  · intro hp
    simp [CPlayerComponent.playerMoveSpeed, hp]
  · simp only [CPlayerComponent.UpdateMovement, hspeed _ hrun]
  · intro s1 v1
    simp [Op.apply, Op.callback_state]
  · intro s1 op h
    exact Op.apply_idle E M s1 op h

theorem C27_jump_press_ends_sprint_witness :
    (movingScene 1 0 EPlayerState.Sprinting).game.player.m_currentPlayerState
      = EPlayerState.Sprinting ∧
    (∀ op ∈ [Op.update (1 / 20 : ℚ),
        Op.input InputAction.moveforward sampleHeaders.eAAM_OnPress 1, Op.update (1 / 20)],
      Op.isSprintPress sampleHeaders op = false) ∧
    (Op.run sampleHeaders sampleMath (movingScene 1 0 EPlayerState.Sprinting)
      [Op.input InputAction.jump sampleHeaders.eAAM_OnPress 1, Op.update (1 / 20),
        Op.input InputAction.moveforward sampleHeaders.eAAM_OnPress 1,
        Op.update (1 / 20)]).game.player.m_currentPlayerState ≠ EPlayerState.Sprinting :=
  ⟨rfl, by simp [Op.isSprintPress],
    (C27_jump_press_ends_sprint sampleHeaders sampleMath
      (movingScene 1 0 EPlayerState.Sprinting) 1
      [Op.update (1 / 20), Op.input InputAction.moveforward sampleHeaders.eAAM_OnPress 1,
        Op.update (1 / 20)] rfl (by simp [Op.isSprintPress])).2.2.1⟩

end PlayerComponent
